import Mathlib

/-!
# Kuma control plane: configuration generation engine

A shallow embedding of

* `pkg/xds/ingress/outbound.go` (`BuildEndpointMap`, `localityFromTags`),
* `pkg/xds/generator/proxy_template.go` (`destinationClusterName`, the
  transparent / inbound / outbound proxy generators and the default profile),

followed by the properties established about them.

Conventions of the embedding.

* A Go `map[string]V` is the list of its entries in the order a `range` loop
  visits them; a lookup returns the entry of the key.  Results that the source
  computes by ranging over a map are proved for every such order.
* Go strings are Lean strings.  Go compares strings byte-wise; on valid UTF-8
  (all tag keys and values come from protobuf `string` fields) this is the
  code-point order of `String.toList`, which is the order used here.
* Unsigned machine integers (ports, weights, priorities) are `Nat`; none of the
  embedded code does arithmetic on them.
* A function returning `(T, error)` returns `Except String T`; a Go run-time
  panic is an `Except.error` as well, with the message `nilPointerDereference`.
-/

set_option linter.unusedVariables false

namespace Kuma

/-! ## Go maps -/

/-- Go `map[string]V`: the entries in iteration order. -/
abbrev GoMap (V : Type) := List (String × V)

/-- Tag sets and tag selectors, `map[string]string`. -/
abbrev Tags := GoMap String

/-- The two-valued lookup `v, ok := m[k]`. -/
def mapGet? {V : Type} (m : GoMap V) (k : String) : Option V :=
  List.lookup k m

/-- The one-valued lookup `m[k]` of a string map: the zero value for a missing key. -/
def mapGet (m : Tags) (k : String) : String :=
  (mapGet? m k).getD ""

/-- The assignment `m[k] = v`: overwrites the entry of `k`, or adds one. -/
def mapSet {V : Type} : GoMap V → String → V → GoMap V
  | [], k, v => [(k, v)]
  | (k', v') :: rest, k, v =>
    if k' == k then (k', v) :: rest else (k', v') :: mapSet rest k v

/-- Value of `mesh_proto.ServiceTag`: the tag key under which the resources of the
e2e suites declare their service (`kuma.io/service: external-service-1`). -/
def ServiceTag : String := "kuma.io/service"

/-- Value of `mesh_proto.ZoneTag`: the tag key under which the resources of the
e2e suites declare their zone (`kuma.io/zone: kuma-2-zone`). -/
def ZoneTag : String := "kuma.io/zone"

/-- Message of the run-time panic raised by reading a field through a nil pointer. -/
def nilPointerDereference : String :=
  "runtime error: invalid memory address or nil pointer dereference"

/-! ## Selectors -/

/-- Modelled from the spec: `TagSelector.Matches` lives in the API package, whose
source is absent.  "An endpoint tag set matches a selector iff every key in
the selector is present in the tag set with an equal value (extra tags on the
endpoint are ignored)." -/
def TagSelector.Matches (selector : Tags) (tags : Tags) : Bool :=
  selector.all (fun kv => mapGet? tags kv.1 == some kv.2)

/-- Modelled from the spec: `TagSelectorSet.Matches` lives in the API package,
whose source is absent.  A tag set is skipped when it "matches none of the
service's selectors": the set matches when one of its selectors does. -/
def TagSelectorSet.Matches (selectors : List Tags) (tags : Tags) : Bool :=
  selectors.any (fun selector => TagSelector.Matches selector tags)

/-- Modelled from the spec: `envoy.Tags.WithTags` is absent from the sources.
"Merge in a synthetic mesh tag": a copy of the tags in which `key` maps to
`value`. -/
def WithTags (tags : Tags) (key value : String) : Tags :=
  mapSet tags key value

/-! ## `pkg/xds/ingress/outbound.go` -/

/-- Embeds `core_xds.Locality`. -/
structure Locality where
  Zone : String
  Priority : Nat
  deriving DecidableEq, Repr

/-- Embeds `core_xds.ExternalService`; the source only ever builds its zero value. -/
structure ExternalService where
  deriving DecidableEq, Repr

/-- Embeds `core_xds.Endpoint`; the two pointer fields are options. -/
structure Endpoint where
  Target : String
  Port : Nat
  Tags : Tags
  Weight : Nat
  Locality : Option Locality := none
  ExternalService : Option ExternalService := none
  deriving DecidableEq, Repr

/-- Embeds `core_xds.EndpointMap`, `map[ServiceName][]Endpoint`. -/
abbrev EndpointMap := GoMap (List Endpoint)

/-- Embeds `core_xds.DestinationMap`, `map[ServiceName]TagSelectorSet`. -/
abbrev DestinationMap := GoMap (List Tags)

/-- An inbound interface of a dataplane.  Modelled from the spec: health is the
flag that `GetHealthyInbounds` (absent from the sources) selects on. -/
structure Inbound where
  Port : Nat
  Address : String
  Tags : Tags
  Healthy : Bool
  deriving DecidableEq, Repr

/-- Embeds `mesh_proto.Dataplane_Networking`, the part read here. -/
structure Networking where
  Address : String
  Inbound : List Inbound
  deriving DecidableEq, Repr

/-- Embeds `mesh_proto.InboundInterface`. -/
structure InboundInterface where
  DataplaneIP : String
  DataplanePort : Nat
  WorkloadPort : Nat
  deriving DecidableEq, Repr

/-- Embeds `core_mesh.DataplaneResource`: `Mesh` is `GetMeta().GetMesh()`. -/
structure DataplaneResource where
  Mesh : String
  Networking : Networking
  deriving DecidableEq, Repr

/-- Embeds `core_mesh.ZoneEgressResource`: the address and port that
`Spec.GetNetworking().GetAddress()` and `.GetPort()` return. -/
structure ZoneEgressResource where
  Address : String
  Port : Nat
  deriving DecidableEq, Repr

/-- Embeds `core_mesh.ExternalServiceResource`: `Name` is `GetMeta().GetName()`, `Tags`
is `Spec.GetTags()`, `Address` is the external service's own address. -/
structure ExternalServiceResource where
  Name : String
  Address : String
  Tags : Tags
  deriving DecidableEq, Repr

/-- Functions of the API package that `BuildEndpointMap` calls and whose source
is absent. -/
structure MeshApi where
  /-- Embeds `Dataplane_Networking.ToInboundInterface`. -/
  ToInboundInterface : Networking → Inbound → InboundInterface

/-- Modelled from the spec: `GetHealthyInbounds` is absent from the sources; it
yields "every healthy inbound interface", in order. -/
def GetHealthyInbounds (networking : Networking) : List Inbound :=
  networking.Inbound.filter (fun inbound => inbound.Healthy)

def priorityLocal : Nat := 0

def priorityRemote : Nat := 1

/-- Embeds `localityFromTags`: the priority argument is overwritten before use. -/
def localityFromTags (priority : Nat) (tags : Tags) : Option Locality :=
  match mapGet? tags ZoneTag with
  | none => none
  | some zone =>
    let priority := priorityLocal
    some { Zone := zone, Priority := priority }

/-- The statement `outbound[service] = append(outbound[service], endpoint)`. -/
def appendEndpoint (outbound : EndpointMap) (service : String) (endpoint : Endpoint) :
    EndpointMap :=
  mapSet outbound service ((mapGet? outbound service).getD [] ++ [endpoint])

/-- The endpoint literal of the dataplane loop. -/
def dataplaneEndpoint (api : MeshApi) (dataplane : DataplaneResource) (inbound : Inbound) :
    Endpoint :=
  let withMesh := WithTags inbound.Tags "mesh" dataplane.Mesh
  let iface := api.ToInboundInterface dataplane.Networking inbound
  { Target := iface.DataplaneIP
    Port := iface.DataplanePort
    Tags := withMesh
    Weight := 1 }

/-- Body of the inner loop of `BuildEndpointMap` over the healthy inbounds. -/
def addInbound (api : MeshApi) (destinations : DestinationMap) (dataplane : DataplaneResource)
    (outbound : EndpointMap) (inbound : Inbound) : EndpointMap :=
  let service := mapGet inbound.Tags ServiceTag
  match mapGet? destinations service with
  | none => outbound
  | some selectors =>
    let withMesh := WithTags inbound.Tags "mesh" dataplane.Mesh
    if !TagSelectorSet.Matches selectors withMesh then outbound
    else appendEndpoint outbound service (dataplaneEndpoint api dataplane inbound)

/-- Body of the outer loop of `BuildEndpointMap` over the dataplanes. -/
def addDataplane (api : MeshApi) (destinations : DestinationMap) (outbound : EndpointMap)
    (dataplane : DataplaneResource) : EndpointMap :=
  (GetHealthyInbounds dataplane.Networking).foldl (addInbound api destinations dataplane) outbound

/-- The first loop of `BuildEndpointMap`, started on the empty map. -/
def addDataplanes (api : MeshApi) (destinations : DestinationMap)
    (dataplanes : List DataplaneResource) : EndpointMap :=
  dataplanes.foldl (addDataplane api destinations) []

/-- The endpoint literal of the external-service loop. -/
def externalServiceEndpoint (zoneEgress : ZoneEgressResource)
    (externalService : ExternalServiceResource) : Endpoint :=
  let serviceTags := externalService.Tags
  let locality := localityFromTags priorityRemote serviceTags
  { Target := zoneEgress.Address
    Port := zoneEgress.Port
    Tags := serviceTags
    Weight := 1
    Locality := locality
    ExternalService := some {} }

/-- The second loop of `BuildEndpointMap`.  Each iteration reads
`zoneEgress.Spec`, which panics when `zoneEgress` is nil. -/
def addExternalServices (zoneEgress : Option ZoneEgressResource) :
    List ExternalServiceResource → EndpointMap → Except String EndpointMap
  | [], outbound => .ok outbound
  | externalService :: rest, outbound =>
    match zoneEgress with
    | none => .error nilPointerDereference
    | some ze =>
      let serviceName := mapGet externalService.Tags ServiceTag
      addExternalServices zoneEgress rest
        (appendEndpoint outbound serviceName (externalServiceEndpoint ze externalService))

/-- Embeds `BuildEndpointMap`; the nil map is `none`. -/
def BuildEndpointMap (api : MeshApi) (destinations : DestinationMap)
    (zoneEgress : Option ZoneEgressResource) (dataplanes : List DataplaneResource)
    (externalServices : List ExternalServiceResource) : Except String (Option EndpointMap) :=
  if destinations.length = 0 then .ok none
  else
    match addExternalServices zoneEgress externalServices
        (addDataplanes api destinations dataplanes) with
    | .error e => .error e
    | .ok outbound => .ok (some outbound)

/-! ### Reading an endpoint map -/

/-- Go's `outbound[service]` on an endpoint map: the nil slice for a missing key. -/
def endpointsAt (m : EndpointMap) (service : String) : List Endpoint :=
  (mapGet? m service).getD []

/-- Whether an inbound passes the two `continue` tests of the dataplane loop
for the key `s`: its service tag is `s`, `destinations` has an entry for `s`,
and its tags merged with the mesh tag match the selectors of `s`. -/
def selected (destinations : DestinationMap) (dataplane : DataplaneResource) (s : String)
    (inbound : Inbound) : Bool :=
  mapGet inbound.Tags ServiceTag == s &&
    match mapGet? destinations s with
    | none => false
    | some selectors =>
      TagSelectorSet.Matches selectors (WithTags inbound.Tags "mesh" dataplane.Mesh)

/-- Whether an inbound of `dataplane` contributes an endpoint under `s`: it is
healthy and it is selected for `s`. -/
def contributes (destinations : DestinationMap) (dataplane : DataplaneResource) (s : String)
    (inbound : Inbound) : Bool :=
  inbound.Healthy && selected destinations dataplane s inbound

/-- The endpoints the dataplanes contribute under `s`: per dataplane, in list
order, one for each contributing inbound, in inbound order. -/
def dataplaneEndpoints (api : MeshApi) (destinations : DestinationMap)
    (dataplanes : List DataplaneResource) (s : String) : List Endpoint :=
  dataplanes.flatMap (fun dp =>
    (dp.Networking.Inbound.filter (contributes destinations dp s)).map
      (dataplaneEndpoint api dp))

/-- The endpoints the external services contribute under `s`, in list order. -/
def externalServiceEndpoints (zoneEgress : ZoneEgressResource)
    (externalServices : List ExternalServiceResource) (s : String) : List Endpoint :=
  (externalServices.filter (fun es => mapGet es.Tags ServiceTag == s)).map
    (externalServiceEndpoint zoneEgress)

/-! ## `pkg/xds/generator/proxy_template.go` -/

/-- Go's `sort.Strings`: ascending byte-wise order. -/
def sortStrings (l : List String) : List String :=
  l.insertionSort (fun a b => a.toList ≤ b.toList)

/-- Embeds `destinationClusterName`; `selector` lists the entries in the order the
`range` loop visits them. -/
def destinationClusterName (service : String) (selector : Tags) : String :=
  let pairs := (selector.filter (fun kv => kv.1 != ServiceTag)).map
    (fun kv => kv.1 ++ "=" ++ kv.2)
  if pairs.length = 0 then service
  else service ++ "\x7b" ++ ",".intercalate (sortStrings pairs) ++ "\x7d"

/-- The name format the spec words for tag-differentiated clusters, "keys sorted
ascending": the non-service pairs ordered by key.  Used only to compare with
`destinationClusterName`. -/
def keySortedClusterName (service : String) (selector : Tags) : String :=
  let pairs := ((selector.filter (fun kv => kv.1 != ServiceTag)).insertionSort
    (fun a b => a.1.toList ≤ b.1.toList)).map (fun kv => kv.1 ++ "=" ++ kv.2)
  if pairs.length = 0 then service
  else service ++ "\x7b" ++ ",".intercalate pairs ++ "\x7d"

/-- Embeds `envoy.ClusterInfo`. -/
structure ClusterInfo where
  Name : String
  Weight : Nat
  Tags : Tags
  deriving DecidableEq, Repr

/-- A listener payload, recorded as the call of the `envoy` package that builds it. -/
inductive Listener where
  /-- Embeds `envoy.CreateInboundListener(ctx, name, ip, port, cluster, virtual, permissions, metadata)`. -/
  | inbound (name ip : String) (port : Nat) (cluster : String) (virtual : Bool)
      (permissions : Option String) (metadata : Option String)
  /-- The listener returned by a successful `envoy.CreateOutboundListener`. -/
  | outbound (name ip : String) (port : Nat) (service : String) (clusters : List ClusterInfo)
      (virtual : Bool) (sourceService destinationService : String) (log : Option String)
  /-- Embeds `envoy.CreateCatchAllListener(ctx, name, ip, port, cluster)`. -/
  | catchAll (name ip : String) (port : Nat) (cluster : String)
  deriving DecidableEq, Repr

/-- A cluster payload, recorded as the call of the `envoy` package that builds it. -/
inductive Cluster where
  /-- Embeds `envoy.CreateLocalCluster(name, ip, port)`. -/
  | localCluster (name ip : String) (port : Nat)
  /-- Embeds `envoy.CreateEdsCluster(ctx, name, metadata)`. -/
  | edsCluster (name : String) (metadata : Option String)
  /-- Embeds `envoy.CreatePassThroughCluster(name)`. -/
  | passThrough (name : String)
  deriving DecidableEq, Repr

/-- Embeds `ResourcePayload`: the three kinds of xDS resource the generators emit. -/
inductive ResourcePayload where
  | listener (l : Listener)
  | cluster (c : Cluster)
  /-- Embeds `envoy.CreateClusterLoadAssignment(name, endpoints)`. -/
  | clusterLoadAssignment (name : String) (endpoints : List Endpoint)
  deriving DecidableEq, Repr

/-- The kind of a resource. -/
inductive Kind where
  | listener
  | cluster
  | loadAssignment
  deriving DecidableEq, Repr

/-- The kind of a payload. -/
def ResourcePayload.kind : ResourcePayload → Kind
  | .listener _ => .listener
  | .cluster _ => .cluster
  | .clusterLoadAssignment _ _ => .loadAssignment

/-- Embeds `generator.Resource`; its field `Resource` is `Payload` here. -/
structure Resource where
  Name : String
  Version : String := ""
  Payload : ResourcePayload
  deriving DecidableEq, Repr

/-- Kind and name of a resource: what must be unique within a generation pass. -/
def Resource.key (r : Resource) : Kind × String :=
  (r.Payload.kind, r.Name)

/-- Embeds `kuma_mesh.OutboundInterface`, a parsed outbound interface. -/
structure OutboundInterface where
  DataplaneIP : String
  DataplanePort : Nat
  deriving DecidableEq, Repr

/-- Embeds `Dataplane_Networking_Outbound`. -/
structure DataplaneOutbound where
  Interface : String
  Service : String
  deriving DecidableEq, Repr

/-- Embeds `TrafficRoute_WeightedDestination`. -/
structure WeightedDestination where
  Weight : Nat
  Destination : Tags
  deriving DecidableEq, Repr

/-- Embeds `TrafficRouteResource`: `Conf` is `Spec.Conf`. -/
structure TrafficRouteResource where
  Conf : List WeightedDestination
  deriving DecidableEq, Repr

/-- Embeds `model.Proxy` as the generators of `proxy_template.go` read it.
`InboundSpec` are the declared inbound interface strings, `Outbound` is
`Dataplane.Spec.Networking.GetOutbound()`, `RedirectPort` is
`GetTransparentProxying().GetRedirectPort()`, `Version` is
`Dataplane.Meta.GetVersion()`, `IdentifyingService` is
`Dataplane.Spec.GetIdentifyingService()`.  A traffic route is a pointer and may
be nil. -/
structure Proxy where
  InboundSpec : List String
  Outbound : List DataplaneOutbound
  RedirectPort : Nat
  Version : String
  IdentifyingService : String
  TrafficRoutes : GoMap (Option TrafficRouteResource)
  OutboundTargets : EndpointMap
  TrafficPermissions : GoMap String
  LogsOutbounds : GoMap String
  Metadata : Option String
  deriving DecidableEq, Repr

/-- Functions that `proxy_template.go` calls and whose source is absent. -/
structure GeneratorApi where
  /-- Embeds `Dataplane_Networking.GetInboundInterfaces`. -/
  GetInboundInterfaces : List String → Except String (List InboundInterface)
  /-- Embeds `InboundInterface.String`. -/
  inboundString : InboundInterface → String
  /-- Embeds `kuma_mesh.ParseOutboundInterface`. -/
  ParseOutboundInterface : String → Except String OutboundInterface
  /-- Embeds `envoy.CreateOutboundListener`, after the context argument. -/
  CreateOutboundListener : String → String → Nat → String → List ClusterInfo → Bool →
    String → String → Option String → Proxy → Except String Listener
  /-- Go's `%q` verb on a string. -/
  quote : String → String
  /-- How the composite generator annotates the error of its sub-generator `i`. -/
  annotate : Nat → String → String

/-- Modelled from the spec: `kuma_mesh.MatchTags` and `EndpointList.Filter` are
absent from the sources; a load assignment is built "from the subset of known
endpoints for that service matching the cluster's tags". -/
def filterEndpoints (endpoints : List Endpoint) (selector : Tags) : List Endpoint :=
  endpoints.filter (fun e => TagSelector.Matches selector e.Tags)

/-- Embeds `TransparentProxyGenerator.Generate`. -/
def TransparentProxyGenerator.Generate (proxy : Proxy) : Except String (List Resource) :=
  let redirectPort := proxy.RedirectPort
  if redirectPort = 0 then .ok []
  else .ok
    [ { Name := "catch_all"
        Version := proxy.Version
        Payload := .listener (.catchAll "catch_all" "0.0.0.0" redirectPort "pass_through") },
      { Name := "pass_through"
        Version := proxy.Version
        Payload := .cluster (.passThrough "pass_through") } ]

/-- Name of the local cluster of an inbound interface, `localhost:%d`. -/
def localClusterName (endpoint : InboundInterface) : String :=
  "localhost:" ++ toString endpoint.WorkloadPort

/-- Name of the listener of an inbound interface, `inbound:%s:%d`. -/
def inboundListenerName (endpoint : InboundInterface) : String :=
  "inbound:" ++ endpoint.DataplaneIP ++ ":" ++ toString endpoint.DataplanePort

/-- Name of the listener of an outbound interface, `outbound:%s:%d`. -/
def outboundListenerName (endpoint : OutboundInterface) : String :=
  "outbound:" ++ endpoint.DataplaneIP ++ ":" ++ toString endpoint.DataplanePort

/-- Body of the loop of `InboundProxyGenerator.Generate`; the state is the
resource list and the `names` set. -/
def InboundProxyGenerator.step (api : GeneratorApi) (proxy : Proxy) (virtual : Bool)
    (st : List Resource × List String) (endpoint : InboundInterface) :
    List Resource × List String :=
  let localCluster := localClusterName endpoint
  let st1 : List Resource × List String :=
    if localCluster ∈ st.2 then st
    else
      (st.1 ++ [{ Name := localCluster
                  Version := ""
                  Payload := .cluster (.localCluster localCluster "127.0.0.1"
                    endpoint.WorkloadPort) }],
       localCluster :: st.2)
  let inboundListener := inboundListenerName endpoint
  if inboundListener ∈ st1.2 then st1
  else
    (st1.1 ++ [{ Name := inboundListener
                 Version := ""
                 Payload := .listener (.inbound inboundListener endpoint.DataplaneIP
                   endpoint.DataplanePort localCluster virtual
                   (mapGet? proxy.TrafficPermissions (api.inboundString endpoint))
                   proxy.Metadata) }],
     inboundListener :: st1.2)

/-- Embeds `InboundProxyGenerator.Generate`. -/
def InboundProxyGenerator.Generate (api : GeneratorApi) (proxy : Proxy) :
    Except String (List Resource) :=
  match api.GetInboundInterfaces proxy.InboundSpec with
  | .error err => .error err
  | .ok endpoints =>
    if endpoints.length = 0 then .ok []
    else
      let virtual := proxy.RedirectPort != 0
      .ok (endpoints.foldl (InboundProxyGenerator.step api proxy virtual) ([], [])).1

/-- The inner loop of `OutboundProxyGenerator.Generate` that builds `clusters`
from the destinations of a route. -/
def OutboundProxyGenerator.routeClusters (route : TrafficRouteResource) : List ClusterInfo :=
  route.Conf.filterMap (fun destination =>
    match mapGet? destination.Destination ServiceTag with
    | none => none
    | some service =>
      if destination.Weight = 0 then none
      else some { Name := destinationClusterName service destination.Destination
                  Weight := destination.Weight
                  Tags := destination.Destination })

/-- The two resources appended for a cluster whose name is not used yet. -/
def OutboundProxyGenerator.clusterResources (proxy : Proxy) (cluster : ClusterInfo) :
    List Resource :=
  let endpoints := filterEndpoints
    ((mapGet? proxy.OutboundTargets (mapGet cluster.Tags ServiceTag)).getD []) cluster.Tags
  [ { Name := cluster.Name
      Payload := .cluster (.edsCluster cluster.Name proxy.Metadata) },
    { Name := cluster.Name
      Payload := .clusterLoadAssignment cluster.Name endpoints } ]

/-- Body of the loop over `clusters` of `OutboundProxyGenerator.Generate`. -/
def OutboundProxyGenerator.addCluster (proxy : Proxy) (st : List Resource × List String)
    (cluster : ClusterInfo) : List Resource × List String :=
  if cluster.Name ∈ st.2 then st
  else (st.1 ++ OutboundProxyGenerator.clusterResources proxy cluster, cluster.Name :: st.2)

/-- The call of `envoy.CreateOutboundListener` for one outbound interface. -/
def OutboundProxyGenerator.createListener (api : GeneratorApi) (proxy : Proxy)
    (oface : DataplaneOutbound) (endpoint : OutboundInterface) (clusters : List ClusterInfo) :
    Except String Listener :=
  let virtual := proxy.RedirectPort != 0
  let sourceService := proxy.IdentifyingService
  let destinationService := oface.Service
  api.CreateOutboundListener (outboundListenerName endpoint) endpoint.DataplaneIP
    endpoint.DataplanePort oface.Service clusters virtual sourceService destinationService
    (mapGet? proxy.LogsOutbounds oface.Interface) proxy

/-- The `route == nil` test: no entry, or a nil entry. -/
def routeOf (proxy : Proxy) (service : String) : Option TrafficRouteResource :=
  (mapGet? proxy.TrafficRoutes service).join

/-- The loop of `OutboundProxyGenerator.Generate` over the outbound interfaces,
from index `i` with the resources and names accumulated so far. -/
def OutboundProxyGenerator.loop (api : GeneratorApi) (proxy : Proxy) :
    Nat → List DataplaneOutbound → List Resource × List String → Except String (List Resource)
  | _, [], st => .ok st.1
  | i, oface :: rest, st =>
    match api.ParseOutboundInterface oface.Interface with
    | .error err => .error err
    | .ok endpoint =>
      match routeOf proxy oface.Service with
      | none =>
        .error ("outbound interface [" ++ toString i ++ "]\x7bservice=" ++ api.quote oface.Service
          ++ "\x7d has no TrafficRoute")
      | some route =>
        let clusters := OutboundProxyGenerator.routeClusters route
        let st1 := clusters.foldl (OutboundProxyGenerator.addCluster proxy) st
        let name := outboundListenerName endpoint
        if name ∈ st1.2 then OutboundProxyGenerator.loop api proxy (i + 1) rest st1
        else
          match OutboundProxyGenerator.createListener api proxy oface endpoint clusters with
          | .error err => .error ("could not generate listener " ++ name ++ ": " ++ err)
          | .ok listener =>
            OutboundProxyGenerator.loop api proxy (i + 1) rest
              (st1.1 ++ [{ Name := name, Payload := .listener listener }], name :: st1.2)

/-- Embeds `OutboundProxyGenerator.Generate`. -/
def OutboundProxyGenerator.Generate (api : GeneratorApi) (proxy : Proxy) :
    Except String (List Resource) :=
  let ofaces := proxy.Outbound
  if ofaces.length = 0 then .ok []
  else OutboundProxyGenerator.loop api proxy 0 ofaces ([], [])

/-- Modelled from the spec: `CompositeResourceGenerator` is absent from the
sources.  It "concatenates outputs and propagates the first error, annotated
with which sub-generator/index failed". -/
def CompositeResourceGenerator.Generate (api : GeneratorApi)
    (generators : List (Proxy → Except String (List Resource))) (proxy : Proxy) :
    Nat → List Resource → Except String (List Resource) :=
  fun start acc =>
    match generators with
    | [] => .ok acc
    | g :: rest =>
      match g proxy with
      | .error err => .error (api.annotate start err)
      | .ok rs => CompositeResourceGenerator.Generate api rest proxy (start + 1) (acc ++ rs)

/-- Embeds `NewDefaultProxyProfile`: transparent, inbound and outbound generators, composed. -/
def NewDefaultProxyProfile (api : GeneratorApi) (proxy : Proxy) :
    Except String (List Resource) :=
  CompositeResourceGenerator.Generate api
    [TransparentProxyGenerator.Generate, InboundProxyGenerator.Generate api,
      OutboundProxyGenerator.Generate api] proxy 0 []

/-! ## Concrete inputs

The scenario of the spec: a dataplane of mesh `m1` with one healthy inbound of
service `backend` on `10.0.0.5:8080`, and the external services of the e2e
suites. -/

namespace Example

/-- An inbound interface is served on its own address when it has one, on the
address of the dataplane otherwise. -/
def meshApi : MeshApi where
  ToInboundInterface := fun networking inbound =>
    { DataplaneIP := if inbound.Address = "" then networking.Address else inbound.Address
      DataplanePort := inbound.Port
      WorkloadPort := inbound.Port }

def backendInbound : Inbound :=
  { Port := 8080, Address := "", Tags := [("kuma.io/service", "backend")], Healthy := true }

def dataplane : DataplaneResource :=
  { Mesh := "m1", Networking := { Address := "10.0.0.5", Inbound := [backendInbound] } }

def destinations : DestinationMap :=
  [("backend", [[("kuma.io/service", "backend")]])]

def zoneEgress : ZoneEgressResource :=
  { Address := "192.168.0.9", Port := 10002 }

/-- An external service without a zone tag. -/
def externalService1 : ExternalServiceResource :=
  { Name := "external-service-1"
    Address := "es-test-server.default.svc.cluster.local:80"
    Tags := [("kuma.io/service", "external-service-1")] }

/-- An external service with a zone tag. -/
def externalService2 : ExternalServiceResource :=
  { Name := "external-service-2"
    Address := "kuma-3_externalservice-http-server:8080"
    Tags := [("kuma.io/service", "external-service-2"), ("kuma.io/zone", "kuma-2-zone")] }

end Example

namespace Example

/-- The outbound interfaces and inbound interfaces of the example proxies,
parsed; listeners always build; `%q` on the plain service names of the
examples adds the double quotes. -/
def generatorApi : GeneratorApi where
  GetInboundInterfaces := fun specs =>
    .ok (specs.filterMap (fun spec =>
      if spec = "10.0.0.5:8080:8080" then
        some { DataplaneIP := "10.0.0.5", DataplanePort := 8080, WorkloadPort := 8080 }
      else none))
  inboundString := fun endpoint =>
    endpoint.DataplaneIP ++ ":" ++ toString endpoint.DataplanePort ++ ":" ++
      toString endpoint.WorkloadPort
  ParseOutboundInterface := fun spec =>
    if spec = "127.0.0.1:10001" then .ok { DataplaneIP := "127.0.0.1", DataplanePort := 10001 }
    else if spec = "127.0.0.1:10002" then
      .ok { DataplaneIP := "127.0.0.1", DataplanePort := 10002 }
    else .error "invalid format"
  CreateOutboundListener := fun name ip port service clusters virtual source destination log _ =>
    .ok (.outbound name ip port service clusters virtual source destination log)
  quote := fun s => "\"" ++ s ++ "\""
  annotate := fun _ err => err

/-- A dataplane with an inbound for `web` and an outbound to `backend`, routed
to `backend` with weight 100 and to version `v2` of it with weight 0. -/
def proxy : Proxy where
  InboundSpec := ["10.0.0.5:8080:8080"]
  Outbound := [{ Interface := "127.0.0.1:10001", Service := "backend" }]
  RedirectPort := 0
  Version := "v1"
  IdentifyingService := "web"
  TrafficRoutes :=
    [("backend", some { Conf :=
      [{ Weight := 100, Destination := [("kuma.io/service", "backend")] },
       { Weight := 0, Destination := [("kuma.io/service", "backend"), ("version", "v2")] }] })]
  OutboundTargets :=
    [("backend", [{ Target := "10.0.0.6", Port := 8080,
                    Tags := [("kuma.io/service", "backend")], Weight := 1 }])]
  TrafficPermissions := []
  LogsOutbounds := []
  Metadata := none

/-- The same dataplane with a second outbound, to `db`, for which there is no
traffic route. -/
def proxyWithoutRoute : Proxy :=
  { proxy with
    Outbound := [{ Interface := "127.0.0.1:10001", Service := "backend" },
                 { Interface := "127.0.0.1:10002", Service := "db" }] }

/-- The same dataplane with a route from `backend` to a destination whose
service is named like the local cluster of the inbound interface. -/
def proxyWithCollision : Proxy :=
  { proxy with
    TrafficRoutes :=
      [("backend", some { Conf :=
        [{ Weight := 100, Destination := [("kuma.io/service", "localhost:8080")] }] })] }

end Example

/-! ## Specification-side readings of the generator output -/

/-- Names in the order of their first occurrence: a name is kept unless it is in
`seen` or occurred before. -/
def firstOccurrences : List String → List String → List String
  | [], _ => []
  | name :: rest, seen =>
    if name ∈ seen then firstOccurrences rest seen
    else name :: firstOccurrences rest (name :: seen)

/-- The names an inbound interface asks for, in the order of the loop body:
its local cluster, then its listener. -/
def inboundNames (endpoints : List InboundInterface) : List String :=
  endpoints.flatMap (fun endpoint => [localClusterName endpoint, inboundListenerName endpoint])

/-- How many resources of a kind carry a name. -/
def countNamed (rs : List Resource) (kind : Kind) (name : String) : Nat :=
  (rs.filter (fun r => decide (r.key = (kind, name)))).length

/-- The keys of a Go map, in iteration order. -/
def mapKeys {V : Type} (m : GoMap V) : List String :=
  m.map Prod.fst

/-- The endpoints the external services contribute under `s` in a run of
`BuildEndpointMap` that returns: those of `externalServiceEndpoints` when there
is a zone egress; without one the run returns only when there is no external
service. -/
def externalEndpointsOf (zoneEgress : Option ZoneEgressResource)
    (externalServices : List ExternalServiceResource) (s : String) : List Endpoint :=
  match zoneEgress with
  | some ze => externalServiceEndpoints ze externalServices s
  | none => []

/-! ## `pkg/xds/generator/proxy_template.go`: proxy templates -/

/-- Embeds `kuma_mesh.ProxyTemplateRawResource`. -/
structure ProxyTemplateRawResource where
  Name : String
  Version : String
  Resource : String
  deriving DecidableEq, Repr

/-- Embeds `kuma_mesh.ProxyTemplate`. -/
structure ProxyTemplate where
  Imports : List String
  Resources : List ProxyTemplateRawResource
  deriving DecidableEq, Repr

/-- Library functions and constants that the template sources use and whose
source is absent. -/
structure TemplateApi where
  /-- Embeds `template.ProfileDefaultProxy`, the name of the default profile. -/
  ProfileDefaultProxy : String
  /-- The type of `any.Any`. -/
  AnyMessage : Type
  /-- The type of the message inside a `ptypes.DynamicAny`. -/
  DynamicMessage : Type
  /-- Conversion `yaml.YAMLToJSON` (the input itself when it fails), then `jsonpb.Unmarshal`. -/
  Unmarshal : String → Except String AnyMessage
  /-- Embeds `ptypes.UnmarshalAny`. -/
  UnmarshalAny : AnyMessage → Except String DynamicMessage
  /-- The type assertion `dyn.Message.(ResourcePayload)`. -/
  asResourcePayload : DynamicMessage → Option ResourcePayload
  /-- The error of `Validate()`, when the payload has that method and it fails. -/
  Validate : ResourcePayload → Option String

/-- The prefix `raw.resources[%d]{name=%q}.resource: ` of the errors of the raw source. -/
def rawResourceError (api : GeneratorApi) (i : Nat) (name : String) (err : String) : String :=
  "raw.resources[" ++ toString i ++ "]\x7bname=" ++ api.quote name ++ "\x7d.resource: " ++ err

/-- The loop of `ProxyTemplateRawSource.Generate`, from index `i`. -/
def ProxyTemplateRawSource.loop (api : GeneratorApi) (tapi : TemplateApi) :
    Nat → List ProxyTemplateRawResource → List Resource → Except String (List Resource)
  | _, [], resources => .ok resources
  | i, r :: rest, resources =>
    match tapi.Unmarshal r.Resource with
    | .error err => .error (rawResourceError api i r.Name err)
    | .ok anything =>
      match tapi.UnmarshalAny anything with
      | .error err => .error (rawResourceError api i r.Name err)
      | .ok dyn =>
        match tapi.asResourcePayload dyn with
        | none =>
          .error (rawResourceError api i r.Name
            "xDS resource doesn\x27t implement all required interfaces")
        | some p =>
          match tapi.Validate p with
          | some err => .error (rawResourceError api i r.Name err)
          | none =>
            ProxyTemplateRawSource.loop api tapi (i + 1) rest
              (resources ++ [{ Name := r.Name, Version := r.Version, Payload := p }])

/-- Embeds `ProxyTemplateRawSource.Generate`. -/
def ProxyTemplateRawSource.Generate (api : GeneratorApi) (tapi : TemplateApi)
    (resources : List ProxyTemplateRawResource) (proxy : Proxy) :
    Except String (List Resource) :=
  ProxyTemplateRawSource.loop api tapi 0 resources []

/-- The registry `predefinedProfiles` after `init`: the default profile alone. -/
def predefinedProfiles (api : GeneratorApi) (tapi : TemplateApi) :
    GoMap (Proxy → Except String (List Resource)) :=
  [(tapi.ProfileDefaultProxy, NewDefaultProxyProfile api)]

/-- Embeds `ProxyTemplateProfileSource.Generate`. -/
def ProxyTemplateProfileSource.Generate (api : GeneratorApi) (tapi : TemplateApi)
    (profileName : String) (proxy : Proxy) : Except String (List Resource) :=
  match mapGet? (predefinedProfiles api tapi) profileName with
  | none => .error ("profile\x7bname=" ++ api.quote profileName ++ "\x7d: unknown profile")
  | some g => g proxy

/-- The loop of `TemplateProxyGenerator.Generate` over the imports, from index `i`. -/
def TemplateProxyGenerator.loop (api : GeneratorApi) (tapi : TemplateApi) (proxy : Proxy) :
    Nat → List String → List Resource → Except String (List Resource)
  | _, [], resources => .ok resources
  | i, name :: rest, resources =>
    match ProxyTemplateProfileSource.Generate api tapi name proxy with
    | .error err =>
      .error ("imports[" ++ toString i ++ "]\x7bname=" ++ api.quote name ++ "\x7d: " ++ err)
    | .ok rs => TemplateProxyGenerator.loop api tapi proxy (i + 1) rest (resources ++ rs)

/-- Embeds `TemplateProxyGenerator.Generate`. -/
def TemplateProxyGenerator.Generate (api : GeneratorApi) (tapi : TemplateApi)
    (template : ProxyTemplate) (proxy : Proxy) : Except String (List Resource) :=
  match TemplateProxyGenerator.loop api tapi proxy 0 template.Imports [] with
  | .error err => .error err
  | .ok resources =>
    match ProxyTemplateRawSource.Generate api tapi template.Resources proxy with
    | .error err => .error ("resources: " ++ err)
    | .ok rs => .ok (resources ++ rs)

/-! ## `pkg/xds/generator/egress/zone_external_services_generator.go` -/

/-- Modelled from the spec: `mesh_proto.MatchAllTag` is absent from the sources;
the "`*` wildcard key reserved to mean match all services". -/
def MatchAllTag : String := "*"

/-- Modelled from the spec: `envoy_names.GetMeshClusterName` is absent from the
sources; the "mesh-qualified form" of a cluster name, which the e2e suite reads
back as `cluster.<mesh>_<service>.upstream_rq_total`. -/
def GetMeshClusterName (meshName serviceName : String) : String :=
  meshName ++ "_" ++ serviceName

/-- Modelled from the spec: `isZoneExternalService` is absent from the sources;
the endpoint "is marked external". -/
def isZoneExternalService (endpoint : Endpoint) : Bool :=
  endpoint.ExternalService.isSome

/-- Modelled from the spec: `isNotExternalService` is absent from the sources;
the endpoint is not marked external. -/
def isNotExternalService (endpoint : Endpoint) : Bool :=
  endpoint.ExternalService.isNone

/-- Modelled from the spec: `isNotSpecificZoneExternalService` is absent from
the sources; the endpoint "either has no zone tag restriction or targets a
different zone than the local one". -/
def isNotSpecificZoneExternalService (endpoint : Endpoint) (zone : String) : Bool :=
  match mapGet? endpoint.Tags ZoneTag with
  | none => true
  | some z => z != zone

/-- Modelled from the spec: `isSpecificZoneExternalService` is absent from the
sources; the endpoint is externally sourced "for this zone specifically": it
has a zone tag, and the tag names the zone. -/
def isSpecificZoneExternalService (endpoint : Endpoint) (zone : String) : Bool :=
  match mapGet? endpoint.Tags ZoneTag with
  | none => false
  | some z => z == zone

/-- Modelled from the spec: `envoy.Tags.WithoutTags` is absent from the sources;
a copy of the tags without the entry of `key`. -/
def WithoutTags (tags : Tags) (key : String) : Tags :=
  tags.filter (fun kv => kv.1 != key)

/-- The payload of an egress resource, recorded as the call that builds it. -/
inductive EgressPayload where
  /-- The cluster built by `EdsCluster(name)`, `LbSubset(keys of tagSlice)`, `DefaultTimeout()`. -/
  | edsCluster (name : String) (tagSlice : List Tags)
  /-- The result of `envoy_endpoints.CreateClusterLoadAssignment(name, endpoints, apiVersion)`. -/
  | clusterLoadAssignment (name : String) (endpoints : List Endpoint)
  deriving DecidableEq, Repr

/-- Embeds `core_xds.Resource`; its field `Resource` is `Payload` here. -/
structure EgressResource where
  Name : String
  Origin : String
  Payload : EgressPayload
  deriving DecidableEq, Repr

/-- Functions and constants that the egress generator uses and whose source is
absent. -/
structure EgressApi where
  /-- Embeds `OriginEgress`. -/
  OriginEgress : String
  /-- The error of `envoy_endpoints.CreateClusterLoadAssignment`, if it fails. -/
  CreateClusterLoadAssignmentError : String → List Endpoint → Option String
  /-- The error of the cluster builder `Build()`, if it fails. -/
  BuildClusterError : String → List Tags → Option String
  /-- Embeds `tls.SNIFromTags`. -/
  SNIFromTags : Tags → String

/-- Go's `m[k]` on a map of slices: the nil slice for a missing key. -/
def mapGetList {V : Type} (m : GoMap (List V)) (k : String) : List V :=
  (mapGet? m k).getD []

/-- Embeds `ZoneExternalServicesGenerator.generateEDS`. -/
def generateEDS (api : EgressApi) (meshName : String) :
    List String → EndpointMap → List EgressResource → Except String (List EgressResource)
  | [], _, resources => .ok resources
  | serviceName :: rest, endpointMap, resources =>
    let endpoints := mapGetList endpointMap serviceName
    let clusterName := GetMeshClusterName meshName serviceName
    match api.CreateClusterLoadAssignmentError clusterName endpoints with
    | some err => .error err
    | none =>
      generateEDS api meshName rest endpointMap
        (resources ++ [{ Name := clusterName, Origin := api.OriginEgress
                         Payload := .clusterLoadAssignment clusterName endpoints }])

/-- Embeds `ZoneExternalServicesGenerator.generateCDS`. -/
def generateCDS (api : EgressApi) (meshName : String) :
    List String → GoMap (List Tags) → List EgressResource → Except String (List EgressResource)
  | [], _, resources => .ok resources
  | serviceName :: rest, destinationsPerService, resources =>
    let tagSlice := mapGetList destinationsPerService serviceName ++
      mapGetList destinationsPerService MatchAllTag
    let clusterName := GetMeshClusterName meshName serviceName
    match api.BuildClusterError clusterName tagSlice with
    | some err => .error err
    | none =>
      generateCDS api meshName rest destinationsPerService
        (resources ++ [{ Name := clusterName, Origin := api.OriginEgress
                         Payload := .edsCluster clusterName tagSlice }])

/-- Embeds `ZoneExternalServicesGenerator.buildServices`; `endpointMap` lists the
entries in the order the `range` loop visits them. -/
def buildServices (endpointMap : EndpointMap) (zone : String) : List String :=
  sortStrings ((endpointMap.filter (fun kv =>
    match kv.2 with
    | [] => false
    | first :: _ =>
      isZoneExternalService first && isNotSpecificZoneExternalService first zone)).map
    Prod.fst)

/-- An advertised service of a zone ingress, `ZoneIngress_AvailableService`. -/
structure AvailableService where
  Tags : Tags
  Mesh : String
  deriving DecidableEq, Repr

/-- Embeds `core_mesh.ZoneIngressResource`: `Zone` is `Spec.Zone`, `AvailableServices`
is `Spec.GetAvailableServices()`. -/
structure ZoneIngressResource where
  Zone : String
  AvailableServices : List AvailableService
  deriving DecidableEq, Repr

/-- A filter chain handed to the listener builder, recorded as its
configuration: TLS transport, the server name `Sni`, and a TCP proxy to the
cluster `ClusterName` of service `Service` with the tags `Tags`. -/
structure FilterChain where
  Sni : String
  ClusterName : String
  Service : String
  Tags : Tags
  deriving DecidableEq, Repr

/-- Body of the loop of `addFilterChains` over the destinations of a service;
the state is the chains added to the builder and the `sniUsed` set. -/
def addDestinationChain (api : EgressApi) (meshName serviceName : String)
    (st : List FilterChain × List String) (destination : Tags) :
    List FilterChain × List String :=
  let meshDestination := WithTags (WithTags destination ServiceTag serviceName) "mesh" meshName
  let sni := api.SNIFromTags meshDestination
  if sni ∈ st.2 then st
  else
    let clusterName := GetMeshClusterName meshName serviceName
    (st.1 ++ [{ Sni := sni, ClusterName := clusterName, Service := serviceName
                Tags := WithoutTags meshDestination ServiceTag }],
     sni :: st.2)

/-- The destinations `addFilterChains` walks for a service: those of the service,
then those of the match-all key. -/
def serviceDestinations (destinationsPerService : GoMap (List Tags)) (serviceName : String) :
    List Tags :=
  mapGetList destinationsPerService serviceName ++ mapGetList destinationsPerService MatchAllTag

/-- Whether `addFilterChains` reaches the destinations of an advertised service:
none of the three `continue` tests fires and the final test holds. -/
def chainsWanted (meshName : String) (endpointMap : EndpointMap) (zone : String)
    (service : AvailableService) : Bool :=
  let serviceName := mapGet service.Tags ServiceTag
  if service.Mesh != meshName then false
  else
    match mapGetList endpointMap serviceName with
    | [] => false
    | first :: _ =>
      if isNotExternalService first then false
      else isZoneExternalService first && isSpecificZoneExternalService first zone

/-- Body of the loop of `addFilterChains` over the advertised services of a zone
ingress. -/
def addServiceChains (api : EgressApi) (meshName : String)
    (destinationsPerService : GoMap (List Tags)) (endpointMap : EndpointMap) (zone : String)
    (st : List FilterChain × List String) (service : AvailableService) :
    List FilterChain × List String :=
  let serviceName := mapGet service.Tags ServiceTag
  if chainsWanted meshName endpointMap zone service then
    (serviceDestinations destinationsPerService serviceName).foldl
      (addDestinationChain api meshName serviceName) st
  else st

/-- Embeds `ZoneExternalServicesGenerator.addFilterChains`: the filter chains it
configures on the listener builder, in order. -/
def addFilterChains (api : EgressApi) (meshName : String)
    (destinationsPerService : GoMap (List Tags)) (endpointMap : EndpointMap)
    (zoneIngresses : List ZoneIngressResource) : List FilterChain :=
  (zoneIngresses.foldl (fun st zoneIngress =>
    zoneIngress.AvailableServices.foldl
      (addServiceChains api meshName destinationsPerService endpointMap zoneIngress.Zone) st)
    ([], [])).1

/-! ## More concrete inputs -/

namespace Example

/-- The dataplane of the example with transparent proxying on port 15001. -/
def transparentProxy : Proxy :=
  { proxy with RedirectPort := 15001 }

/-- A template library in which the default profile is called `default-proxy`
and no raw resource decodes. -/
def templateApi : TemplateApi where
  ProfileDefaultProxy := "default-proxy"
  AnyMessage := String
  DynamicMessage := String
  Unmarshal := fun _ => .error "unexpected end of JSON input"
  UnmarshalAny := fun anything => .ok anything
  asResourcePayload := fun _ => none
  Validate := fun _ => none

/-- A proxy template that imports the default profile and then a profile that
does not exist. -/
def templateWithUnknownImport : ProxyTemplate :=
  { Imports := ["default-proxy", "my-profile"], Resources := [] }

/-- An egress library whose builders never fail and whose SNI of a tag set is the
service followed by the other tags in ascending order. -/
def egressApi : EgressApi where
  OriginEgress := "egress"
  CreateClusterLoadAssignmentError := fun _ _ => none
  BuildClusterError := fun _ _ => none
  SNIFromTags := fun tags => destinationClusterName (mapGet tags ServiceTag) tags

/-- The endpoint map of a mesh on the egress of zone `kuma-1-zone`: a service of
the mesh, an external service without zone, and one of zone `kuma-2-zone`. -/
def egressEndpointMap : EndpointMap :=
  [("external-service-2",
      [{ Target := "kuma-3_externalservice-http-server", Port := 8080
         Tags := [("kuma.io/service", "external-service-2"), ("kuma.io/zone", "kuma-2-zone")]
         Weight := 1, ExternalService := some {} }]),
   ("backend",
      [{ Target := "10.0.0.5", Port := 8080
         Tags := [("kuma.io/service", "backend")], Weight := 1 }]),
   ("external-service-1",
      [{ Target := "es-test-server.default.svc.cluster.local", Port := 80
         Tags := [("kuma.io/service", "external-service-1")]
         Weight := 1, ExternalService := some {} }])]

/-- Two zone ingresses of zone `kuma-2-zone` that both advertise
`external-service-2` of mesh `default`. -/
def zoneIngresses : List ZoneIngressResource :=
  [{ Zone := "kuma-2-zone"
     AvailableServices :=
       [{ Tags := [("kuma.io/service", "external-service-2")], Mesh := "default" }] },
   { Zone := "kuma-2-zone"
     AvailableServices :=
       [{ Tags := [("kuma.io/service", "external-service-2")], Mesh := "default" },
        { Tags := [("kuma.io/service", "backend")], Mesh := "default" }] }]

/-- Destinations per service: one selector for `external-service-2`, and a
match-all selector. -/
def destinationsPerService : GoMap (List Tags) :=
  [("external-service-2", [[("kuma.io/service", "external-service-2")]]),
   ("*", [[("kuma.io/service", "*")]])]

/-- The dataplane of the example with a route from `backend` to a destination
whose service is named like the listener of the outbound interface. -/
def proxyClusterNamedLikeListener : Proxy :=
  { proxy with
    TrafficRoutes :=
      [("backend", some { Conf :=
        [{ Weight := 1, Destination := [("kuma.io/service", "outbound:127.0.0.1:10001")] }] })] }

/-- The dataplane of the example with a second outbound, to `db`, whose route
goes to a destination whose service is named like the listener of the first
outbound interface. -/
def proxyListenerNamedLikeCluster : Proxy :=
  { proxy with
    Outbound := [{ Interface := "127.0.0.1:10001", Service := "backend" },
                 { Interface := "127.0.0.1:10002", Service := "db" }]
    TrafficRoutes :=
      [("backend", some { Conf :=
        [{ Weight := 100, Destination := [("kuma.io/service", "backend")] }] }),
       ("db", some { Conf :=
        [{ Weight := 1,
           Destination := [("kuma.io/service", "outbound:127.0.0.1:10001")] }] })] }

/-- An endpoint of `backend` tagged with the version `v1,zone=east`. -/
def endpointOddVersion : Endpoint :=
  { Target := "10.0.0.7", Port := 8080
    Tags := [("kuma.io/service", "backend"), ("version", "v1,zone=east")], Weight := 1 }

/-- An endpoint of `backend` tagged with the version `v1` and the zone `east`. -/
def endpointEast : Endpoint :=
  { Target := "10.0.0.8", Port := 8080
    Tags := [("kuma.io/service", "backend"), ("version", "v1"), ("zone", "east")], Weight := 1 }

/-- The dataplane of the example with a route to two destinations of `backend`
whose tags differ and render to the same cluster name. -/
def proxySharedClusterName : Proxy :=
  { proxy with
    TrafficRoutes :=
      [("backend", some { Conf :=
        [{ Weight := 50,
           Destination := [("kuma.io/service", "backend"), ("version", "v1,zone=east")] },
         { Weight := 50,
           Destination := [("kuma.io/service", "backend"), ("version", "v1"),
             ("zone", "east")] }] })]
    OutboundTargets := [("backend", [endpointOddVersion, endpointEast])] }

/-- The functions of `generatorApi`, with a listener builder that fails. -/
def failingListenerApi : GeneratorApi :=
  { generatorApi with
    CreateOutboundListener := fun _ _ _ _ _ _ _ _ _ _ => .error "invalid listener" }

/-- The functions of `generatorApi`, for a dataplane that serves the workload
port 8080 on the two ports 8080 and 8081. -/
def twoInboundsApi : GeneratorApi :=
  { generatorApi with
    GetInboundInterfaces := fun specs =>
      .ok (specs.filterMap (fun spec =>
        if spec = "10.0.0.5:8080:8080" then
          some { DataplaneIP := "10.0.0.5", DataplanePort := 8080, WorkloadPort := 8080 }
        else if spec = "10.0.0.5:8081:8080" then
          some { DataplaneIP := "10.0.0.5", DataplanePort := 8081, WorkloadPort := 8080 }
        else none)) }

/-- The dataplane of the example with a second inbound interface for the same
workload port. -/
def twoInboundsProxy : Proxy :=
  { proxy with InboundSpec := ["10.0.0.5:8080:8080", "10.0.0.5:8081:8080"] }

end Example

/-! ## `pkg/xds/sync/ingress_proxy_builder.go` -/

/-- Embeds Go `sort.Slice(x, less)` as the insertion sort that places `a` before
`b` unless `less b a`.  The library leaves the order of elements that compare
equal open; nothing proved here depends on it. -/
def sortSlice {α : Type} (less : α → α → Bool) (l : List α) : List α :=
  l.insertionSort (fun a b => less b a = false)

/-- The `less` function of the two sorts of external services:
`externalServices[a].GetMeta().GetName() < externalServices[b].GetMeta().GetName()`. -/
def lessByName (a b : ExternalServiceResource) : Bool :=
  decide (a.Name.toList < b.Name.toList)

/-- Embeds `xds.ZoneIngressProxy`: the traffic routes and gateway routes, by name. -/
structure ZoneIngressProxy where
  TrafficRouteList : List String
  GatewayRoutes : List String
  deriving DecidableEq, Repr

/-- Embeds `xds.Proxy` as `IngressProxyBuilder.build` fills it; `OutboundTargets` is
`Routing.OutboundTargets`, a map that may be nil. -/
structure IngressProxy where
  Id : String
  ZoneIngress : ZoneIngressResource
  Metadata : Option String
  OutboundTargets : Option EndpointMap
  ZoneIngressProxy : ZoneIngressProxy
  deriving DecidableEq, Repr

/-- Embeds `IngressProxyBuilder` for one resource key: its field `zone`, and what
the resource managers, the lookup function and the functions of other packages
answer during one build. -/
structure IngressProxyBuilder where
  zone : String
  /-- Embeds `xds.FromResourceKey(key)`. -/
  proxyId : String
  /-- Embeds `p.MetadataTracker.Metadata(key)`. -/
  metadata : Option String
  /-- The result of `ReadOnlyResManager.Get` of the zone ingress. -/
  getIngress : Except String ZoneIngressResource
  /-- Embeds `ingress.UpdateAvailableServices`: the updated zone ingress, or its error. -/
  UpdateAvailableServices : ZoneIngressResource → List DataplaneResource →
    List ExternalServiceResource → Except String ZoneIngressResource
  /-- Embeds `xds_topology.ResolveZoneIngressPublicAddress`. -/
  ResolveZoneIngressPublicAddress : ZoneIngressResource → Except String ZoneIngressResource
  /-- The result of `ReadOnlyResManager.List` of the zone egresses. -/
  listZoneEgresses : Except String (List ZoneEgressResource)
  /-- Embeds `ZoneEgressResource.IsLocalEgress`. -/
  IsLocalEgress : ZoneEgressResource → String → Bool
  /-- The result of `ReadOnlyResManager.List` of the dataplanes. -/
  listDataplanes : Except String (List DataplaneResource)
  /-- Embeds `xds_topology.ResolveAddresses`. -/
  ResolveAddresses : List DataplaneResource → List DataplaneResource
  /-- The result of `ReadOnlyResManager.List` of the external services. -/
  listExternalServices : Except String (List ExternalServiceResource)
  /-- Embeds `ingress.BuildDestinationMap`. -/
  BuildDestinationMap : ZoneIngressResource → DestinationMap
  /-- The result of `ReadOnlyResManager.List` of the traffic routes. -/
  listTrafficRoutes : Except String (List String)
  /-- Whether `registry.Global().DescriptorFor(MeshGatewayRouteType)` succeeds. -/
  gatewayRouteRegistered : Bool
  /-- The result of `ReadOnlyResManager.List` of the gateway routes. -/
  listGatewayRoutes : Except String (List String)
  /-- The functions of the API package `BuildEndpointMap` calls. -/
  meshApi : MeshApi

/-- Embeds `IngressProxyBuilder.updateIngress`. -/
def IngressProxyBuilder.updateIngress (p : IngressProxyBuilder)
    (zoneIngress : ZoneIngressResource) : Except String ZoneIngressResource :=
  match p.listDataplanes with
  | .error err => .error err
  | .ok items =>
    let allMeshDataplanes := p.ResolveAddresses items
    match p.listExternalServices with
    | .error err => .error err
    | .ok items =>
      let externalServices := sortSlice lessByName items
      p.UpdateAvailableServices zoneIngress allMeshDataplanes externalServices

/-- Embeds `IngressProxyBuilder.getZoneIngress`. -/
def IngressProxyBuilder.getZoneIngress (p : IngressProxyBuilder) :
    Except String ZoneIngressResource :=
  match p.getIngress with
  | .error err => .error err
  | .ok zoneIngress => p.updateIngress zoneIngress

/-- Embeds `IngressProxyBuilder.buildZoneIngressProxy`. -/
def IngressProxyBuilder.buildZoneIngressProxy (p : IngressProxyBuilder) :
    Except String ZoneIngressProxy :=
  match p.listTrafficRoutes with
  | .error err => .error err
  | .ok routes =>
    if p.gatewayRouteRegistered then
      match p.listGatewayRoutes with
      | .error err => .error err
      | .ok gatewayRoutes => .ok { TrafficRouteList := routes, GatewayRoutes := gatewayRoutes }
    else .ok { TrafficRouteList := routes, GatewayRoutes := [] }

/-- The loop of `build` that picks the local egress: the first zone egress that
is local to the zone, nil when there is none. -/
def IngressProxyBuilder.localZoneEgress (p : IngressProxyBuilder)
    (zoneEgresses : List ZoneEgressResource) : Option ZoneEgressResource :=
  zoneEgresses.find? (fun zoneEgress => p.IsLocalEgress zoneEgress p.zone)

/-- Embeds `IngressProxyBuilder.resolveRouting`: the `OutboundTargets` of the
routing; a panic of `BuildEndpointMap` goes through. -/
def IngressProxyBuilder.resolveRouting (p : IngressProxyBuilder)
    (zoneIngress : ZoneIngressResource) (zoneEgress : Option ZoneEgressResource)
    (dataplanes : List DataplaneResource) (externalServices : List ExternalServiceResource) :
    Except String (Option EndpointMap) :=
  let destinations := p.BuildDestinationMap zoneIngress
  BuildEndpointMap p.meshApi destinations zoneEgress dataplanes externalServices

/-- The external services `build` hands to `resolveRouting`.  `sort.Slice` sorts
`externalServices`, which shares its elements with `allMeshExternalServices.Items`,
in place; `resolveRouting` reads `allMeshExternalServices.Items` after the sort. -/
def IngressProxyBuilder.routedExternalServices (items : List ExternalServiceResource) :
    List ExternalServiceResource :=
  sortSlice lessByName items

/-- Embeds `IngressProxyBuilder.build`. -/
def IngressProxyBuilder.build (p : IngressProxyBuilder) : Except String IngressProxy :=
  match p.getZoneIngress with
  | .error err => .error err
  | .ok zoneIngress =>
    match p.ResolveZoneIngressPublicAddress zoneIngress with
    | .error err => .error err
    | .ok zoneIngress =>
      match p.listZoneEgresses with
      | .error err => .error err
      | .ok zoneEgressList =>
        let localZoneEgress := p.localZoneEgress zoneEgressList
        match p.listDataplanes with
        | .error err => .error err
        | .ok items =>
          let allMeshDataplanes := p.ResolveAddresses items
          match p.listExternalServices with
          | .error err => .error err
          | .ok items =>
            let allMeshExternalServices := IngressProxyBuilder.routedExternalServices items
            match p.resolveRouting zoneIngress localZoneEgress allMeshDataplanes
                allMeshExternalServices with
            | .error err => .error err
            | .ok outboundTargets =>
              match p.buildZoneIngressProxy with
              | .error err => .error err
              | .ok zoneIngressProxy =>
                .ok { Id := p.proxyId
                      ZoneIngress := zoneIngress
                      Metadata := p.metadata
                      OutboundTargets := outboundTargets
                      ZoneIngressProxy := zoneIngressProxy }

/-! ## `pkg/mads/reconcile/snapshotter.go` -/

/-- Embeds `mesh_core.MeshResource`: `Name` is `Meta.GetName()`.  Modelled from the
spec: `HasPrometheusMetricsEnabled` is absent from the sources; the
"metrics-enabled flag". -/
structure MeshResource where
  Name : String
  PrometheusMetricsEnabled : Bool
  deriving DecidableEq, Repr

/-- Embeds `generator.Args`. -/
structure Args where
  Meshes : List MeshResource
  Dataplanes : List DataplaneResource
  deriving DecidableEq, Repr

/-- The snapshot `mads_cache.NewSnapshot(version, resources.ToIndex())`, recorded
as its version and the resources that are indexed. -/
structure Snapshot (ρ : Type) where
  version : String
  resources : List ρ

/-- Embeds `snapshotter` for one call: what the resource manager answers, and
the generator, over resources of type `ρ`. -/
structure snapshotter (ρ : Type) where
  /-- The result of `resourceManager.List` of the meshes. -/
  listMeshes : Except String (List MeshResource)
  /-- The result of `resourceManager.List` of the dataplanes of a mesh, by mesh name. -/
  listDataplanes : String → Except String (List DataplaneResource)
  /-- Embeds `generator.Generate`. -/
  generate : Args → Except String (List ρ)

/-- Embeds `snapshotter.getMeshes`. -/
def snapshotter.getMeshes {ρ : Type} (s : snapshotter ρ) : Except String (List MeshResource) :=
  match s.listMeshes with
  | .error err => .error err
  | .ok items => .ok (items.filter (fun mesh => mesh.PrometheusMetricsEnabled))

/-- The loop of `snapshotter.getDataplanes`, with the dataplanes collected so far. -/
def snapshotter.getDataplanesLoop {ρ : Type} (s : snapshotter ρ) :
    List MeshResource → List DataplaneResource → Except String (List DataplaneResource)
  | [], dataplanes => .ok dataplanes
  | mesh :: rest, dataplanes =>
    match s.listDataplanes mesh.Name with
    | .error err => .error err
    | .ok items => snapshotter.getDataplanesLoop s rest (dataplanes ++ items)

/-- Embeds `snapshotter.getDataplanes`. -/
def snapshotter.getDataplanes {ρ : Type} (s : snapshotter ρ) (meshes : List MeshResource) :
    Except String (List DataplaneResource) :=
  snapshotter.getDataplanesLoop s meshes []

/-- Embeds `snapshotter.Snapshot`: its result, and the arguments of the calls of
the generator it made, in order. -/
def snapshotter.Snapshot {ρ : Type} (s : snapshotter ρ) :
    Except String (Snapshot ρ) × List Args :=
  match s.getMeshes with
  | .error err => (.error err, [])
  | .ok meshes =>
    match s.getDataplanes meshes with
    | .error err => (.error err, [])
    | .ok dataplanes =>
      let args : Args := { Meshes := meshes, Dataplanes := dataplanes }
      match s.generate args with
      | .error err => (.error err, [args])
      | .ok resources => (.ok { version := "", resources := resources }, [args])

/-! ## `ZoneExternalServicesGenerator.Generate` -/

/-- Embeds `core_xds.MeshResources`, the part `Generate` reads: `MeshName` is
`Mesh.GetMeta().GetName()`; the traffic routes are kept as the destinations
`buildDestinations` (absent from the sources) derives from them. -/
structure MeshResources where
  MeshName : String
  EndpointMap : EndpointMap
  Destinations : GoMap (List Tags)
  deriving DecidableEq, Repr

/-- Embeds `ZoneExternalServicesGenerator.Generate`: the filter chains it configures
on the listener builder, and its result.  `zone` is the zone of the egress,
`zoneIngresses` is `proxy.ZoneEgressProxy.ZoneIngresses`.  Modelled from the
spec: `core_xds.ResourceSet` is absent from the sources; a resource set holds
the resources added to it, here in the order of the `Add` calls. -/
def ZoneExternalServicesGenerator.Generate (api : EgressApi) (zone : String)
    (zoneIngresses : List ZoneIngressResource) (meshResources : MeshResources) :
    List FilterChain × Except String (List EgressResource) :=
  let endpointMap := meshResources.EndpointMap
  let destinations := meshResources.Destinations
  let services := buildServices endpointMap zone
  let meshName := meshResources.MeshName
  let chains := addFilterChains api meshName destinations endpointMap zoneIngresses
  match generateCDS api meshName services destinations [] with
  | .error err => (chains, .error err)
  | .ok cds =>
    match generateEDS api meshName services endpointMap [] with
    | .error err => (chains, .error err)
    | .ok eds => (chains, .ok (cds ++ eds))

/-! ## Specification-side readings for the egress and the outbound generator -/

/-- The filter chain `addFilterChains` builds for a destination of a service. -/
def chainOf (api : EgressApi) (meshName serviceName : String) (destination : Tags) :
    FilterChain :=
  { Sni := api.SNIFromTags
      (WithTags (WithTags destination ServiceTag serviceName) "mesh" meshName)
    ClusterName := GetMeshClusterName meshName serviceName
    Service := serviceName
    Tags := WithoutTags
      (WithTags (WithTags destination ServiceTag serviceName) "mesh" meshName) ServiceTag }

/-! ## Concrete inputs for the builders -/

namespace Example

/-- A zone ingress of zone `kuma-1-zone` without advertised services. -/
def zoneIngress : ZoneIngressResource :=
  { Zone := "kuma-1-zone", AvailableServices := [] }

/-- A build in zone `kuma-1-zone` whose store lists the zone egress of the
example, its dataplane, and the two external services in the order
`external-service-2`, `external-service-1`; every zone egress counts as local. -/
def ingressProxyBuilder : IngressProxyBuilder where
  zone := "kuma-1-zone"
  proxyId := "default.ingress-1"
  metadata := none
  getIngress := .ok zoneIngress
  UpdateAvailableServices := fun zoneIngress _ _ => .ok zoneIngress
  ResolveZoneIngressPublicAddress := fun zoneIngress => .ok zoneIngress
  listZoneEgresses := .ok [Example.zoneEgress]
  IsLocalEgress := fun _ _ => true
  listDataplanes := .ok [dataplane]
  ResolveAddresses := fun dataplanes => dataplanes
  listExternalServices := .ok [externalService2, externalService1]
  BuildDestinationMap := fun _ => destinations
  listTrafficRoutes := .ok ["route-all-default"]
  gatewayRouteRegistered := false
  listGatewayRoutes := .ok []
  meshApi := meshApi

end Example

namespace Example

/-- A store with the mesh `default`, metrics enabled, and the mesh `other`,
metrics disabled, whose dataplanes cannot be listed; the generator emits one
resource per dataplane, named after its mesh. -/
def madsSnapshotter : snapshotter String where
  listMeshes := .ok [{ Name := "default", PrometheusMetricsEnabled := true },
                     { Name := "other", PrometheusMetricsEnabled := false }]
  listDataplanes := fun meshName =>
    if meshName = "default" then .ok [dataplane] else .error "store unavailable"
  generate := fun args => .ok (args.Dataplanes.map (fun dataplane => dataplane.Mesh))

/-- The same store with metrics enabled on the mesh `other` as well. -/
def failingSnapshotter : snapshotter String :=
  { madsSnapshotter with
    listMeshes := .ok [{ Name := "default", PrometheusMetricsEnabled := true },
                       { Name := "other", PrometheusMetricsEnabled := true }] }

end Example

namespace Example

/-- A template library in which the default profile is called `default-proxy`
and every raw resource decodes to a pass-through cluster named by its text. -/
def decodingTemplateApi : TemplateApi where
  ProfileDefaultProxy := "default-proxy"
  AnyMessage := String
  DynamicMessage := String
  Unmarshal := fun text => .ok text
  UnmarshalAny := fun anything => .ok anything
  asResourcePayload := fun message => some (.cluster (.passThrough message))
  Validate := fun _ => none

/-- A proxy template that imports the default profile and adds one raw resource. -/
def templateWithRawResource : ProxyTemplate :=
  { Imports := ["default-proxy"]
    Resources := [{ Name := "raw-cluster", Version := "v7", Resource := "direct" }] }

end Example

namespace Example

/-- The resources of mesh `default` on the egress of the example. -/
def meshResources : MeshResources :=
  { MeshName := "default"
    EndpointMap := egressEndpointMap
    Destinations := destinationsPerService }

/-- Destinations per service with a selector for version `v1` of
`external-service-2`, and a match-all selector. -/
def versionedDestinations : GoMap (List Tags) :=
  [("external-service-2", [[("kuma.io/service", "external-service-2"), ("version", "v1")]]),
   ("*", [[("kuma.io/service", "*")]])]

end Example



/-! ## `OutboundProxyGenerator.Generate`: the calls of the listener builder -/

/-- The arguments of one call of `envoy.CreateOutboundListener`, after the
context argument, in the order of the call. -/
structure OutboundListenerCall where
  Name : String
  Address : String
  Port : Nat
  Service : String
  Clusters : List ClusterInfo
  Virtual : Bool
  SourceService : String
  DestinationService : String
  Logs : Option String
  ProxyArg : Proxy
  deriving DecidableEq, Repr

/-- The arguments `OutboundProxyGenerator.createListener` hands to
`envoy.CreateOutboundListener` for one outbound interface. -/
def OutboundProxyGenerator.listenerCall (proxy : Proxy) (oface : DataplaneOutbound)
    (endpoint : OutboundInterface) (clusters : List ClusterInfo) : OutboundListenerCall :=
  let virtual := proxy.RedirectPort != 0
  let sourceService := proxy.IdentifyingService
  let destinationService := oface.Service
  { Name := outboundListenerName endpoint
    Address := endpoint.DataplaneIP
    Port := endpoint.DataplanePort
    Service := oface.Service
    Clusters := clusters
    Virtual := virtual
    SourceService := sourceService
    DestinationService := destinationService
    Logs := mapGet? proxy.LogsOutbounds oface.Interface
    ProxyArg := proxy }

/-- The listener builder applied to recorded arguments. -/
def OutboundListenerCall.run (api : GeneratorApi) (call : OutboundListenerCall) :
    Except String Listener :=
  api.CreateOutboundListener call.Name call.Address call.Port call.Service call.Clusters
    call.Virtual call.SourceService call.DestinationService call.Logs call.ProxyArg

/-- The loop of `OutboundProxyGenerator.Generate` over the outbound interfaces,
as `OutboundProxyGenerator.loop`, that returns next to the result the calls of
`envoy.CreateOutboundListener` the run makes, in order: for each call the index
`i` of the interface in whose iteration it is made and its arguments.  A call
that fails is recorded too, and ends the run. -/
def OutboundProxyGenerator.loopTraced (api : GeneratorApi) (proxy : Proxy) :
    Nat → List DataplaneOutbound → List Resource × List String →
      Except String (List Resource) × List (Nat × OutboundListenerCall)
  | _, [], st => (.ok st.1, [])
  | i, oface :: rest, st =>
    match api.ParseOutboundInterface oface.Interface with
    | .error err => (.error err, [])
    | .ok endpoint =>
      match routeOf proxy oface.Service with
      | none =>
        (.error ("outbound interface [" ++ toString i ++ "]\x7bservice=" ++
          api.quote oface.Service ++ "\x7d has no TrafficRoute"), [])
      | some route =>
        let clusters := OutboundProxyGenerator.routeClusters route
        let st1 := clusters.foldl (OutboundProxyGenerator.addCluster proxy) st
        let name := outboundListenerName endpoint
        if name ∈ st1.2 then OutboundProxyGenerator.loopTraced api proxy (i + 1) rest st1
        else
          let call := (i, OutboundProxyGenerator.listenerCall proxy oface endpoint clusters)
          match OutboundProxyGenerator.createListener api proxy oface endpoint clusters with
          | .error err => (.error ("could not generate listener " ++ name ++ ": " ++ err), [call])
          | .ok listener =>
            let run := OutboundProxyGenerator.loopTraced api proxy (i + 1) rest
              (st1.1 ++ [{ Name := name, Payload := .listener listener }], name :: st1.2)
            (run.1, call :: run.2)

/-- Embeds `OutboundProxyGenerator.Generate`, with the calls of the listener
builder next to the result. -/
def OutboundProxyGenerator.GenerateTraced (api : GeneratorApi) (proxy : Proxy) :
    Except String (List Resource) × List (Nat × OutboundListenerCall) :=
  let ofaces := proxy.Outbound
  if ofaces.length = 0 then (.ok [], [])
  else OutboundProxyGenerator.loopTraced api proxy 0 ofaces ([], [])

namespace Example

/-- The example dataplane with two outbounds to `backend`, whose route lists
the same destination twice with weight 100, one destination of weight 0 and one
without a service tag. -/
def proxyRepeatedDestination : Proxy :=
  { proxy with
    Outbound := [{ Interface := "127.0.0.1:10001", Service := "backend" },
                 { Interface := "127.0.0.1:10002", Service := "backend" }]
    TrafficRoutes :=
      [("backend", some { Conf :=
        [{ Weight := 100, Destination := [("kuma.io/service", "backend")] },
         { Weight := 0, Destination := [("kuma.io/service", "backend"), ("version", "v2")] },
         { Weight := 100, Destination := [("kuma.io/service", "backend")] },
         { Weight := 50, Destination := [("version", "v3")] }] })] }

end Example

/-! ## Lemmas on Go maps -/

theorem mapGet?_nil {V : Type} (k : String) : mapGet? ([] : GoMap V) k = none := rfl

theorem mapGet?_cons {V : Type} (a : String) (b : V) (tl : GoMap V) (k : String) :
    mapGet? ((a, b) :: tl) k = if k = a then some b else mapGet? tl k := by
  unfold mapGet?
  by_cases h : k = a
  · have hb : (k == a) = true := by simp [h]
    simp [List.lookup, hb, h]
  · have hb : (k == a) = false := by simp [h]
    simp [List.lookup, hb, h]

theorem mapGet?_mapSet {V : Type} (m : GoMap V) (k k' : String) (v : V) :
    mapGet? (mapSet m k v) k' = if k' = k then some v else mapGet? m k' := by
  induction m with
  | nil => simp [mapSet, mapGet?_cons, mapGet?_nil]
  | cons hd tl ih =>
    obtain ⟨a, b⟩ := hd
    by_cases hak : a = k
    · subst hak
      by_cases h : k' = a <;> simp [mapSet, mapGet?_cons, h]
    · by_cases h : k' = k
      · subst h
        have : ¬ k' = a := fun e => hak e.symm
        simp [mapSet, hak, mapGet?_cons, this, ih]
      · by_cases h2 : k' = a
        · subst h2
          simp [mapSet, hak, mapGet?_cons]
        · simp [mapSet, hak, mapGet?_cons, h2, ih, h]

/-! ## `BuildEndpointMap`: what each loop files under a key -/

theorem endpointsAt_appendEndpoint (m : EndpointMap) (s : String) (e : Endpoint) (k : String) :
    endpointsAt (appendEndpoint m s e) k
      = if k = s then endpointsAt m s ++ [e] else endpointsAt m k := by
  unfold endpointsAt appendEndpoint
  rw [mapGet?_mapSet]
  by_cases h : k = s <;> simp [h]

theorem endpointsAt_addInbound (api : MeshApi) (destinations : DestinationMap)
    (dataplane : DataplaneResource) (m : EndpointMap) (inbound : Inbound) (s : String) :
    endpointsAt (addInbound api destinations dataplane m inbound) s
      = endpointsAt m s ++ if selected destinations dataplane s inbound
          then [dataplaneEndpoint api dataplane inbound] else [] := by
  unfold addInbound selected
  by_cases hs : mapGet inbound.Tags ServiceTag = s
  · subst hs
    cases hd : mapGet? destinations (mapGet inbound.Tags ServiceTag) with
    | none => simp [hd]
    | some selectors =>
      cases hm : TagSelectorSet.Matches selectors (WithTags inbound.Tags "mesh" dataplane.Mesh)
      · simp [hd, hm]
      · simp [hd, hm, endpointsAt_appendEndpoint]
  · cases hd : mapGet? destinations (mapGet inbound.Tags ServiceTag) with
    | none => simp [hs, hd]
    | some selectors =>
      cases hm : TagSelectorSet.Matches selectors (WithTags inbound.Tags "mesh" dataplane.Mesh)
      · simp [hs, hd, hm]
      · have : ¬ s = mapGet inbound.Tags ServiceTag := fun e => hs e.symm
        simp [hs, hd, hm, endpointsAt_appendEndpoint, this]

theorem endpointsAt_foldl_addInbound (api : MeshApi) (destinations : DestinationMap)
    (dataplane : DataplaneResource) (inbounds : List Inbound) (m : EndpointMap) (s : String) :
    endpointsAt (inbounds.foldl (addInbound api destinations dataplane) m) s
      = endpointsAt m s ++ (inbounds.filter (selected destinations dataplane s)).map
          (dataplaneEndpoint api dataplane) := by
  induction inbounds generalizing m with
  | nil => simp
  | cons ib rest ih =>
    rw [List.foldl_cons, ih, endpointsAt_addInbound]
    by_cases hc : selected destinations dataplane s ib <;> simp [hc, List.filter_cons]

theorem filter_selected_healthy (destinations : DestinationMap) (dataplane : DataplaneResource)
    (s : String) :
    (GetHealthyInbounds dataplane.Networking).filter (selected destinations dataplane s)
      = dataplane.Networking.Inbound.filter (contributes destinations dataplane s) := by
  unfold GetHealthyInbounds contributes
  rw [List.filter_filter]
  congr 1
  funext ib
  exact Bool.and_comm _ _

theorem endpointsAt_foldl_addDataplane (api : MeshApi) (destinations : DestinationMap)
    (dataplanes : List DataplaneResource) (m : EndpointMap) (s : String) :
    endpointsAt (dataplanes.foldl (addDataplane api destinations) m) s
      = endpointsAt m s ++ dataplaneEndpoints api destinations dataplanes s := by
  induction dataplanes generalizing m with
  | nil => simp [dataplaneEndpoints]
  | cons dp rest ih =>
    rw [List.foldl_cons, ih]
    simp [addDataplane, endpointsAt_foldl_addInbound, dataplaneEndpoints, List.flatMap_cons,
      filter_selected_healthy]

theorem endpointsAt_addDataplanes (api : MeshApi) (destinations : DestinationMap)
    (dataplanes : List DataplaneResource) (s : String) :
    endpointsAt (addDataplanes api destinations dataplanes) s
      = dataplaneEndpoints api destinations dataplanes s := by
  unfold addDataplanes
  rw [endpointsAt_foldl_addDataplane]
  simp [endpointsAt, mapGet?_nil]

theorem addExternalServices_some (ze : ZoneEgressResource)
    (externalServices : List ExternalServiceResource) (m : EndpointMap) :
    ∃ m', addExternalServices (some ze) externalServices m = .ok m' ∧
      ∀ s, endpointsAt m' s = endpointsAt m s ++ externalServiceEndpoints ze externalServices s := by
  induction externalServices generalizing m with
  | nil => exact ⟨m, rfl, fun s => by simp [externalServiceEndpoints]⟩
  | cons es rest ih =>
    obtain ⟨m', hm', hs⟩ := ih (appendEndpoint m (mapGet es.Tags ServiceTag)
      (externalServiceEndpoint ze es))
    refine ⟨m', by simpa [addExternalServices] using hm', fun s => ?_⟩
    rw [hs, endpointsAt_appendEndpoint]
    unfold externalServiceEndpoints
    by_cases h : s = mapGet es.Tags ServiceTag
    · subst h
      simp [List.filter_cons]
    · have : ¬ mapGet es.Tags ServiceTag = s := fun e => h e.symm
      simp [List.filter_cons, h, this]

/-- With a zone egress and a non-empty destinations map, `BuildEndpointMap`
returns a map that holds under every key the dataplane endpoints of the key
followed by its external-service endpoints. -/
theorem BuildEndpointMap_some (api : MeshApi) (destinations : DestinationMap)
    (ze : ZoneEgressResource) (dataplanes : List DataplaneResource)
    (externalServices : List ExternalServiceResource) (hne : destinations ≠ []) :
    ∃ m, BuildEndpointMap api destinations (some ze) dataplanes externalServices = .ok (some m) ∧
      ∀ s, endpointsAt m s = dataplaneEndpoints api destinations dataplanes s ++
        externalServiceEndpoints ze externalServices s := by
  obtain ⟨m, hm, hs⟩ := addExternalServices_some ze externalServices
    (addDataplanes api destinations dataplanes)
  have hlen : ¬ destinations.length = 0 := by
    intro h
    exact hne (List.length_eq_zero.mp h)
  refine ⟨m, ?_, fun s => ?_⟩
  · simp [BuildEndpointMap, hlen, hm]
  · rw [hs, endpointsAt_addDataplanes]

/-- Without external services, `BuildEndpointMap` needs no zone egress: it
returns the map of the dataplane endpoints. -/
theorem BuildEndpointMap_noExternal (api : MeshApi) (destinations : DestinationMap)
    (zoneEgress : Option ZoneEgressResource) (dataplanes : List DataplaneResource)
    (hne : destinations ≠ []) :
    ∃ m, BuildEndpointMap api destinations zoneEgress dataplanes [] = .ok (some m) ∧
      ∀ s, endpointsAt m s = dataplaneEndpoints api destinations dataplanes s := by
  have hlen : ¬ destinations.length = 0 := by
    intro h
    exact hne (List.length_eq_zero.mp h)
  refine ⟨addDataplanes api destinations dataplanes, ?_, fun s => ?_⟩
  · simp [BuildEndpointMap, hlen, addExternalServices]
  · rw [endpointsAt_addDataplanes]

/-- Every successful non-nil result of `BuildEndpointMap` holds under every key
the dataplane endpoints of the key followed by external-service endpoints. -/
theorem BuildEndpointMap_ok_split (api : MeshApi) (destinations : DestinationMap)
    (zoneEgress : Option ZoneEgressResource) (dataplanes : List DataplaneResource)
    (externalServices : List ExternalServiceResource) (m : EndpointMap)
    (h : BuildEndpointMap api destinations zoneEgress dataplanes externalServices
      = .ok (some m)) (s : String) :
    ∃ external, endpointsAt m s = dataplaneEndpoints api destinations dataplanes s ++ external ∧
      ∀ e ∈ external, e.ExternalService = some ⟨⟩ := by
  have hne : destinations ≠ [] := by
    intro h0
    subst h0
    simp [BuildEndpointMap] at h
  have hext : ∀ ze es, (externalServiceEndpoint ze es).ExternalService = some ⟨⟩ :=
    fun _ _ => rfl
  cases zoneEgress with
  | some ze =>
    obtain ⟨m', hm', hs⟩ := BuildEndpointMap_some api destinations ze dataplanes
      externalServices hne
    rw [hm'] at h
    cases h
    refine ⟨externalServiceEndpoints ze externalServices s, hs s, ?_⟩
    intro e he
    unfold externalServiceEndpoints at he
    obtain ⟨es, _, rfl⟩ := List.mem_map.mp he
    exact hext ze es
  | none =>
    cases externalServices with
    | nil =>
      obtain ⟨m', hm', hs⟩ := BuildEndpointMap_noExternal api destinations none dataplanes hne
      rw [hm'] at h
      cases h
      exact ⟨[], by simpa using hs s, by simp⟩
    | cons es rest =>
      have hlen : ¬ destinations.length = 0 := by
        intro h1
        exact hne (List.length_eq_zero.mp h1)
      simp [BuildEndpointMap, hlen, addExternalServices] at h

/-! ## `BuildEndpointMap`: the endpoints of dataplanes and external services -/

/-- C4. `BuildEndpointMap` with non-empty destinations (and a zone egress, or
no external service) returns a map that holds under every key `s`, before any
external-service endpoint, exactly one endpoint for each dataplane inbound
that is healthy, has service tag `s`, has an entry for `s` in `destinations`,
and whose tags merged with `mesh=<mesh of the dataplane>` match the selectors
of `s`; that endpoint has weight 1, the inbound's dataplane IP and port as
target, and the merged tag set as tags. -/
theorem C4_dataplane_inbound_contributes (api : MeshApi) (destinations : DestinationMap)
    (zoneEgress : Option ZoneEgressResource) (dataplanes : List DataplaneResource)
    (externalServices : List ExternalServiceResource)
    (hne : destinations ≠ [])
    (hze : zoneEgress ≠ none ∨ externalServices = []) :
    ∃ m, BuildEndpointMap api destinations zoneEgress dataplanes externalServices
        = .ok (some m) ∧
      ∀ s, ∃ external,
        endpointsAt m s =
          dataplanes.flatMap (fun dp =>
            (dp.Networking.Inbound.filter (fun ib =>
              ib.Healthy && (mapGet ib.Tags ServiceTag == s &&
                match mapGet? destinations s with
                | none => false
                | some selectors =>
                  TagSelectorSet.Matches selectors (WithTags ib.Tags "mesh" dp.Mesh)))).map
              (fun ib =>
                { Target := (api.ToInboundInterface dp.Networking ib).DataplaneIP
                  Port := (api.ToInboundInterface dp.Networking ib).DataplanePort
                  Tags := WithTags ib.Tags "mesh" dp.Mesh
                  Weight := 1 })) ++ external ∧
        ∀ e ∈ external, e.ExternalService = some ⟨⟩ := by
  have hex : ∃ m, BuildEndpointMap api destinations zoneEgress dataplanes externalServices
      = .ok (some m) := by
    cases zoneEgress with
    | some ze =>
      obtain ⟨m, hm, _⟩ := BuildEndpointMap_some api destinations ze dataplanes
        externalServices hne
      exact ⟨m, hm⟩
    | none =>
      rcases hze with hze | hze
      · exact absurd rfl hze
      · subst hze
        obtain ⟨m, hm, _⟩ := BuildEndpointMap_noExternal api destinations none dataplanes hne
        exact ⟨m, hm⟩
  obtain ⟨m, hm⟩ := hex
  exact ⟨m, hm, fun s =>
    BuildEndpointMap_ok_split api destinations zoneEgress dataplanes externalServices m hm s⟩

/-- C4 at the scenario of the spec: the healthy `backend` inbound of the
dataplane contributes its endpoint. -/
theorem C4_dataplane_inbound_contributes_witness :
    Example.destinations ≠ [] ∧
    ((none : Option ZoneEgressResource) ≠ none ∨ ([] : List ExternalServiceResource) = []) ∧
    ∃ m, BuildEndpointMap Example.meshApi Example.destinations none [Example.dataplane] []
      = .ok (some m) :=
  ⟨by decide, Or.inr rfl,
    (C4_dataplane_inbound_contributes Example.meshApi Example.destinations none
      [Example.dataplane] [] (by decide) (Or.inr rfl)).imp (fun _ h => h.1)⟩

/-- C5, as stated, fails: the endpoint built for the healthy `backend` inbound
carries no locality at all, hence no locality of priority 0. -/
theorem C5_counterexample :
    ¬ (∀ m s e,
        BuildEndpointMap Example.meshApi Example.destinations none [Example.dataplane] []
          = .ok (some m) →
        e ∈ endpointsAt m s → e.ExternalService = none →
        ∃ l, e.Locality = some l ∧ l.Priority = priorityLocal) := by
  intro h
  obtain ⟨l, hl, _⟩ := h
    [("backend", [dataplaneEndpoint Example.meshApi Example.dataplane Example.backendInbound])]
    "backend"
    (dataplaneEndpoint Example.meshApi Example.dataplane Example.backendInbound)
    rfl (by decide) rfl
  cases hl

/-- C5, amended. In every map `BuildEndpointMap` returns, every endpoint
produced from a dataplane inbound (an endpoint without the external-service
marker) carries no locality. -/
theorem C5_dataplane_endpoint_has_no_locality (api : MeshApi) (destinations : DestinationMap)
    (zoneEgress : Option ZoneEgressResource) (dataplanes : List DataplaneResource)
    (externalServices : List ExternalServiceResource) (m : EndpointMap)
    (h : BuildEndpointMap api destinations zoneEgress dataplanes externalServices
      = .ok (some m))
    (s : String) (e : Endpoint) (he : e ∈ endpointsAt m s) (hdp : e.ExternalService = none) :
    e.Locality = none := by
  obtain ⟨external, hs, hext⟩ := BuildEndpointMap_ok_split api destinations zoneEgress
    dataplanes externalServices m h s
  rw [hs, List.mem_append] at he
  rcases he with he | he
  · unfold dataplaneEndpoints at he
    obtain ⟨dp, _, he⟩ := List.mem_flatMap.mp he
    obtain ⟨ib, _, rfl⟩ := List.mem_map.mp he
    rfl
  · rw [hext e he] at hdp
    cases hdp

/-- C5, amended, at the scenario of the spec. -/
theorem C5_dataplane_endpoint_has_no_locality_witness :
    (dataplaneEndpoint Example.meshApi Example.dataplane Example.backendInbound).Locality
      = none :=
  C5_dataplane_endpoint_has_no_locality Example.meshApi Example.destinations none
    [Example.dataplane] []
    [("backend", [dataplaneEndpoint Example.meshApi Example.dataplane Example.backendInbound])]
    rfl "backend" _ (by decide) rfl

/-- C6. `BuildEndpointMap` with non-empty destinations and a zone egress returns
a map that holds under every key `s`, after the dataplane endpoints, exactly
one endpoint for each external service whose service tag is `s`, in list
order; its target and port are the address and port of the zone egress, its
weight is 1, its tags are the tag set of the external service, and it is
marked as an external-service endpoint. -/
theorem C6_external_service_endpoints (api : MeshApi) (destinations : DestinationMap)
    (ze : ZoneEgressResource) (dataplanes : List DataplaneResource)
    (externalServices : List ExternalServiceResource) (hne : destinations ≠ []) :
    ∃ m, BuildEndpointMap api destinations (some ze) dataplanes externalServices
        = .ok (some m) ∧
      (∀ s, endpointsAt m s = endpointsAt (addDataplanes api destinations dataplanes) s ++
        (externalServices.filter (fun es => mapGet es.Tags ServiceTag == s)).map
          (externalServiceEndpoint ze)) ∧
      ∀ es, (externalServiceEndpoint ze es).Target = ze.Address ∧
        (externalServiceEndpoint ze es).Port = ze.Port ∧
        (externalServiceEndpoint ze es).Weight = 1 ∧
        (externalServiceEndpoint ze es).Tags = es.Tags ∧
        (externalServiceEndpoint ze es).ExternalService = some ⟨⟩ := by
  obtain ⟨m, hm, hs⟩ := BuildEndpointMap_some api destinations ze dataplanes
    externalServices hne
  refine ⟨m, hm, fun s => ?_, fun es => ⟨rfl, rfl, rfl, rfl, rfl⟩⟩
  rw [hs, endpointsAt_addDataplanes]
  rfl

/-- C6 at the external services of the e2e suites. -/
theorem C6_external_service_endpoints_witness :
    Example.destinations ≠ [] ∧
    ∃ m, BuildEndpointMap Example.meshApi Example.destinations (some Example.zoneEgress)
        [Example.dataplane] [Example.externalService1, Example.externalService2]
        = .ok (some m) ∧
      endpointsAt m "external-service-1" = endpointsAt
          (addDataplanes Example.meshApi Example.destinations [Example.dataplane])
          "external-service-1" ++
        ([Example.externalService1, Example.externalService2].filter
          (fun es => mapGet es.Tags ServiceTag == "external-service-1")).map
          (externalServiceEndpoint Example.zoneEgress) :=
  ⟨by decide,
    (C6_external_service_endpoints Example.meshApi Example.destinations Example.zoneEgress
      [Example.dataplane] [Example.externalService1, Example.externalService2]
      (by decide)).imp (fun _ h => ⟨h.1, h.2.1 "external-service-1"⟩)⟩

/-- C7. `localityFromTags` returns no locality if and only if the tags have no
zone tag, and a locality of the tagged zone otherwise; with non-empty
destinations and a zone egress, the endpoint `BuildEndpointMap` files for an
external service carries exactly that locality. -/
theorem C7_external_service_locality (api : MeshApi) (destinations : DestinationMap)
    (ze : ZoneEgressResource) (dataplanes : List DataplaneResource)
    (externalServices : List ExternalServiceResource) (hne : destinations ≠ [])
    (es : ExternalServiceResource) (hes : es ∈ externalServices) :
    ∃ m, BuildEndpointMap api destinations (some ze) dataplanes externalServices
        = .ok (some m) ∧
      ∃ e ∈ endpointsAt m (mapGet es.Tags ServiceTag),
        e.Tags = es.Tags ∧ e.ExternalService = some ⟨⟩ ∧
        e.Locality = localityFromTags priorityRemote es.Tags ∧
        (e.Locality = none ↔ mapGet? es.Tags ZoneTag = none) ∧
        ∀ zone, mapGet? es.Tags ZoneTag = some zone →
          ∃ l, e.Locality = some l ∧ l.Zone = zone := by
  obtain ⟨m, hm, hs⟩ := BuildEndpointMap_some api destinations ze dataplanes
    externalServices hne
  refine ⟨m, hm, externalServiceEndpoint ze es, ?_, rfl, rfl, rfl, ?_, ?_⟩
  · rw [hs, List.mem_append]
    right
    unfold externalServiceEndpoints
    exact List.mem_map.mpr ⟨es, List.mem_filter.mpr ⟨hes, by simp⟩, rfl⟩
  · show localityFromTags priorityRemote es.Tags = none ↔ _
    unfold localityFromTags
    cases hz : mapGet? es.Tags ZoneTag <;> simp [hz]
  · intro zone hz
    show ∃ l, localityFromTags priorityRemote es.Tags = some l ∧ l.Zone = zone
    unfold localityFromTags
    simp [hz]

/-- C7 at an external service of the e2e suites that has no zone tag. -/
theorem C7_external_service_locality_witness :
    Example.destinations ≠ [] ∧
    Example.externalService1 ∈ [Example.externalService1, Example.externalService2] ∧
    ∃ m, BuildEndpointMap Example.meshApi Example.destinations (some Example.zoneEgress)
        [Example.dataplane] [Example.externalService1, Example.externalService2]
        = .ok (some m) ∧
      ∃ e ∈ endpointsAt m (mapGet Example.externalService1.Tags ServiceTag),
        e.Tags = Example.externalService1.Tags ∧
        (e.Locality = none ↔ mapGet? Example.externalService1.Tags ZoneTag = none) :=
  ⟨by decide, by decide,
    (C7_external_service_locality Example.meshApi Example.destinations Example.zoneEgress
      [Example.dataplane] [Example.externalService1, Example.externalService2]
      (by decide) Example.externalService1 (by decide)).imp
      (fun _ h => ⟨h.1, h.2.imp (fun _ h' => ⟨h'.1, h'.2.1, h'.2.2.2.2.1⟩)⟩)⟩

/-- C8 on the code: the endpoint of an external service that carries a zone
tag gets a locality of priority 0, the local priority, although the call site
passes `priorityRemote`. -/
theorem C8_zone_tagged_external_service_gets_local_priority :
    BuildEndpointMap Example.meshApi Example.destinations (some Example.zoneEgress) []
        [Example.externalService2]
      = .ok (some [("external-service-2",
          [{ Target := "192.168.0.9"
             Port := 10002
             Tags := [("kuma.io/service", "external-service-2"),
               ("kuma.io/zone", "kuma-2-zone")]
             Weight := 1
             Locality := some { Zone := "kuma-2-zone", Priority := 0 }
             ExternalService := some {} }])]) ∧
    priorityRemote = 1 :=
  ⟨rfl, rfl⟩

/-- C9 on the code: without a zone egress, one external service is enough for
`BuildEndpointMap` to panic on the nil zone egress. -/
theorem C9_nil_zone_egress_panics :
    BuildEndpointMap Example.meshApi Example.destinations none [Example.dataplane]
        [Example.externalService1]
      = .error nilPointerDereference :=
  rfl

/-! ## `destinationClusterName` -/

/-- The order of `sort.Strings`, as a relation on strings. -/
theorem toList_le_iff (a b : String) : a.toList ≤ b.toList ↔ a ≤ b :=
  String.le_iff_toList_le.symm

theorem sortStrings_perm (l : List String) : (sortStrings l).Perm l :=
  List.perm_insertionSort _ l

theorem sortStrings_sorted (l : List String) : (sortStrings l).Sorted (· ≤ ·) := by
  have htotal : IsTotal String (fun a b => a.toList ≤ b.toList) :=
    ⟨fun a b => le_total a.toList b.toList⟩
  have htrans : IsTrans String (fun a b => a.toList ≤ b.toList) :=
    ⟨fun a b c hab hbc => le_trans hab hbc⟩
  have h : (sortStrings l).Sorted (fun a b => a.toList ≤ b.toList) :=
    List.sorted_insertionSort _ l
  exact List.Pairwise.imp (fun {a b} hab => (toList_le_iff a b).mp hab) h

theorem filter_nonService_eq_nil (selector : Tags) (h : ∀ kv ∈ selector, kv.1 = ServiceTag) :
    selector.filter (fun kv => kv.1 != ServiceTag) = [] := by
  rw [List.filter_eq_nil_iff]
  intro kv hkv
  simp [h kv hkv]

/-- C3, as stated, fails: on a selector with the keys `app` and
`app.kubernetes.io/name` the name lists the pairs with the longer key first,
although `app` is the smaller key; the name with the keys in ascending order
is a different one. -/
theorem C3_counterexample :
    destinationClusterName "backend"
        [("kuma.io/service", "backend"), ("app", "web"), ("app.kubernetes.io/name", "web")]
      = "backend\x7bapp.kubernetes.io/name=web,app=web\x7d" ∧
    keySortedClusterName "backend"
        [("kuma.io/service", "backend"), ("app", "web"), ("app.kubernetes.io/name", "web")]
      = "backend\x7bapp=web,app.kubernetes.io/name=web\x7d" ∧
    "app".toList ≤ "app.kubernetes.io/name".toList ∧
    destinationClusterName "backend"
        [("kuma.io/service", "backend"), ("app", "web"), ("app.kubernetes.io/name", "web")]
      ≠ keySortedClusterName "backend"
        [("kuma.io/service", "backend"), ("app", "web"), ("app.kubernetes.io/name", "web")] := by
  refine ⟨by decide, by decide, by decide, by decide⟩

/-- C3, amended. When the selector has no key other than the service tag, the
name is the service; otherwise it is the service followed by
`{p1,p2,...}`, where the `pi` are the rendered pairs `key=value` of the
non-service entries, each exactly once, in ascending order of the rendered
pairs. -/
theorem C3_destinationClusterName_format (service : String) (selector : Tags) :
    ((∀ kv ∈ selector, kv.1 = ServiceTag) → destinationClusterName service selector = service) ∧
    ((∃ kv ∈ selector, kv.1 ≠ ServiceTag) →
      ∃ pairs : List String,
        destinationClusterName service selector
          = service ++ "\x7b" ++ ",".intercalate pairs ++ "\x7d" ∧
        pairs.Perm ((selector.filter (fun kv => kv.1 != ServiceTag)).map
          (fun kv => kv.1 ++ "=" ++ kv.2)) ∧
        pairs.Sorted (· ≤ ·)) := by
  constructor
  · intro h
    simp [destinationClusterName, filter_nonService_eq_nil selector h]
  · rintro ⟨kv, hkv, hne⟩
    have hmem : kv ∈ selector.filter (fun kv => kv.1 != ServiceTag) :=
      List.mem_filter.mpr ⟨hkv, by simpa using hne⟩
    have hlen : ¬ ((selector.filter (fun kv => kv.1 != ServiceTag)).map
        (fun kv => kv.1 ++ "=" ++ kv.2)).length = 0 := by
      rw [List.length_map]
      intro h0
      rw [List.length_eq_zero.mp h0] at hmem
      cases hmem
    refine ⟨sortStrings ((selector.filter (fun kv => kv.1 != ServiceTag)).map
      (fun kv => kv.1 ++ "=" ++ kv.2)), ?_, sortStrings_perm _, sortStrings_sorted _⟩
    unfold destinationClusterName
    simp only [hlen, if_false]

/-- C3, amended, at a selector with a version tag and at a selector with the
service tag alone. -/
theorem C3_destinationClusterName_format_witness :
    destinationClusterName "backend" [("kuma.io/service", "backend")] = "backend" ∧
    ∃ pairs : List String,
      destinationClusterName "backend" [("kuma.io/service", "backend"), ("version", "v1")]
        = "backend" ++ "\x7b" ++ ",".intercalate pairs ++ "\x7d" ∧
      pairs.Sorted (· ≤ ·) :=
  ⟨(C3_destinationClusterName_format "backend" [("kuma.io/service", "backend")]).1
      (by decide),
    ((C3_destinationClusterName_format "backend"
      [("kuma.io/service", "backend"), ("version", "v1")]).2
      ⟨("version", "v1"), by decide, by decide⟩).imp (fun _ h => ⟨h.1, h.2.2⟩)⟩

/-! ## `OutboundProxyGenerator.Generate` -/

theorem loop_nil (api : GeneratorApi) (proxy : Proxy) (i : Nat)
    (st : List Resource × List String) :
    OutboundProxyGenerator.loop api proxy i [] st = .ok st.1 := by
  simp [OutboundProxyGenerator.loop]

/-- One iteration of the loop on an interface that parses, has a route and
whose listener, if needed, is built: the loop goes on with the next index. -/
theorem loop_cons_ok (api : GeneratorApi) (proxy : Proxy) (i : Nat) (oface : DataplaneOutbound)
    (rest : List DataplaneOutbound) (st : List Resource × List String)
    (endpoint : OutboundInterface) (route : TrafficRouteResource) (listener : Listener)
    (hparse : api.ParseOutboundInterface oface.Interface = .ok endpoint)
    (hroute : routeOf proxy oface.Service = some route)
    (hlistener : OutboundProxyGenerator.createListener api proxy oface endpoint
      (OutboundProxyGenerator.routeClusters route) = .ok listener) :
    OutboundProxyGenerator.loop api proxy i (oface :: rest) st =
      OutboundProxyGenerator.loop api proxy (i + 1) rest
        (if outboundListenerName endpoint ∈
            ((OutboundProxyGenerator.routeClusters route).foldl
              (OutboundProxyGenerator.addCluster proxy) st).2
          then (OutboundProxyGenerator.routeClusters route).foldl
            (OutboundProxyGenerator.addCluster proxy) st
          else
            (((OutboundProxyGenerator.routeClusters route).foldl
                (OutboundProxyGenerator.addCluster proxy) st).1 ++
              [{ Name := outboundListenerName endpoint, Payload := .listener listener }],
             outboundListenerName endpoint ::
              ((OutboundProxyGenerator.routeClusters route).foldl
                (OutboundProxyGenerator.addCluster proxy) st).2)) := by
  rw [OutboundProxyGenerator.loop]
  simp only [hparse, hroute, hlistener]
  split <;> rfl

/-- The loop runs through a prefix of interfaces that all parse, have a route
and a listener that builds. -/
theorem loop_through (api : GeneratorApi) (proxy : Proxy) (pre rest : List DataplaneOutbound)
    (hpre : ∀ o ∈ pre, ∃ endpoint route listener,
      api.ParseOutboundInterface o.Interface = .ok endpoint ∧
      routeOf proxy o.Service = some route ∧
      OutboundProxyGenerator.createListener api proxy o endpoint
        (OutboundProxyGenerator.routeClusters route) = .ok listener)
    (i : Nat) (st : List Resource × List String) :
    ∃ st', OutboundProxyGenerator.loop api proxy i (pre ++ rest) st =
      OutboundProxyGenerator.loop api proxy (i + pre.length) rest st' := by
  induction pre generalizing i st with
  | nil => exact ⟨st, by simp⟩
  | cons o pre ih =>
    obtain ⟨endpoint, route, listener, hparse, hroute, hlistener⟩ := hpre o (by simp)
    have hpre' : ∀ o' ∈ pre, ∃ endpoint route listener,
        api.ParseOutboundInterface o'.Interface = .ok endpoint ∧
        routeOf proxy o'.Service = some route ∧
        OutboundProxyGenerator.createListener api proxy o' endpoint
          (OutboundProxyGenerator.routeClusters route) = .ok listener :=
      fun o' ho' => hpre o' (by simp [ho'])
    rw [List.cons_append,
      loop_cons_ok api proxy i o (pre ++ rest) st endpoint route listener hparse hroute hlistener]
    obtain ⟨st', hst'⟩ := ih hpre' (i + 1) _
    refine ⟨st', ?_⟩
    rw [hst']
    congr 1
    simp only [List.length_cons]
    omega

/-- The loop stops with the index-annotated error at an interface that parses
and has no route. -/
theorem loop_no_route (api : GeneratorApi) (proxy : Proxy) (i : Nat) (oface : DataplaneOutbound)
    (rest : List DataplaneOutbound) (st : List Resource × List String)
    (hparse : ∃ endpoint, api.ParseOutboundInterface oface.Interface = .ok endpoint)
    (hroute : routeOf proxy oface.Service = none) :
    OutboundProxyGenerator.loop api proxy i (oface :: rest) st =
      .error ("outbound interface [" ++ toString i ++ "]\x7bservice=" ++ api.quote oface.Service
        ++ "\x7d has no TrafficRoute") := by
  obtain ⟨endpoint, hparse⟩ := hparse
  rw [OutboundProxyGenerator.loop]
  simp only [hparse, hroute]

/-- C1. When the outbound interface at index `i` has no entry in
`proxy.TrafficRoutes`, the interfaces `0..i` all parse, and every earlier
interface has a route and a listener that builds, `Generate` returns an error
and no resources, and the message is
`outbound interface [i]{service=<quoted service>} has no TrafficRoute`. -/
theorem C1_missing_route_is_fatal (api : GeneratorApi) (proxy : Proxy)
    (pre post : List DataplaneOutbound) (oface : DataplaneOutbound)
    (hofaces : proxy.Outbound = pre ++ oface :: post)
    (hpre : ∀ o ∈ pre, ∃ endpoint route listener,
      api.ParseOutboundInterface o.Interface = .ok endpoint ∧
      routeOf proxy o.Service = some route ∧
      OutboundProxyGenerator.createListener api proxy o endpoint
        (OutboundProxyGenerator.routeClusters route) = .ok listener)
    (hparse : ∃ endpoint, api.ParseOutboundInterface oface.Interface = .ok endpoint)
    (hroute : mapGet? proxy.TrafficRoutes oface.Service = none) :
    OutboundProxyGenerator.Generate api proxy =
      .error ("outbound interface [" ++ toString pre.length ++ "]\x7bservice="
        ++ api.quote oface.Service ++ "\x7d has no TrafficRoute") := by
  have hlen : ¬ proxy.Outbound.length = 0 := by
    rw [hofaces]
    simp
  have hnone : routeOf proxy oface.Service = none := by
    simp [routeOf, hroute]
  obtain ⟨st', hst'⟩ := loop_through api proxy pre (oface :: post) hpre 0 ([], [])
  unfold OutboundProxyGenerator.Generate
  simp only [hlen, if_false]
  rw [hofaces, hst', loop_no_route api proxy _ oface post st' hparse hnone]
  simp

/-- C1 at a dataplane whose second outbound interface, to `db`, has no route. -/
theorem C1_missing_route_is_fatal_witness :
    OutboundProxyGenerator.Generate Example.generatorApi Example.proxyWithoutRoute =
      .error "outbound interface [1]\x7bservice=\"db\"\x7d has no TrafficRoute" :=
  C1_missing_route_is_fatal Example.generatorApi Example.proxyWithoutRoute
    [{ Interface := "127.0.0.1:10001", Service := "backend" }] []
    { Interface := "127.0.0.1:10002", Service := "db" } rfl
    (fun o ho => by
      rw [List.mem_singleton] at ho
      subst ho
      exact ⟨_, _, _, rfl, rfl, rfl⟩)
    ⟨_, rfl⟩ rfl

/-- Induction over the loop of `OutboundProxyGenerator.Generate`: a property of
the accumulated state that the appends for a cluster and for a listener
preserve holds of the state whose resources a successful run returns. -/
theorem loop_invariant (api : GeneratorApi) (proxy : Proxy)
    (Q : List Resource × List String → Prop)
    (hcluster : ∀ st o route c, o ∈ proxy.Outbound → routeOf proxy o.Service = some route →
      c ∈ OutboundProxyGenerator.routeClusters route → Q st →
      Q (OutboundProxyGenerator.addCluster proxy st c))
    (hlistener : ∀ (st : List Resource × List String) endpoint listener,
      outboundListenerName endpoint ∉ st.2 → Q st →
      Q (st.1 ++ [{ Name := outboundListenerName endpoint, Payload := .listener listener }],
        outboundListenerName endpoint :: st.2))
    (ofaces : List DataplaneOutbound) (hsub : ∀ o ∈ ofaces, o ∈ proxy.Outbound)
    (i : Nat) (st : List Resource × List String) (hst : Q st) (rs : List Resource)
    (h : OutboundProxyGenerator.loop api proxy i ofaces st = .ok rs) :
    ∃ st', Q st' ∧ rs = st'.1 := by
  induction ofaces generalizing i st with
  | nil =>
    rw [loop_nil] at h
    cases h
    exact ⟨st, hst, rfl⟩
  | cons o rest ih =>
    have hrest : ∀ o' ∈ rest, o' ∈ proxy.Outbound := fun o' ho' => hsub o' (by simp [ho'])
    rw [OutboundProxyGenerator.loop] at h
    cases hparse : api.ParseOutboundInterface o.Interface with
    | error err => simp [hparse] at h
    | ok endpoint =>
      cases hroute : routeOf proxy o.Service with
      | none => simp [hparse, hroute] at h
      | some route =>
        simp only [hparse, hroute] at h
        have hfold : ∀ (cs : List ClusterInfo) (st0 : List Resource × List String),
            (∀ c ∈ cs, c ∈ OutboundProxyGenerator.routeClusters route) → Q st0 →
            Q (cs.foldl (OutboundProxyGenerator.addCluster proxy) st0) := by
          intro cs
          induction cs with
          | nil => intro st0 _ h0; exact h0
          | cons c cs ihc =>
            intro st0 hcs h0
            rw [List.foldl_cons]
            exact ihc _ (fun c' hc' => hcs c' (by simp [hc']))
              (hcluster st0 o route c (hsub o (by simp)) hroute (hcs c (by simp)) h0)
        have hst1 := hfold (OutboundProxyGenerator.routeClusters route) st (fun _ hc => hc) hst
        split at h
        · exact ih hrest _ _ hst1 h
        · rename_i hname
          cases hl : OutboundProxyGenerator.createListener api proxy o endpoint
              (OutboundProxyGenerator.routeClusters route) with
          | error err => simp [hl] at h
          | ok listener =>
            simp only [hl] at h
            exact ih hrest _ _ (hlistener _ endpoint listener hname hst1) h

/-- A name is that of a cluster built for a route destination of the proxy
that carries a service tag and has non-zero weight. -/
theorem mem_routeClusters (route : TrafficRouteResource) (c : ClusterInfo)
    (hc : c ∈ OutboundProxyGenerator.routeClusters route) :
    ∃ d ∈ route.Conf, ∃ service, mapGet? d.Destination ServiceTag = some service ∧
      d.Weight ≠ 0 ∧ c.Name = destinationClusterName service d.Destination ∧
      c.Weight = d.Weight ∧ c.Tags = d.Destination := by
  unfold OutboundProxyGenerator.routeClusters at hc
  obtain ⟨d, hd, hcd⟩ := List.mem_filterMap.mp hc
  refine ⟨d, hd, ?_⟩
  cases hs : mapGet? d.Destination ServiceTag with
  | none => simp [hs] at hcd
  | some service =>
    by_cases hw : d.Weight = 0
    · simp [hs, hw] at hcd
    · simp only [hs, hw, if_false, Option.some.injEq] at hcd
      subst hcd
      exact ⟨service, rfl, hw, rfl, rfl, rfl⟩

/-- Every cluster and load assignment of a successful run of the loop is named
after a route destination with a service tag and non-zero weight; every
listener is named after an outbound interface. -/
theorem outbound_resource_origin (api : GeneratorApi) (proxy : Proxy) (rs : List Resource)
    (h : OutboundProxyGenerator.Generate api proxy = .ok rs) (r : Resource) (hr : r ∈ rs) :
    (r.Payload.kind = Kind.listener ∧ ∃ endpoint, r.Name = outboundListenerName endpoint) ∨
    (r.Payload.kind ≠ Kind.listener ∧
      ∃ o ∈ proxy.Outbound, ∃ route, routeOf proxy o.Service = some route ∧
        ∃ d ∈ route.Conf, ∃ service, mapGet? d.Destination ServiceTag = some service ∧
          d.Weight ≠ 0 ∧ r.Name = destinationClusterName service d.Destination) := by
  unfold OutboundProxyGenerator.Generate at h
  by_cases hlen : proxy.Outbound.length = 0
  · simp [hlen] at h
    subst h
    cases hr
  · simp only [hlen, if_false] at h
    obtain ⟨st', hQ, rfl⟩ := loop_invariant api proxy
      (fun st => ∀ r ∈ st.1,
        (r.Payload.kind = Kind.listener ∧ ∃ endpoint, r.Name = outboundListenerName endpoint) ∨
        (r.Payload.kind ≠ Kind.listener ∧
          ∃ o ∈ proxy.Outbound, ∃ route, routeOf proxy o.Service = some route ∧
            ∃ d ∈ route.Conf, ∃ service, mapGet? d.Destination ServiceTag = some service ∧
              d.Weight ≠ 0 ∧ r.Name = destinationClusterName service d.Destination))
      (by
        intro st o route c ho hroute hc hst r hr
        unfold OutboundProxyGenerator.addCluster at hr
        split at hr
        · exact hst r hr
        · rw [List.mem_append] at hr
          rcases hr with hr | hr
          · exact hst r hr
          · obtain ⟨d, hd, service, hs, hw, hname, _, _⟩ := mem_routeClusters route c hc
            right
            simp only [OutboundProxyGenerator.clusterResources, List.mem_cons,
              List.mem_singleton, List.not_mem_nil, or_false] at hr
            rcases hr with rfl | rfl
            · exact ⟨by simp [ResourcePayload.kind],
                o, ho, route, hroute, d, hd, service, hs, hw, hname⟩
            · exact ⟨by simp [ResourcePayload.kind],
                o, ho, route, hroute, d, hd, service, hs, hw, hname⟩)
      (by
        intro st endpoint listener _ hst r hr
        rw [List.mem_append] at hr
        rcases hr with hr | hr
        · exact hst r hr
        · rw [List.mem_singleton] at hr
          subst hr
          exact Or.inl ⟨rfl, endpoint, rfl⟩)
      proxy.Outbound (fun _ ho => ho) 0 ([], []) (by intro r hr; cases hr) rs h
    exact hQ r hr

/-- C2. In every successful run of `OutboundProxyGenerator.Generate`, every
emitted cluster resource and every emitted load-assignment resource is named
`destinationClusterName service tags` for a destination of the route of an
outbound interface that carries a service tag and has non-zero weight; the
clusters built from a route never include a destination of weight 0. -/
theorem C2_no_zero_weight_leakage (api : GeneratorApi) (proxy : Proxy) (rs : List Resource)
    (h : OutboundProxyGenerator.Generate api proxy = .ok rs) :
    (∀ r ∈ rs, r.Payload.kind = Kind.cluster ∨ r.Payload.kind = Kind.loadAssignment →
      ∃ o ∈ proxy.Outbound, ∃ route, routeOf proxy o.Service = some route ∧
        ∃ d ∈ route.Conf, ∃ service, mapGet? d.Destination ServiceTag = some service ∧
          d.Weight ≠ 0 ∧ r.Name = destinationClusterName service d.Destination) ∧
    (∀ route, ∀ c ∈ OutboundProxyGenerator.routeClusters route,
      ∃ d ∈ route.Conf, ∃ service, mapGet? d.Destination ServiceTag = some service ∧
        d.Weight ≠ 0 ∧ c.Name = destinationClusterName service d.Destination ∧
        c.Weight = d.Weight ∧ c.Tags = d.Destination) := by
  refine ⟨fun r hr hkind => ?_, fun route c hc => mem_routeClusters route c hc⟩
  rcases outbound_resource_origin api proxy rs h r hr with ⟨hl, _⟩ | ⟨_, horigin⟩
  · rcases hkind with hk | hk <;> rw [hl] at hk <;> cases hk
  · exact horigin

/-- C2 at a dataplane whose route to `backend` has a destination of weight 100
and one of weight 0: the run succeeds and every cluster and load assignment is
named after a destination of non-zero weight. -/
theorem C2_no_zero_weight_leakage_witness :
    ∃ rs, OutboundProxyGenerator.Generate Example.generatorApi Example.proxy = .ok rs ∧
      ∀ r ∈ rs, r.Payload.kind = Kind.cluster ∨ r.Payload.kind = Kind.loadAssignment →
        ∃ o ∈ Example.proxy.Outbound, ∃ route, routeOf Example.proxy o.Service = some route ∧
          ∃ d ∈ route.Conf, ∃ service, mapGet? d.Destination ServiceTag = some service ∧
            d.Weight ≠ 0 ∧ r.Name = destinationClusterName service d.Destination :=
  ⟨_, rfl, (C2_no_zero_weight_leakage Example.generatorApi Example.proxy _ rfl).1⟩

/-! ## The default proxy profile: uniqueness of names within a kind -/

theorem nodup_keys_append (l add : List Resource) (names : List String)
    (hnames : ∀ r ∈ l, r.Name ∈ names) (hadd : ∀ r ∈ add, r.Name ∉ names)
    (hl : (l.map Resource.key).Nodup) (hnew : (add.map Resource.key).Nodup) :
    ((l ++ add).map Resource.key).Nodup := by
  rw [List.map_append, List.nodup_append]
  refine ⟨hl, hnew, ?_⟩
  intro k hk1 hk2
  obtain ⟨r1, hr1, rfl⟩ := List.mem_map.mp hk1
  obtain ⟨r2, hr2, hkey⟩ := List.mem_map.mp hk2
  have hname : r2.Name = r1.Name := congrArg Prod.snd hkey
  exact hadd r2 hr2 (hname ▸ hnames r1 hr1)

/-- The state kept by the loops of the inbound and outbound generators: every
resource name is in `names`, and no two resources share kind and name. -/
theorem dedup_state_append (st : List Resource × List String) (add : List Resource)
    (name : String) (hst : (st.1.map Resource.key).Nodup ∧ ∀ r ∈ st.1, r.Name ∈ st.2)
    (hname : name ∉ st.2) (hadd : ∀ r ∈ add, r.Name = name)
    (hnew : (add.map Resource.key).Nodup) :
    ((st.1 ++ add).map Resource.key).Nodup ∧ ∀ r ∈ st.1 ++ add, r.Name ∈ name :: st.2 := by
  refine ⟨nodup_keys_append st.1 add st.2 hst.2 (fun r hr => by rw [hadd r hr]; exact hname)
    hst.1 hnew, ?_⟩
  intro r hr
  rw [List.mem_append] at hr
  rcases hr with hr | hr
  · exact List.mem_cons_of_mem _ (hst.2 r hr)
  · rw [hadd r hr]
    exact List.mem_cons_self _ _

/-- Within the output of `OutboundProxyGenerator.Generate`, no two resources of
the same kind share a name. -/
theorem outbound_keys_nodup (api : GeneratorApi) (proxy : Proxy) (rs : List Resource)
    (h : OutboundProxyGenerator.Generate api proxy = .ok rs) :
    (rs.map Resource.key).Nodup := by
  unfold OutboundProxyGenerator.Generate at h
  by_cases hlen : proxy.Outbound.length = 0
  · simp [hlen] at h
    subst h
    simp
  · simp only [hlen, if_false] at h
    obtain ⟨st', hQ, rfl⟩ := loop_invariant api proxy
      (fun st => (st.1.map Resource.key).Nodup ∧ ∀ r ∈ st.1, r.Name ∈ st.2)
      (by
        intro st o route c _ _ _ hst
        unfold OutboundProxyGenerator.addCluster
        split
        · exact hst
        · rename_i hname
          refine dedup_state_append st _ c.Name hst hname ?_ ?_
          · intro r hr
            simp only [OutboundProxyGenerator.clusterResources, List.mem_cons,
              List.mem_singleton, List.not_mem_nil, or_false] at hr
            rcases hr with rfl | rfl <;> rfl
          · simp [OutboundProxyGenerator.clusterResources, Resource.key, ResourcePayload.kind])
      (by
        intro st endpoint listener hname hst
        refine dedup_state_append st _ (outboundListenerName endpoint) hst hname ?_ ?_
        · intro r hr
          rw [List.mem_singleton] at hr
          subst hr
          rfl
        · simp)
      proxy.Outbound (fun _ ho => ho) 0 ([], [])
      ⟨by simp, by intro r hr; cases hr⟩ rs h
    exact hQ.1

/-- The loop of `InboundProxyGenerator.Generate` keeps the names within a kind
distinct, and names every cluster after the workload port of an inbound
interface and every other resource as an inbound listener. -/
theorem inbound_foldl_invariant (api : GeneratorApi) (proxy : Proxy) (virtual : Bool)
    (all endpoints : List InboundInterface) (hsub : ∀ e ∈ endpoints, e ∈ all)
    (st : List Resource × List String)
    (hst : ((st.1.map Resource.key).Nodup ∧ ∀ r ∈ st.1, r.Name ∈ st.2) ∧
      ∀ r ∈ st.1, (r.Payload.kind = Kind.cluster ∧ ∃ e ∈ all, r.Name = localClusterName e) ∨
        (r.Payload.kind = Kind.listener ∧ ∃ e, r.Name = inboundListenerName e)) :
    ((((endpoints.foldl (InboundProxyGenerator.step api proxy virtual) st).1.map
        Resource.key).Nodup) ∧
      ∀ r ∈ (endpoints.foldl (InboundProxyGenerator.step api proxy virtual) st).1,
        r.Name ∈ (endpoints.foldl (InboundProxyGenerator.step api proxy virtual) st).2) ∧
    ∀ r ∈ (endpoints.foldl (InboundProxyGenerator.step api proxy virtual) st).1,
      (r.Payload.kind = Kind.cluster ∧ ∃ e ∈ all, r.Name = localClusterName e) ∨
      (r.Payload.kind = Kind.listener ∧ ∃ e, r.Name = inboundListenerName e) := by
  induction endpoints generalizing st with
  | nil => exact hst
  | cons e rest ih =>
    rw [List.foldl_cons]
    apply ih (fun e' he' => hsub e' (by simp [he']))
    have he : e ∈ all := hsub e (by simp)
    -- the state after the local cluster
    have h1 : ∃ st1 : List Resource × List String,
        InboundProxyGenerator.step api proxy virtual st e =
          (if inboundListenerName e ∈ st1.2 then st1
           else (st1.1 ++ [{ Name := inboundListenerName e, Version := ""
                             Payload := .listener (.inbound (inboundListenerName e)
                               e.DataplaneIP e.DataplanePort (localClusterName e) virtual
                               (mapGet? proxy.TrafficPermissions (api.inboundString e))
                               proxy.Metadata) }],
                 inboundListenerName e :: st1.2)) ∧
        (((st1.1.map Resource.key).Nodup ∧ ∀ r ∈ st1.1, r.Name ∈ st1.2) ∧
          ∀ r ∈ st1.1,
            (r.Payload.kind = Kind.cluster ∧ ∃ e ∈ all, r.Name = localClusterName e) ∨
            (r.Payload.kind = Kind.listener ∧ ∃ e, r.Name = inboundListenerName e)) := by
      by_cases hc : localClusterName e ∈ st.2
      · exact ⟨st, by simp [InboundProxyGenerator.step, hc], hst⟩
      · refine ⟨(st.1 ++ [{ Name := localClusterName e, Version := ""
                            Payload := .cluster (.localCluster (localClusterName e) "127.0.0.1"
                              e.WorkloadPort) }],
                 localClusterName e :: st.2),
          by simp only [InboundProxyGenerator.step, hc, if_false], ?_, ?_⟩
        · refine dedup_state_append st _ (localClusterName e) hst.1 hc ?_ (by simp)
          intro r hr
          rw [List.mem_singleton] at hr
          subst hr
          rfl
        · intro r hr
          rw [List.mem_append] at hr
          rcases hr with hr | hr
          · exact hst.2 r hr
          · rw [List.mem_singleton] at hr
            subst hr
            exact Or.inl ⟨rfl, e, he, rfl⟩
    obtain ⟨st1, hstep, hst1⟩ := h1
    rw [hstep]
    by_cases hl : inboundListenerName e ∈ st1.2
    · simp only [hl, if_true]
      exact hst1
    · simp only [hl, if_false]
      refine ⟨?_, ?_⟩
      · refine dedup_state_append st1 _ (inboundListenerName e) hst1.1 hl ?_ (by simp)
        intro r hr
        rw [List.mem_singleton] at hr
        subst hr
        rfl
      · intro r hr
        rw [List.mem_append] at hr
        rcases hr with hr | hr
        · exact hst1.2 r hr
        · rw [List.mem_singleton] at hr
          subst hr
          exact Or.inr ⟨rfl, e, rfl⟩

/-- The output of `InboundProxyGenerator.Generate`: names distinct within a kind,
clusters named `localhost:<workloadPort>`, listeners named `inbound:<ip>:<port>`. -/
theorem inbound_output (api : GeneratorApi) (proxy : Proxy) (rs : List Resource)
    (h : InboundProxyGenerator.Generate api proxy = .ok rs) :
    (rs.map Resource.key).Nodup ∧
    ∀ r ∈ rs,
      (r.Payload.kind = Kind.cluster ∧ ∃ endpoints e,
        api.GetInboundInterfaces proxy.InboundSpec = .ok endpoints ∧ e ∈ endpoints ∧
        r.Name = localClusterName e) ∨
      (r.Payload.kind = Kind.listener ∧ ∃ e, r.Name = inboundListenerName e) := by
  unfold InboundProxyGenerator.Generate at h
  cases hget : api.GetInboundInterfaces proxy.InboundSpec with
  | error err => simp [hget] at h
  | ok endpoints =>
    simp only [hget] at h
    by_cases hlen : endpoints.length = 0
    · simp [hlen] at h
      subst h
      simp
    · simp only [hlen, if_false, Except.ok.injEq] at h
      subst h
      have hinv := inbound_foldl_invariant api proxy (proxy.RedirectPort != 0) endpoints
        endpoints (fun _ he => he) ([], [])
        ⟨⟨by simp, by intro r hr; cases hr⟩, by intro r hr; cases hr⟩
      refine ⟨hinv.1.1, fun r hr => ?_⟩
      rcases hinv.2 r hr with ⟨hk, e, he, hname⟩ | hlistener
      · exact Or.inl ⟨hk, endpoints, e, rfl, he, hname⟩
      · exact Or.inr hlistener

/-! ### The name formats of the three generators start with different letters -/

theorem localClusterName_head (e : InboundInterface) :
    (localClusterName e).data.head? = some 'l' := by
  simp [localClusterName, String.data_append]

theorem inboundListenerName_head (e : InboundInterface) :
    (inboundListenerName e).data.head? = some 'i' := by
  simp [inboundListenerName, String.data_append]

theorem outboundListenerName_head (e : OutboundInterface) :
    (outboundListenerName e).data.head? = some 'o' := by
  simp [outboundListenerName, String.data_append]

/-- The output of `TransparentProxyGenerator.Generate` is empty, or the
`catch_all` listener followed by the `pass_through` cluster. -/
theorem transparent_output (proxy : Proxy) (rs : List Resource)
    (h : TransparentProxyGenerator.Generate proxy = .ok rs) :
    (rs.map Resource.key).Nodup ∧
    ∀ r ∈ rs, proxy.RedirectPort ≠ 0 ∧
      (r.key = (Kind.listener, "catch_all") ∨ r.key = (Kind.cluster, "pass_through")) := by
  unfold TransparentProxyGenerator.Generate at h
  by_cases hport : proxy.RedirectPort = 0
  · simp [hport] at h
    subst h
    simp
  · simp only [hport, if_false, Except.ok.injEq] at h
    subst h
    refine ⟨by simp [Resource.key, ResourcePayload.kind], ?_⟩
    intro r hr
    simp only [List.mem_cons, List.mem_singleton, List.not_mem_nil, or_false] at hr
    rcases hr with rfl | rfl
    · exact ⟨hport, Or.inl rfl⟩
    · exact ⟨hport, Or.inr rfl⟩

/-- A successful run of the default profile is the concatenation of successful
runs of the transparent, inbound and outbound generators. -/
theorem defaultProfile_ok (api : GeneratorApi) (proxy : Proxy) (rs : List Resource)
    (h : NewDefaultProxyProfile api proxy = .ok rs) :
    ∃ ts is os, TransparentProxyGenerator.Generate proxy = .ok ts ∧
      InboundProxyGenerator.Generate api proxy = .ok is ∧
      OutboundProxyGenerator.Generate api proxy = .ok os ∧
      rs = ts ++ is ++ os := by
  unfold NewDefaultProxyProfile at h
  cases ht : TransparentProxyGenerator.Generate proxy with
  | error err => simp [CompositeResourceGenerator.Generate, ht] at h
  | ok ts =>
    cases hi : InboundProxyGenerator.Generate api proxy with
    | error err => simp [CompositeResourceGenerator.Generate, ht, hi] at h
    | ok is =>
      cases ho : OutboundProxyGenerator.Generate api proxy with
      | error err => simp [CompositeResourceGenerator.Generate, ht, hi, ho] at h
      | ok os =>
        simp [CompositeResourceGenerator.Generate, ht, hi, ho] at h
        exact ⟨ts, is, os, rfl, rfl, rfl, by rw [← h, List.append_assoc]⟩

/-- C10, as stated, fails: for a dataplane with an inbound on workload port 8080
and a route to a destination whose service is named `localhost:8080`, the
default profile succeeds and emits two clusters named `localhost:8080`, one from
the inbound generator and one from the outbound generator. -/
theorem C10_counterexample :
    ∃ rs, NewDefaultProxyProfile Example.generatorApi Example.proxyWithCollision = .ok rs ∧
      rs.map Resource.key =
        [(Kind.cluster, "localhost:8080"), (Kind.listener, "inbound:10.0.0.5:8080"),
         (Kind.cluster, "localhost:8080"), (Kind.loadAssignment, "localhost:8080"),
         (Kind.listener, "outbound:127.0.0.1:10001")] ∧
      ¬ (rs.map Resource.key).Nodup :=
  ⟨_, rfl, by decide, by decide⟩

/-- C10, amended. For every proxy for which the default profile succeeds and in
which no cluster name of an outbound route destination (with a service tag and
non-zero weight) is `pass_through` while transparent proxying is on, or
`localhost:<workloadPort>` of an inbound interface, no two resources of the
same kind in the combined output share a name. -/
theorem C10_default_profile_names_unique (api : GeneratorApi) (proxy : Proxy)
    (rs : List Resource) (h : NewDefaultProxyProfile api proxy = .ok rs)
    (hdistinct : ∀ o ∈ proxy.Outbound, ∀ route, routeOf proxy o.Service = some route →
      ∀ d ∈ route.Conf, ∀ service, mapGet? d.Destination ServiceTag = some service →
        d.Weight ≠ 0 →
        (proxy.RedirectPort ≠ 0 →
          destinationClusterName service d.Destination ≠ "pass_through") ∧
        ∀ endpoints, api.GetInboundInterfaces proxy.InboundSpec = .ok endpoints →
          ∀ e ∈ endpoints, destinationClusterName service d.Destination ≠ localClusterName e) :
    (rs.map Resource.key).Nodup := by
  obtain ⟨ts, is, os, ht, hi, ho, rfl⟩ := defaultProfile_ok api proxy rs h
  obtain ⟨htn, hts⟩ := transparent_output proxy ts ht
  obtain ⟨hin, his⟩ := inbound_output api proxy is hi
  have hon := outbound_keys_nodup api proxy os ho
  have hos := outbound_resource_origin api proxy os ho
  have hti : ∀ k, k ∈ ts.map Resource.key → k ∈ is.map Resource.key → False := by
    intro k hk1 hk2
    obtain ⟨r1, hr1, rfl⟩ := List.mem_map.mp hk1
    obtain ⟨r2, hr2, hkey⟩ := List.mem_map.mp hk2
    have hkind : r2.Payload.kind = r1.Payload.kind := congrArg Prod.fst hkey
    have hname : r2.Name = r1.Name := congrArg Prod.snd hkey
    rcases hts r1 hr1 with ⟨_, h1 | h1⟩
    · have hk1 : r1.Payload.kind = Kind.listener := congrArg Prod.fst h1
      have hn1 : r1.Name = "catch_all" := congrArg Prod.snd h1
      rcases his r2 hr2 with ⟨hk2, _⟩ | ⟨_, e, he⟩
      · rw [hkind, hk1] at hk2
        cases hk2
      · have := inboundListenerName_head e
        rw [← he, hname, hn1] at this
        revert this
        decide
    · have hk1 : r1.Payload.kind = Kind.cluster := congrArg Prod.fst h1
      have hn1 : r1.Name = "pass_through" := congrArg Prod.snd h1
      rcases his r2 hr2 with ⟨_, _, e, _, _, he⟩ | ⟨hk2, _⟩
      · have := localClusterName_head e
        rw [← he, hname, hn1] at this
        revert this
        decide
      · rw [hkind, hk1] at hk2
        cases hk2
  have hto : ∀ k, k ∈ ts.map Resource.key → k ∈ os.map Resource.key → False := by
    intro k hk1 hk2
    obtain ⟨r1, hr1, rfl⟩ := List.mem_map.mp hk1
    obtain ⟨r2, hr2, hkey⟩ := List.mem_map.mp hk2
    have hkind : r2.Payload.kind = r1.Payload.kind := congrArg Prod.fst hkey
    have hname : r2.Name = r1.Name := congrArg Prod.snd hkey
    rcases hts r1 hr1 with ⟨hport, h1 | h1⟩
    · have hk1 : r1.Payload.kind = Kind.listener := congrArg Prod.fst h1
      have hn1 : r1.Name = "catch_all" := congrArg Prod.snd h1
      rcases hos r2 hr2 with ⟨_, e, he⟩ | ⟨hk2, _⟩
      · have := outboundListenerName_head e
        rw [← he, hname, hn1] at this
        revert this
        decide
      · exact hk2 (hkind.trans hk1)
    · have hn1 : r1.Name = "pass_through" := congrArg Prod.snd h1
      have hk1 : r1.Payload.kind = Kind.cluster := congrArg Prod.fst h1
      rcases hos r2 hr2 with ⟨hk2, _⟩ | ⟨_, o, ho', route, hroute, d, hd, service, hs, hw, hn2⟩
      · rw [hkind, hk1] at hk2
        cases hk2
      · exact (hdistinct o ho' route hroute d hd service hs hw).1 hport
          (hn2.symm.trans (hname.trans hn1))
  have hio : ∀ k, k ∈ is.map Resource.key → k ∈ os.map Resource.key → False := by
    intro k hk1 hk2
    obtain ⟨r1, hr1, rfl⟩ := List.mem_map.mp hk1
    obtain ⟨r2, hr2, hkey⟩ := List.mem_map.mp hk2
    have hkind : r2.Payload.kind = r1.Payload.kind := congrArg Prod.fst hkey
    have hname : r2.Name = r1.Name := congrArg Prod.snd hkey
    rcases his r1 hr1 with ⟨hk1, endpoints, e, hget, he, hn1⟩ | ⟨hk1, e, hn1⟩
    · rcases hos r2 hr2 with ⟨hk2, _⟩ | ⟨_, o, ho', route, hroute, d, hd, service, hs, hw, hn2⟩
      · rw [hkind, hk1] at hk2
        cases hk2
      · exact (hdistinct o ho' route hroute d hd service hs hw).2 endpoints hget e he
          (hn2.symm.trans (hname.trans hn1))
    · rcases hos r2 hr2 with ⟨_, e2, hn2⟩ | ⟨hk2, _⟩
      · have h2 := outboundListenerName_head e2
        have h1 := inboundListenerName_head e
        rw [← hn2, hname, hn1, h1] at h2
        revert h2
        decide
      · exact hk2 (hkind.trans hk1)
  rw [List.map_append, List.map_append, List.nodup_append]
  refine ⟨List.nodup_append.mpr ⟨htn, hin, fun k hk1 hk2 => hti k hk1 hk2⟩, hon, ?_⟩
  intro k hk1 hk2
  rw [List.mem_append] at hk1
  rcases hk1 with hk1 | hk1
  · exact hto k hk1 hk2
  · exact hio k hk1 hk2

/-- C10, amended, at the dataplane of the example, whose only cluster name
`backend` is neither `pass_through` nor `localhost:8080`. -/
theorem C10_default_profile_names_unique_witness :
    ∃ rs, NewDefaultProxyProfile Example.generatorApi Example.proxy = .ok rs ∧
      rs.map Resource.key =
        [(Kind.cluster, "localhost:8080"), (Kind.listener, "inbound:10.0.0.5:8080"),
         (Kind.cluster, "backend"), (Kind.loadAssignment, "backend"),
         (Kind.listener, "outbound:127.0.0.1:10001")] ∧
      (rs.map Resource.key).Nodup :=
  ⟨_, rfl, by decide,
    C10_default_profile_names_unique Example.generatorApi Example.proxy _ rfl (by
      intro o ho route hroute d hd service hs hw
      simp only [Example.proxy, List.mem_singleton] at ho
      subst ho
      have hr : route = { Conf :=
          [{ Weight := 100, Destination := [("kuma.io/service", "backend")] },
           { Weight := 0,
             Destination := [("kuma.io/service", "backend"), ("version", "v2")] }] } := by
        have : routeOf Example.proxy "backend" = some route := hroute
        exact (Option.some.inj this).symm
      subst hr
      simp only [List.mem_cons, List.mem_singleton, List.not_mem_nil, or_false] at hd
      rcases hd with rfl | rfl
      · have hsv : service = "backend" := (Option.some.inj hs).symm
        subst hsv
        refine ⟨fun _ => by decide, fun endpoints hget e he => ?_⟩
        have hends : endpoints =
            [{ DataplaneIP := "10.0.0.5", DataplanePort := 8080, WorkloadPort := 8080 }] :=
          (Except.ok.inj hget).symm
        subst hends
        rw [List.mem_singleton] at he
        subst he
        decide
      · exact absurd rfl hw)⟩

/-! ## `BuildEndpointMap`: the keys of the result -/

theorem mem_mapKeys_iff {V : Type} (m : GoMap V) (k : String) :
    k ∈ mapKeys m ↔ ∃ v, mapGet? m k = some v := by
  induction m with
  | nil => simp [mapKeys, mapGet?_nil]
  | cons hd tl ih =>
    obtain ⟨a, b⟩ := hd
    rw [mapGet?_cons]
    by_cases h : k = a
    · subst h
      simp [mapKeys]
    · have ih' : k ∈ List.map Prod.fst tl ↔ ∃ v, mapGet? tl k = some v := ih
      simp only [mapKeys, List.map_cons, List.mem_cons, h, false_or, if_false]
      exact ih'

theorem mapKeys_mapSet {V : Type} (m : GoMap V) (k : String) (v : V) :
    mapKeys (mapSet m k v) = if k ∈ mapKeys m then mapKeys m else mapKeys m ++ [k] := by
  induction m with
  | nil => simp [mapKeys, mapSet]
  | cons hd tl ih =>
    obtain ⟨a, b⟩ := hd
    have ih' : List.map Prod.fst (mapSet tl k v)
        = if k ∈ List.map Prod.fst tl then List.map Prod.fst tl
          else List.map Prod.fst tl ++ [k] := ih
    by_cases hak : a = k
    · subst hak
      simp [mapKeys, mapSet]
    · have hka : ¬ k = a := fun e => hak e.symm
      simp only [mapKeys, mapSet, beq_iff_eq, hak, if_false, List.map_cons, List.mem_cons, hka,
        false_or, ih']
      split <;> simp

theorem mem_mapSet {V : Type} (m : GoMap V) (k : String) (v : V) (kv : String × V)
    (h : kv ∈ mapSet m k v) : kv.2 = v ∨ kv ∈ m := by
  induction m with
  | nil =>
    simp only [mapSet, List.mem_singleton] at h
    subst h
    exact Or.inl rfl
  | cons hd tl ih =>
    obtain ⟨a, b⟩ := hd
    by_cases hak : a = k
    · subst hak
      simp only [mapSet, beq_self_eq_true, if_true, List.mem_cons] at h
      rcases h with h | h
      · subst h
        exact Or.inl rfl
      · exact Or.inr (List.mem_cons_of_mem _ h)
    · simp only [mapSet, beq_iff_eq, hak, if_false, List.mem_cons] at h
      rcases h with h | h
      · subst h
        exact Or.inr (List.mem_cons_self _ _)
      · rcases ih h with h' | h'
        · exact Or.inl h'
        · exact Or.inr (List.mem_cons_of_mem _ h')

/-- An entry of a map with distinct keys is what the lookup of its key finds. -/
theorem mapGet?_of_mem {V : Type} (m : GoMap V) (hnd : (mapKeys m).Nodup) (kv : String × V)
    (h : kv ∈ m) : mapGet? m kv.1 = some kv.2 := by
  induction m with
  | nil => cases h
  | cons hd tl ih =>
    obtain ⟨a, b⟩ := hd
    have hnd' : a ∉ List.map Prod.fst tl ∧ (List.map Prod.fst tl).Nodup := by
      simpa [mapKeys] using hnd
    rw [mapGet?_cons]
    rcases List.mem_cons.mp h with h | h
    · subst h
      simp
    · have hne : ¬ kv.1 = a := by
        intro e
        exact hnd'.1 (e ▸ List.mem_map_of_mem Prod.fst h)
      simp only [hne, if_false]
      exact ih hnd'.2 h

/-- The maps `BuildEndpointMap` builds: distinct keys, no empty list. -/
theorem appendEndpoint_wellFormed (m : EndpointMap) (s : String) (e : Endpoint)
    (h : (mapKeys m).Nodup ∧ ∀ kv ∈ m, kv.2 ≠ []) :
    (mapKeys (appendEndpoint m s e)).Nodup ∧ ∀ kv ∈ appendEndpoint m s e, kv.2 ≠ [] := by
  unfold appendEndpoint
  constructor
  · rw [mapKeys_mapSet]
    split
    · exact h.1
    · rename_i hs
      exact List.nodup_append.mpr ⟨h.1, by simp, by
        intro k hk1 hk2
        rw [List.mem_singleton] at hk2
        exact hs (hk2 ▸ hk1)⟩
  · intro kv hkv
    rcases mem_mapSet _ _ _ kv hkv with hv | hm
    · rw [hv]
      simp
    · exact h.2 kv hm

theorem addInbound_wellFormed (api : MeshApi) (destinations : DestinationMap)
    (dataplane : DataplaneResource) (m : EndpointMap) (inbound : Inbound)
    (h : (mapKeys m).Nodup ∧ ∀ kv ∈ m, kv.2 ≠ []) :
    (mapKeys (addInbound api destinations dataplane m inbound)).Nodup ∧
      ∀ kv ∈ addInbound api destinations dataplane m inbound, kv.2 ≠ [] := by
  unfold addInbound
  cases hd : mapGet? destinations (mapGet inbound.Tags ServiceTag) with
  | none => simpa [hd] using h
  | some selectors =>
    cases hm : TagSelectorSet.Matches selectors (WithTags inbound.Tags "mesh" dataplane.Mesh)
    · simpa [hd, hm] using h
    · simpa [hd, hm] using appendEndpoint_wellFormed m _ _ h

theorem addDataplanes_wellFormed (api : MeshApi) (destinations : DestinationMap)
    (dataplanes : List DataplaneResource) :
    (mapKeys (addDataplanes api destinations dataplanes)).Nodup ∧
      ∀ kv ∈ addDataplanes api destinations dataplanes, kv.2 ≠ [] := by
  have hinner : ∀ (dp : DataplaneResource) (ibs : List Inbound) (m : EndpointMap),
      ((mapKeys m).Nodup ∧ ∀ kv ∈ m, kv.2 ≠ []) →
      (mapKeys (ibs.foldl (addInbound api destinations dp) m)).Nodup ∧
        ∀ kv ∈ ibs.foldl (addInbound api destinations dp) m, kv.2 ≠ [] := by
    intro dp ibs
    induction ibs with
    | nil => intro m h; exact h
    | cons ib rest ih =>
      intro m h
      rw [List.foldl_cons]
      exact ih _ (addInbound_wellFormed api destinations dp m ib h)
  have houter : ∀ (dps : List DataplaneResource) (m : EndpointMap),
      ((mapKeys m).Nodup ∧ ∀ kv ∈ m, kv.2 ≠ []) →
      (mapKeys (dps.foldl (addDataplane api destinations) m)).Nodup ∧
        ∀ kv ∈ dps.foldl (addDataplane api destinations) m, kv.2 ≠ [] := by
    intro dps
    induction dps with
    | nil => intro m h; exact h
    | cons dp rest ih =>
      intro m h
      rw [List.foldl_cons]
      exact ih _ (hinner dp _ m h)
  exact houter dataplanes [] ⟨by simp [mapKeys], by intro kv hkv; cases hkv⟩

theorem addExternalServices_wellFormed (zoneEgress : Option ZoneEgressResource)
    (externalServices : List ExternalServiceResource) (m m' : EndpointMap)
    (h : (mapKeys m).Nodup ∧ ∀ kv ∈ m, kv.2 ≠ [])
    (hrun : addExternalServices zoneEgress externalServices m = .ok m') :
    (mapKeys m').Nodup ∧ ∀ kv ∈ m', kv.2 ≠ [] := by
  induction externalServices generalizing m with
  | nil =>
    simp only [addExternalServices, Except.ok.injEq] at hrun
    subst hrun
    exact h
  | cons es rest ih =>
    cases zoneEgress with
    | none => simp [addExternalServices] at hrun
    | some ze =>
      simp only [addExternalServices] at hrun
      exact ih _ (appendEndpoint_wellFormed m _ _ h) hrun

/-- What a successful, non-nil run of `BuildEndpointMap` returns: a map with
distinct keys and no empty list that holds under every key the dataplane
endpoints of the key, then its external-service endpoints. -/
theorem BuildEndpointMap_ok_shape (api : MeshApi) (destinations : DestinationMap)
    (zoneEgress : Option ZoneEgressResource) (dataplanes : List DataplaneResource)
    (externalServices : List ExternalServiceResource) (m : EndpointMap)
    (h : BuildEndpointMap api destinations zoneEgress dataplanes externalServices
      = .ok (some m)) :
    ((mapKeys m).Nodup ∧ ∀ kv ∈ m, kv.2 ≠ []) ∧
    ∀ k, endpointsAt m k = dataplaneEndpoints api destinations dataplanes k ++
      externalEndpointsOf zoneEgress externalServices k := by
  have hne : destinations ≠ [] := by
    intro h0
    subst h0
    simp [BuildEndpointMap] at h
  have hlen : ¬ destinations.length = 0 := fun h1 => hne (List.length_eq_zero.mp h1)
  have hrun : addExternalServices zoneEgress externalServices
      (addDataplanes api destinations dataplanes) = .ok m := by
    unfold BuildEndpointMap at h
    simp only [hlen, if_false] at h
    cases hr : addExternalServices zoneEgress externalServices
        (addDataplanes api destinations dataplanes) with
    | error e => simp [hr] at h
    | ok m' =>
      simp only [hr, Except.ok.injEq, Option.some.injEq] at h
      rw [h]
  refine ⟨addExternalServices_wellFormed zoneEgress externalServices _ m
    (addDataplanes_wellFormed api destinations dataplanes) hrun, fun k => ?_⟩
  cases zoneEgress with
  | some ze =>
    obtain ⟨m', hm', hs⟩ := addExternalServices_some ze externalServices
      (addDataplanes api destinations dataplanes)
    rw [hm'] at hrun
    cases hrun
    rw [hs, endpointsAt_addDataplanes]
    rfl
  | none =>
    cases externalServices with
    | nil =>
      simp only [addExternalServices, Except.ok.injEq] at hrun
      subst hrun
      rw [endpointsAt_addDataplanes]
      simp [externalEndpointsOf]
    | cons es rest => simp [addExternalServices] at hrun

/-- C13. In every map `BuildEndpointMap` returns (the destinations being
non-empty), each key occurs once, no key maps to an empty endpoint list, the
keys are exactly the service names under which a dataplane inbound or an
external service produced an endpoint, and a service of `destinations` for
which nothing was produced is not a key. -/
theorem C13_keys_are_services_with_endpoints (api : MeshApi) (destinations : DestinationMap)
    (zoneEgress : Option ZoneEgressResource) (dataplanes : List DataplaneResource)
    (externalServices : List ExternalServiceResource) (m : EndpointMap)
    (h : BuildEndpointMap api destinations zoneEgress dataplanes externalServices
      = .ok (some m)) :
    (mapKeys m).Nodup ∧
    (∀ kv ∈ m, kv.2 ≠ []) ∧
    (∀ k, k ∈ mapKeys m ↔
      dataplaneEndpoints api destinations dataplanes k ++
        externalEndpointsOf zoneEgress externalServices k ≠ []) ∧
    (∀ k, k ∈ mapKeys destinations →
      (∀ dp ∈ dataplanes, ∀ ib ∈ dp.Networking.Inbound,
        contributes destinations dp k ib = false) →
      (∀ es ∈ externalServices, mapGet es.Tags ServiceTag ≠ k) →
      k ∉ mapKeys m) := by
  obtain ⟨⟨hnd, hnon⟩, hat⟩ := BuildEndpointMap_ok_shape api destinations zoneEgress
    dataplanes externalServices m h
  have hiff : ∀ k, k ∈ mapKeys m ↔
      dataplaneEndpoints api destinations dataplanes k ++
        externalEndpointsOf zoneEgress externalServices k ≠ [] := by
    intro k
    rw [← hat k, mem_mapKeys_iff]
    constructor
    · rintro ⟨v, hv⟩
      have hmem : (k, v) ∈ m := by
        unfold mapGet? at hv
        have := List.lookup_eq_some_iff.mp hv
        obtain ⟨l1, l2, hm, _⟩ := this
        rw [hm]
        simp
      have hv' := hnon (k, v) hmem
      simpa [endpointsAt, hv] using hv'
    · intro hne
      cases hv : mapGet? m k with
      | none => simp [endpointsAt, hv] at hne
      | some v => exact ⟨v, rfl⟩
  refine ⟨hnd, hnon, hiff, ?_⟩
  intro k _ hdp hes hk
  apply (hiff k).mp hk
  have h1 : dataplaneEndpoints api destinations dataplanes k = [] := by
    unfold dataplaneEndpoints
    rw [List.flatMap_eq_nil_iff]
    intro dp hdp'
    rw [List.map_eq_nil_iff, List.filter_eq_nil_iff]
    intro ib hib
    simp [hdp dp hdp' ib hib]
  have h2 : externalEndpointsOf zoneEgress externalServices k = [] := by
    cases zoneEgress with
    | none => rfl
    | some ze =>
      show externalServiceEndpoints ze externalServices k = []
      unfold externalServiceEndpoints
      rw [List.map_eq_nil_iff, List.filter_eq_nil_iff]
      intro es hes'
      simp [hes es hes']
  rw [h1, h2]
  rfl

/-- C13 at the scenario of the spec with the two external services of the e2e
suites: the keys are `backend` and the two external services. -/
theorem C13_keys_are_services_with_endpoints_witness :
    ∃ m, BuildEndpointMap Example.meshApi Example.destinations (some Example.zoneEgress)
        [Example.dataplane] [Example.externalService1, Example.externalService2]
        = .ok (some m) ∧
      mapKeys m = ["backend", "external-service-1", "external-service-2"] ∧
      (mapKeys m).Nodup ∧ ∀ kv ∈ m, kv.2 ≠ [] :=
  ⟨_, rfl, by decide,
    (C13_keys_are_services_with_endpoints Example.meshApi Example.destinations
      (some Example.zoneEgress) [Example.dataplane]
      [Example.externalService1, Example.externalService2] _ rfl).1,
    (C13_keys_are_services_with_endpoints Example.meshApi Example.destinations
      (some Example.zoneEgress) [Example.dataplane]
      [Example.externalService1, Example.externalService2] _ rfl).2.1⟩

/-- C14. In every map `BuildEndpointMap` returns, the endpoint list of every key
is the endpoints of the contributing dataplane inbounds of that service, in
dataplane-list order and, within a dataplane, in inbound order, followed by
the endpoints of the external services of that service, in the order the
external services were passed in. -/
theorem C14_endpoint_order (api : MeshApi) (destinations : DestinationMap)
    (zoneEgress : Option ZoneEgressResource) (dataplanes : List DataplaneResource)
    (externalServices : List ExternalServiceResource) (m : EndpointMap)
    (h : BuildEndpointMap api destinations zoneEgress dataplanes externalServices
      = .ok (some m))
    (k : String) (endpoints : List Endpoint) (hk : mapGet? m k = some endpoints) :
    endpoints =
      dataplanes.flatMap (fun dp =>
        (dp.Networking.Inbound.filter (contributes destinations dp k)).map
          (dataplaneEndpoint api dp)) ++
      externalEndpointsOf zoneEgress externalServices k := by
  have hat := (BuildEndpointMap_ok_shape api destinations zoneEgress dataplanes
    externalServices m h).2 k
  have hend : endpointsAt m k = endpoints := by simp [endpointsAt, hk]
  rw [hend] at hat
  rw [hat]
  rfl

/-- C14 at a run with two dataplanes of service `backend` and the external
services of the e2e suites. -/
theorem C14_endpoint_order_witness :
    ∃ m endpoints,
      BuildEndpointMap Example.meshApi Example.destinations (some Example.zoneEgress)
        [Example.dataplane, { Example.dataplane with Mesh := "m2" }]
        [Example.externalService1, Example.externalService2] = .ok (some m) ∧
      mapGet? m "backend" = some endpoints ∧
      endpoints =
        [dataplaneEndpoint Example.meshApi Example.dataplane Example.backendInbound,
         dataplaneEndpoint Example.meshApi { Example.dataplane with Mesh := "m2" }
           Example.backendInbound] :=
  ⟨_, _, rfl, rfl,
    (C14_endpoint_order Example.meshApi Example.destinations (some Example.zoneEgress)
      [Example.dataplane, { Example.dataplane with Mesh := "m2" }]
      [Example.externalService1, Example.externalService2] _ rfl "backend" _ rfl).trans
      (by decide)⟩

/-! ## `TransparentProxyGenerator.Generate` -/

/-- C15. When the redirect port of the dataplane is 0, `Generate` returns no
resource and no error; otherwise it returns exactly two resources, in order the
listener `catch_all` bound to the redirect port and the cluster `pass_through`,
both with the version of the dataplane. -/
theorem C15_transparent_proxy_resources (proxy : Proxy) :
    (proxy.RedirectPort = 0 → TransparentProxyGenerator.Generate proxy = .ok []) ∧
    (proxy.RedirectPort ≠ 0 →
      TransparentProxyGenerator.Generate proxy = .ok
        [ { Name := "catch_all"
            Version := proxy.Version
            Payload := .listener
              (.catchAll "catch_all" "0.0.0.0" proxy.RedirectPort "pass_through") },
          { Name := "pass_through"
            Version := proxy.Version
            Payload := .cluster (.passThrough "pass_through") } ]) := by
  constructor
  · intro h
    simp [TransparentProxyGenerator.Generate, h]
  · intro h
    simp [TransparentProxyGenerator.Generate, h]

/-- C15 at the dataplane of the example, without and with transparent proxying. -/
theorem C15_transparent_proxy_resources_witness :
    TransparentProxyGenerator.Generate Example.proxy = .ok [] ∧
    TransparentProxyGenerator.Generate Example.transparentProxy = .ok
      [ { Name := "catch_all"
          Version := "v1"
          Payload := .listener (.catchAll "catch_all" "0.0.0.0" 15001 "pass_through") },
        { Name := "pass_through"
          Version := "v1"
          Payload := .cluster (.passThrough "pass_through") } ] :=
  ⟨(C15_transparent_proxy_resources Example.proxy).1 rfl,
    (C15_transparent_proxy_resources Example.transparentProxy).2 (by decide)⟩

/-! ## Counting resources by kind and name -/

theorem countNamed_eq_zero (rs : List Resource) (kind : Kind) (name : String)
    (h : ∀ r ∈ rs, r.key ≠ (kind, name)) : countNamed rs kind name = 0 := by
  unfold countNamed
  rw [List.length_eq_zero, List.filter_eq_nil_iff]
  intro r hr
  simp [h r hr]

theorem countNamed_cons (r : Resource) (rs : List Resource) (kind : Kind) (name : String) :
    countNamed (r :: rs) kind name
      = (if r.key = (kind, name) then 1 else 0) + countNamed rs kind name := by
  unfold countNamed
  by_cases h : r.key = (kind, name)
  · simp [List.filter_cons, h]
    omega
  · simp [List.filter_cons, h]

theorem countNamed_eq_one (rs : List Resource) (kind : Kind) (name : String)
    (hnd : (rs.map Resource.key).Nodup) (r : Resource) (hr : r ∈ rs)
    (hkey : r.key = (kind, name)) : countNamed rs kind name = 1 := by
  induction rs with
  | nil => cases hr
  | cons x xs ih =>
    rw [List.map_cons, List.nodup_cons] at hnd
    rw [countNamed_cons]
    rcases List.mem_cons.mp hr with hrx | hrx
    · subst hrx
      have hzero : countNamed xs kind name = 0 := by
        apply countNamed_eq_zero
        intro r' hr' hk'
        exact hnd.1 (List.mem_map.mpr ⟨r', hr', hk'.trans hkey.symm⟩)
      simp [hkey, hzero]
    · have hne : ¬ x.key = (kind, name) := by
        intro hx
        exact hnd.1 (List.mem_map.mpr ⟨r, hrx, hkey.trans hx.symm⟩)
      simp [hne, ih hnd.2 hrx]

/-! ## `InboundProxyGenerator.Generate`: the sequence of names -/

theorem firstOccurrences_spec (names : List String) :
    ∀ seen, (firstOccurrences names seen).Nodup ∧
      ∀ x, x ∈ firstOccurrences names seen ↔ x ∈ names ∧ x ∉ seen := by
  induction names with
  | nil => intro seen; simp [firstOccurrences]
  | cons name rest ih =>
    intro seen
    by_cases h : name ∈ seen
    · simp only [firstOccurrences, h, if_true]
      refine ⟨(ih seen).1, fun x => ?_⟩
      rw [(ih seen).2 x]
      constructor
      · rintro ⟨hx, hs⟩
        exact ⟨List.mem_cons_of_mem _ hx, hs⟩
      · rintro ⟨hx, hs⟩
        rcases List.mem_cons.mp hx with hx | hx
        · exact absurd (hx ▸ h) hs
        · exact ⟨hx, hs⟩
    · simp only [firstOccurrences, h, if_false]
      refine ⟨List.nodup_cons.mpr ⟨?_, (ih (name :: seen)).1⟩, fun x => ?_⟩
      · intro hmem
        exact ((ih (name :: seen)).2 name).mp hmem |>.2 (List.mem_cons_self _ _)
      · rw [List.mem_cons, (ih (name :: seen)).2 x]
        constructor
        · rintro (hx | ⟨hx, hs⟩)
          · subst hx
            exact ⟨List.mem_cons_self _ _, h⟩
          · exact ⟨List.mem_cons_of_mem _ hx, fun hs' => hs (List.mem_cons_of_mem _ hs')⟩
        · rintro ⟨hx, hs⟩
          by_cases hxn : x = name
          · exact Or.inl hxn
          · right
            rcases List.mem_cons.mp hx with hx | hx
            · exact absurd hx hxn
            · refine ⟨hx, fun hs' => ?_⟩
              rcases List.mem_cons.mp hs' with hs' | hs'
              · exact hxn hs'
              · exact hs hs'

/-- The loop of `InboundProxyGenerator.Generate` appends, to the names of the
resources, the names the interfaces ask for that are not in the `names` set,
each at its first occurrence. -/
theorem inbound_foldl_names (api : GeneratorApi) (proxy : Proxy) (virtual : Bool)
    (endpoints : List InboundInterface) (st : List Resource × List String) :
    (endpoints.foldl (InboundProxyGenerator.step api proxy virtual) st).1.map Resource.Name
      = st.1.map Resource.Name ++ firstOccurrences (inboundNames endpoints) st.2 := by
  induction endpoints generalizing st with
  | nil => simp [inboundNames, firstOccurrences]
  | cons e rest ih =>
    rw [List.foldl_cons, ih]
    have hnames : inboundNames (e :: rest)
        = localClusterName e :: inboundListenerName e :: inboundNames rest := by
      simp [inboundNames, List.flatMap_cons]
    rw [hnames]
    by_cases hc : localClusterName e ∈ st.2
    · by_cases hl : inboundListenerName e ∈ st.2
      · simp [InboundProxyGenerator.step, firstOccurrences, hc, hl]
      · simp [InboundProxyGenerator.step, firstOccurrences, hc, hl]
    · by_cases hl : inboundListenerName e ∈ localClusterName e :: st.2
      · simp only [InboundProxyGenerator.step, firstOccurrences, hc, hl, if_true, if_false]
        simp
      · simp only [InboundProxyGenerator.step, firstOccurrences, hc, hl, if_true, if_false]
        simp

/-- C16. When the dataplane has the inbound interfaces `endpoints`,
`InboundProxyGenerator.Generate` succeeds and the names of its resources, in
order, are the names `localhost:<workloadPort_1>`, `inbound:<ip_1>:<port_1>`,
`localhost:<workloadPort_2>`, ... each kept at its first occurrence only; hence
the names are pairwise distinct, every interface has exactly one local cluster
(shared by the interfaces of the same workload port), and an empty list of
interfaces yields no resource. -/
theorem C16_inbound_names (api : GeneratorApi) (proxy : Proxy)
    (endpoints : List InboundInterface)
    (hget : api.GetInboundInterfaces proxy.InboundSpec = .ok endpoints) :
    ∃ rs, InboundProxyGenerator.Generate api proxy = .ok rs ∧
      rs.map Resource.Name = firstOccurrences (inboundNames endpoints) [] ∧
      (rs.map Resource.Name).Nodup ∧
      (∀ e ∈ endpoints, countNamed rs Kind.cluster (localClusterName e) = 1) ∧
      (endpoints = [] → rs = []) := by
  have hnames : ∀ rs, InboundProxyGenerator.Generate api proxy = .ok rs →
      rs.map Resource.Name = firstOccurrences (inboundNames endpoints) [] := by
    intro rs hrs
    unfold InboundProxyGenerator.Generate at hrs
    simp only [hget] at hrs
    by_cases hlen : endpoints.length = 0
    · simp only [hlen, if_true, Except.ok.injEq] at hrs
      subst hrs
      rw [List.length_eq_zero.mp hlen]
      simp [inboundNames, firstOccurrences]
    · simp only [hlen, if_false, Except.ok.injEq] at hrs
      subst hrs
      rw [inbound_foldl_names]
      simp
  have hex : ∃ rs, InboundProxyGenerator.Generate api proxy = .ok rs := by
    unfold InboundProxyGenerator.Generate
    simp only [hget]
    split
    · exact ⟨_, rfl⟩
    · exact ⟨_, rfl⟩
  obtain ⟨rs, hrs⟩ := hex
  have hn := hnames rs hrs
  obtain ⟨hkeys, hshape⟩ := inbound_output api proxy rs hrs
  refine ⟨rs, hrs, hn, ?_, ?_, ?_⟩
  · rw [hn]
    exact (firstOccurrences_spec _ []).1
  · intro e he
    have hmem : localClusterName e ∈ rs.map Resource.Name := by
      rw [hn, (firstOccurrences_spec _ []).2]
      refine ⟨?_, by simp⟩
      unfold inboundNames
      rw [List.mem_flatMap]
      exact ⟨e, he, by simp⟩
    obtain ⟨r, hr, hname⟩ := List.mem_map.mp hmem
    refine countNamed_eq_one rs _ _ hkeys r hr ?_
    rcases hshape r hr with ⟨hk, _⟩ | ⟨_, e', he'⟩
    · unfold Resource.key
      rw [hk, hname]
    · have h1 := inboundListenerName_head e'
      rw [← he', hname, localClusterName_head] at h1
      exact absurd h1 (by decide)
  · intro hnil
    subst hnil
    have : rs.map Resource.Name = [] := by
      rw [hn]
      simp [inboundNames, firstOccurrences]
    exact List.map_eq_nil_iff.mp this

/-- C16 at a dataplane with two inbound interfaces of workload port 8080: one
local cluster, two listeners. -/
theorem C16_inbound_names_witness :
    ∃ rs, InboundProxyGenerator.Generate Example.twoInboundsApi Example.twoInboundsProxy
        = .ok rs ∧
      rs.map Resource.Name
        = ["localhost:8080", "inbound:10.0.0.5:8080", "inbound:10.0.0.5:8081"] ∧
      (rs.map Resource.Name).Nodup :=
  (C16_inbound_names Example.twoInboundsApi Example.twoInboundsProxy
    [{ DataplaneIP := "10.0.0.5", DataplanePort := 8080, WorkloadPort := 8080 },
     { DataplaneIP := "10.0.0.5", DataplanePort := 8081, WorkloadPort := 8080 }] rfl).imp
    (fun _ h => ⟨h.1, h.2.1.trans (by decide), h.2.2.1⟩)

/-! ## `TemplateProxyGenerator.Generate` and the profile source -/

/-- The only registered profile is the default one. -/
theorem predefinedProfiles_lookup (api : GeneratorApi) (tapi : TemplateApi) (name : String) :
    mapGet? (predefinedProfiles api tapi) name
      = if name = tapi.ProfileDefaultProxy then some (NewDefaultProxyProfile api) else none := by
  simp [predefinedProfiles, mapGet?_cons, mapGet?_nil]

theorem profileSource_unknown (api : GeneratorApi) (tapi : TemplateApi) (name : String)
    (proxy : Proxy) (hname : name ≠ tapi.ProfileDefaultProxy) :
    ProxyTemplateProfileSource.Generate api tapi name proxy =
      .error ("profile\x7bname=" ++ api.quote name ++ "\x7d: unknown profile") := by
  unfold ProxyTemplateProfileSource.Generate
  rw [predefinedProfiles_lookup]
  simp [hname]

/-- The loop over the imports runs through imports that generate. -/
theorem templateLoop_through (api : GeneratorApi) (tapi : TemplateApi) (proxy : Proxy)
    (pre rest : List String)
    (hpre : ∀ n ∈ pre, ∃ rs, ProxyTemplateProfileSource.Generate api tapi n proxy = .ok rs)
    (i : Nat) (acc : List Resource) :
    ∃ acc', TemplateProxyGenerator.loop api tapi proxy i (pre ++ rest) acc =
      TemplateProxyGenerator.loop api tapi proxy (i + pre.length) rest acc' := by
  induction pre generalizing i acc with
  | nil => exact ⟨acc, by simp⟩
  | cons n pre ih =>
    obtain ⟨rs, hrs⟩ := hpre n (by simp)
    obtain ⟨acc', hacc'⟩ := ih (fun n' hn' => hpre n' (by simp [hn'])) (i + 1) (acc ++ rs)
    refine ⟨acc', ?_⟩
    rw [List.cons_append, TemplateProxyGenerator.loop]
    simp only [hrs]
    rw [hacc']
    congr 1
    simp only [List.length_cons]
    omega

/-- C17. A profile name other than that of the default profile, the only one
registered in `predefinedProfiles`, makes `ProxyTemplateProfileSource.Generate`
fail with `profile{name=<quoted name>}: unknown profile`; when the imports
before it generate, `TemplateProxyGenerator.Generate` returns no resources and
that error prefixed with `imports[i]{name=<quoted name>}: `, `i` being the
index of the import. -/
theorem C17_unknown_profile_is_fatal (api : GeneratorApi) (tapi : TemplateApi)
    (template : ProxyTemplate) (proxy : Proxy) (pre post : List String) (name : String)
    (himports : template.Imports = pre ++ name :: post)
    (hpre : ∀ n ∈ pre, ∃ rs, ProxyTemplateProfileSource.Generate api tapi n proxy = .ok rs)
    (hname : name ≠ tapi.ProfileDefaultProxy) :
    mapGet? (predefinedProfiles api tapi) name = none ∧
    ProxyTemplateProfileSource.Generate api tapi name proxy =
      .error ("profile\x7bname=" ++ api.quote name ++ "\x7d: unknown profile") ∧
    TemplateProxyGenerator.Generate api tapi template proxy =
      .error ("imports[" ++ toString pre.length ++ "]\x7bname=" ++ api.quote name ++ "\x7d: "
        ++ ("profile\x7bname=" ++ api.quote name ++ "\x7d: unknown profile")) := by
  have hunknown := profileSource_unknown api tapi name proxy hname
  refine ⟨by rw [predefinedProfiles_lookup]; simp [hname], hunknown, ?_⟩
  obtain ⟨acc', hacc'⟩ := templateLoop_through api tapi proxy pre (name :: post) hpre 0 []
  unfold TemplateProxyGenerator.Generate
  rw [himports, hacc', TemplateProxyGenerator.loop]
  simp only [hunknown]
  simp

/-- C17 at a template that imports the default profile and then `my-profile`. -/
theorem C17_unknown_profile_is_fatal_witness :
    TemplateProxyGenerator.Generate Example.generatorApi Example.templateApi
        Example.templateWithUnknownImport Example.proxy =
      .error ("imports[1]\x7bname=\"my-profile\"\x7d: "
        ++ "profile\x7bname=\"my-profile\"\x7d: unknown profile") :=
  (C17_unknown_profile_is_fatal Example.generatorApi Example.templateApi
    Example.templateWithUnknownImport Example.proxy ["default-proxy"] [] "my-profile" rfl
    (fun n hn => by
      rw [List.mem_singleton] at hn
      subst hn
      exact ⟨_, rfl⟩)
    (by decide)).2.2

/-! ## `ZoneExternalServicesGenerator`: cluster names -/

theorem string_append_right_cancel (a b c : String) (h : a ++ c = b ++ c) : a = b := by
  have hd : (a ++ c).data = (b ++ c).data := congrArg String.data h
  rw [String.data_append, String.data_append] at hd
  exact String.ext (List.append_cancel_right hd)

theorem GetMeshClusterName_ne (m1 m2 s : String) (hne : m1 ≠ m2) :
    GetMeshClusterName m1 s ≠ GetMeshClusterName m2 s := by
  intro h
  unfold GetMeshClusterName at h
  exact hne (string_append_right_cancel m1 m2 "_"
    (string_append_right_cancel (m1 ++ "_") (m2 ++ "_") s h))

theorem generateEDS_names (api : EgressApi) (meshName : String) (services : List String)
    (endpointMap : EndpointMap) (acc rs : List EgressResource)
    (h : generateEDS api meshName services endpointMap acc = .ok rs) :
    rs.map (fun r => r.Name) =
      acc.map (fun r => r.Name) ++ services.map (GetMeshClusterName meshName) := by
  induction services generalizing acc with
  | nil =>
    simp only [generateEDS, Except.ok.injEq] at h
    subst h
    simp
  | cons s rest ih =>
    rw [generateEDS] at h
    cases herr : api.CreateClusterLoadAssignmentError (GetMeshClusterName meshName s)
        (mapGetList endpointMap s) with
    | some err => simp [herr] at h
    | none =>
      simp only [herr] at h
      rw [ih _ h]
      simp

theorem generateCDS_names (api : EgressApi) (meshName : String) (services : List String)
    (destinationsPerService : GoMap (List Tags)) (acc rs : List EgressResource)
    (h : generateCDS api meshName services destinationsPerService acc = .ok rs) :
    rs.map (fun r => r.Name) =
      acc.map (fun r => r.Name) ++ services.map (GetMeshClusterName meshName) := by
  induction services generalizing acc with
  | nil =>
    simp only [generateCDS, Except.ok.injEq] at h
    subst h
    simp
  | cons s rest ih =>
    rw [generateCDS] at h
    cases herr : api.BuildClusterError (GetMeshClusterName meshName s)
        (mapGetList destinationsPerService s ++ mapGetList destinationsPerService MatchAllTag) with
    | some err => simp [herr] at h
    | none =>
      simp only [herr] at h
      rw [ih _ h]
      simp

/-- C18. The resources of a successful `generateCDS` or `generateEDS` for a mesh
are named, service by service, `<mesh>_<service>`; for two distinct mesh names
and the same service name these names differ. -/
theorem C18_cross_mesh_name_isolation (api : EgressApi) (m1 m2 s : String) (hne : m1 ≠ m2) :
    GetMeshClusterName m1 s = m1 ++ "_" ++ s ∧
    GetMeshClusterName m2 s = m2 ++ "_" ++ s ∧
    GetMeshClusterName m1 s ≠ GetMeshClusterName m2 s ∧
    (∀ meshName services destinationsPerService rs,
      generateCDS api meshName services destinationsPerService [] = .ok rs →
      rs.map (fun r => r.Name) = services.map (GetMeshClusterName meshName)) ∧
    (∀ meshName services endpointMap rs,
      generateEDS api meshName services endpointMap [] = .ok rs →
      rs.map (fun r => r.Name) = services.map (GetMeshClusterName meshName)) := by
  refine ⟨rfl, rfl, GetMeshClusterName_ne m1 m2 s hne, ?_, ?_⟩
  · intro meshName services destinationsPerService rs h
    simpa using generateCDS_names api meshName services destinationsPerService [] rs h
  · intro meshName services endpointMap rs h
    simpa using generateEDS_names api meshName services endpointMap [] rs h

/-- C18 at the meshes `default` and `non-default` of the e2e suite. -/
theorem C18_cross_mesh_name_isolation_witness :
    GetMeshClusterName "non-default" "external-service-1" = "non-default_external-service-1" ∧
    GetMeshClusterName "default" "external-service-1"
      ≠ GetMeshClusterName "non-default" "external-service-1" :=
  ⟨by decide,
    (C18_cross_mesh_name_isolation Example.egressApi "default" "non-default"
      "external-service-1" (by decide)).2.2.1⟩

/-! ## `ZoneExternalServicesGenerator.buildServices` -/

theorem mem_of_mapGet? {V : Type} (m : GoMap V) (k : String) (v : V)
    (h : mapGet? m k = some v) : (k, v) ∈ m := by
  induction m with
  | nil => simp [mapGet?_nil] at h
  | cons hd tl ih =>
    obtain ⟨a, b⟩ := hd
    rw [mapGet?_cons] at h
    by_cases hk : k = a
    · simp only [hk, if_true, Option.some.injEq] at h
      subst hk
      subst h
      exact List.mem_cons_self _ _
    · simp only [hk, if_false] at h
      exact List.mem_cons_of_mem _ (ih h)

theorem sortStrings_eq_of_perm (l1 l2 : List String) (h : l1.Perm l2) :
    sortStrings l1 = sortStrings l2 :=
  List.eq_of_perm_of_sorted
    (((sortStrings_perm l1).trans h).trans (sortStrings_perm l2).symm)
    (sortStrings_sorted l1) (sortStrings_sorted l2)

/-- C20. For an endpoint map (its keys distinct, in any iteration order),
`buildServices` returns a strictly ascending list that contains exactly the
service names whose endpoint list is non-empty and whose first endpoint is
marked external and has no zone tag or a zone tag other than the local zone;
the result is the same for every iteration order of the map. -/
theorem C20_buildServices (endpointMap : EndpointMap) (zone : String)
    (hkeys : (mapKeys endpointMap).Nodup) :
    (buildServices endpointMap zone).Sorted (· < ·) ∧
    (∀ s, s ∈ buildServices endpointMap zone ↔
      ∃ first rest, mapGet? endpointMap s = some (first :: rest) ∧
        first.ExternalService ≠ none ∧
        (mapGet? first.Tags ZoneTag = none ∨
          ∃ z, mapGet? first.Tags ZoneTag = some z ∧ z ≠ zone)) ∧
    (∀ other : EndpointMap, other.Perm endpointMap →
      buildServices other zone = buildServices endpointMap zone) := by
  refine ⟨?_, ?_, ?_⟩
  · apply List.Sorted.lt_of_le (sortStrings_sorted _)
    apply (sortStrings_perm _).nodup_iff.mpr
    exact List.Nodup.sublist (List.Sublist.map Prod.fst (List.filter_sublist _)) hkeys
  · intro s
    unfold buildServices
    rw [(sortStrings_perm _).mem_iff, List.mem_map]
    constructor
    · rintro ⟨kv, hkv, rfl⟩
      rw [List.mem_filter] at hkv
      obtain ⟨hmem, hcond⟩ := hkv
      obtain ⟨k, v⟩ := kv
      cases v with
      | nil => simp at hcond
      | cons first rest =>
        refine ⟨first, rest, mapGet?_of_mem endpointMap hkeys _ hmem, ?_⟩
        simp only [Bool.and_eq_true] at hcond
        obtain ⟨hext, hzone⟩ := hcond
        refine ⟨?_, ?_⟩
        · intro hnone
          simp [isZoneExternalService, hnone] at hext
        · unfold isNotSpecificZoneExternalService at hzone
          cases hz : mapGet? first.Tags ZoneTag with
          | none => exact Or.inl rfl
          | some z =>
            right
            refine ⟨z, rfl, ?_⟩
            simpa [hz] using hzone
    · rintro ⟨first, rest, hget, hext, hzone⟩
      refine ⟨(s, first :: rest), ?_, rfl⟩
      rw [List.mem_filter]
      refine ⟨mem_of_mapGet? endpointMap s _ hget, ?_⟩
      have h1 : isZoneExternalService first = true := by
        unfold isZoneExternalService
        cases he : first.ExternalService with
        | none => exact absurd he hext
        | some _ => rfl
      have h2 : isNotSpecificZoneExternalService first zone = true := by
        unfold isNotSpecificZoneExternalService
        rcases hzone with hz | ⟨z, hz, hne⟩
        · simp [hz]
        · simp [hz, hne]
      simp [h1, h2]
  · intro other hperm
    unfold buildServices
    exact sortStrings_eq_of_perm _ _ ((hperm.filter _).map Prod.fst)

/-- C20 at the endpoint map of the example on the egress of zone `kuma-1-zone`:
both external services qualify, in ascending order, whatever the order of the
entries. -/
theorem C20_buildServices_witness :
    buildServices Example.egressEndpointMap "kuma-1-zone"
      = ["external-service-1", "external-service-2"] ∧
    (buildServices Example.egressEndpointMap "kuma-1-zone").Sorted (· < ·) ∧
    buildServices Example.egressEndpointMap.reverse "kuma-1-zone"
      = buildServices Example.egressEndpointMap "kuma-1-zone" :=
  ⟨by decide,
    (C20_buildServices Example.egressEndpointMap "kuma-1-zone" (by decide)).1,
    (C20_buildServices Example.egressEndpointMap "kuma-1-zone" (by decide)).2.2 _
      (List.reverse_perm _)⟩

/-! ## `ZoneExternalServicesGenerator.addFilterChains` -/

/-- A loop whose body keeps an invariant of the state, only adds to the set in
the state, and leaves the mark of the element it visits in the set, ends in a
state that satisfies the invariant and holds the mark of every element. -/
theorem foldl_marks {α σ : Type} (f : σ × List String → α → σ × List String)
    (P : σ × List String → Prop) (mark : α → List String → Prop)
    (hmono : ∀ a (s s' : List String), (∀ x ∈ s, x ∈ s') → mark a s → mark a s')
    (hstep : ∀ st a, P st → P (f st a) ∧ (∀ x ∈ st.2, x ∈ (f st a).2) ∧ mark a (f st a).2)
    (l : List α) (st : σ × List String) (hst : P st) :
    P (l.foldl f st) ∧ (∀ x ∈ st.2, x ∈ (l.foldl f st).2) ∧
      ∀ a ∈ l, mark a (l.foldl f st).2 := by
  induction l generalizing st with
  | nil => exact ⟨hst, fun _ hx => hx, fun _ ha => by cases ha⟩
  | cons a rest ih =>
    rw [List.foldl_cons]
    obtain ⟨hP, hsub, hmark⟩ := hstep st a hst
    obtain ⟨hP', hsub', hmarks⟩ := ih (f st a) hP
    refine ⟨hP', fun x hx => hsub' x (hsub x hx), fun b hb => ?_⟩
    rcases List.mem_cons.mp hb with hb | hb
    · subst hb
      exact hmono b _ _ hsub' hmark
    · exact hmarks b hb

/-- The state of `addFilterChains`: the server names of the chains are distinct
and are exactly the members of `sniUsed`. -/
theorem addDestinationChain_step (api : EgressApi) (meshName serviceName : String)
    (st : List FilterChain × List String) (destination : Tags)
    (hst : (st.1.map (fun c => c.Sni)).Nodup ∧ ∀ s, s ∈ st.2 ↔ s ∈ st.1.map (fun c => c.Sni)) :
    ((((addDestinationChain api meshName serviceName st destination).1.map
        (fun c => c.Sni)).Nodup) ∧
      ∀ s, s ∈ (addDestinationChain api meshName serviceName st destination).2 ↔
        s ∈ (addDestinationChain api meshName serviceName st destination).1.map
          (fun c => c.Sni)) ∧
    (∀ x ∈ st.2, x ∈ (addDestinationChain api meshName serviceName st destination).2) ∧
    api.SNIFromTags (WithTags (WithTags destination ServiceTag serviceName) "mesh" meshName)
      ∈ (addDestinationChain api meshName serviceName st destination).2 := by
  unfold addDestinationChain
  by_cases h : api.SNIFromTags
      (WithTags (WithTags destination ServiceTag serviceName) "mesh" meshName) ∈ st.2
  · rw [if_pos h]
    exact ⟨hst, fun _ hx => hx, h⟩
  · rw [if_neg h]
    refine ⟨⟨?_, ?_⟩, fun x hx => List.mem_cons_of_mem _ hx, List.mem_cons_self _ _⟩
    · rw [List.map_append, List.nodup_append]
      refine ⟨hst.1, by simp, ?_⟩
      intro s hs1 hs2
      simp only [List.map_cons, List.map_nil, List.mem_singleton] at hs2
      exact h (hs2 ▸ (hst.2 s).mpr hs1)
    · intro s
      rw [List.mem_cons, List.map_append, List.mem_append, hst.2 s]
      simp only [List.map_cons, List.map_nil, List.mem_singleton]
      exact or_comm

/-- The server names of the chains `addFilterChains` adds are distinct, and
every destination it reaches has its server name among them. -/
theorem addFilterChains_state (api : EgressApi) (meshName : String)
    (destinationsPerService : GoMap (List Tags)) (endpointMap : EndpointMap)
    (zoneIngresses : List ZoneIngressResource) :
    ((addFilterChains api meshName destinationsPerService endpointMap zoneIngresses).map
      (fun c => c.Sni)).Nodup ∧
    ∀ zoneIngress ∈ zoneIngresses, ∀ service ∈ zoneIngress.AvailableServices,
      chainsWanted meshName endpointMap zoneIngress.Zone service = true →
      ∀ destination ∈ serviceDestinations destinationsPerService
          (mapGet service.Tags ServiceTag),
        api.SNIFromTags (WithTags (WithTags destination ServiceTag
            (mapGet service.Tags ServiceTag)) "mesh" meshName)
          ∈ (addFilterChains api meshName destinationsPerService endpointMap
              zoneIngresses).map (fun c => c.Sni) := by
  have hdest : ∀ (serviceName : String) (l : List Tags) (st : List FilterChain × List String),
      ((st.1.map (fun c => c.Sni)).Nodup ∧ ∀ s, s ∈ st.2 ↔ s ∈ st.1.map (fun c => c.Sni)) →
      _ := fun serviceName l st hst =>
    foldl_marks (addDestinationChain api meshName serviceName)
      (fun st => (st.1.map (fun c => c.Sni)).Nodup ∧
        ∀ s, s ∈ st.2 ↔ s ∈ st.1.map (fun c => c.Sni))
      (fun destination used => api.SNIFromTags
        (WithTags (WithTags destination ServiceTag serviceName) "mesh" meshName) ∈ used)
      (fun _ _ _ hsub hm => hsub _ hm)
      (fun st destination hst => addDestinationChain_step api meshName serviceName st
        destination hst)
      l st hst
  have hservice : ∀ (zone : String) (l : List AvailableService)
      (st : List FilterChain × List String),
      ((st.1.map (fun c => c.Sni)).Nodup ∧ ∀ s, s ∈ st.2 ↔ s ∈ st.1.map (fun c => c.Sni)) →
      _ := fun zone l st hst =>
    foldl_marks (addServiceChains api meshName destinationsPerService endpointMap zone)
      (fun st => (st.1.map (fun c => c.Sni)).Nodup ∧
        ∀ s, s ∈ st.2 ↔ s ∈ st.1.map (fun c => c.Sni))
      (fun service used => chainsWanted meshName endpointMap zone service = true →
        ∀ destination ∈ serviceDestinations destinationsPerService
            (mapGet service.Tags ServiceTag),
          api.SNIFromTags (WithTags (WithTags destination ServiceTag
            (mapGet service.Tags ServiceTag)) "mesh" meshName) ∈ used)
      (fun _ _ _ hsub hm hw d hd => hsub _ (hm hw d hd))
      (fun st service hst => by
        unfold addServiceChains
        by_cases hw : chainsWanted meshName endpointMap zone service = true
        · rw [if_pos hw]
          obtain ⟨hP, hsub, hmarks⟩ := hdest (mapGet service.Tags ServiceTag)
            (serviceDestinations destinationsPerService (mapGet service.Tags ServiceTag)) st hst
          exact ⟨hP, hsub, fun _ => hmarks⟩
        · rw [if_neg hw]
          exact ⟨hst, fun _ hx => hx, fun hw' => absurd hw' hw⟩)
      l st hst
  have hingress := foldl_marks
    (fun (st : List FilterChain × List String) (zoneIngress : ZoneIngressResource) =>
      zoneIngress.AvailableServices.foldl
        (addServiceChains api meshName destinationsPerService endpointMap zoneIngress.Zone) st)
    (fun st => (st.1.map (fun c => c.Sni)).Nodup ∧
      ∀ s, s ∈ st.2 ↔ s ∈ st.1.map (fun c => c.Sni))
    (fun zoneIngress used => ∀ service ∈ zoneIngress.AvailableServices,
      chainsWanted meshName endpointMap zoneIngress.Zone service = true →
      ∀ destination ∈ serviceDestinations destinationsPerService
          (mapGet service.Tags ServiceTag),
        api.SNIFromTags (WithTags (WithTags destination ServiceTag
          (mapGet service.Tags ServiceTag)) "mesh" meshName) ∈ used)
    (fun _ _ _ hsub hm service hs hw d hd => hsub _ (hm service hs hw d hd))
    (fun st zoneIngress hst => hservice zoneIngress.Zone zoneIngress.AvailableServices st hst)
    zoneIngresses ([], []) ⟨by simp, by simp⟩
  obtain ⟨hP, _, hmarks⟩ := hingress
  refine ⟨hP.1, fun zoneIngress hz service hs hw destination hd => ?_⟩
  exact (hP.2 _).mp (hmarks zoneIngress hz service hs hw destination hd)

/-- C19. Within one call of `addFilterChains`, the server names of the filter
chains added to the listener builder are pairwise distinct, and every
destination the loops reach has exactly one filter chain with its server name:
destinations that derive the same server name, from the same or from different
zone-ingress advertisements, share that one chain. -/
theorem C19_sni_dedup (api : EgressApi) (meshName : String)
    (destinationsPerService : GoMap (List Tags)) (endpointMap : EndpointMap)
    (zoneIngresses : List ZoneIngressResource) :
    ((addFilterChains api meshName destinationsPerService endpointMap zoneIngresses).map
      (fun c => c.Sni)).Nodup ∧
    ∀ zoneIngress ∈ zoneIngresses, ∀ service ∈ zoneIngress.AvailableServices,
      chainsWanted meshName endpointMap zoneIngress.Zone service = true →
      ∀ destination ∈ serviceDestinations destinationsPerService
          (mapGet service.Tags ServiceTag),
        ((addFilterChains api meshName destinationsPerService endpointMap
          zoneIngresses).filter (fun c => decide (c.Sni = api.SNIFromTags
            (WithTags (WithTags destination ServiceTag (mapGet service.Tags ServiceTag))
              "mesh" meshName)))).length = 1 := by
  obtain ⟨hnd, hmem⟩ := addFilterChains_state api meshName destinationsPerService
    endpointMap zoneIngresses
  refine ⟨hnd, fun zoneIngress hz service hs hw destination hd => ?_⟩
  have hin := hmem zoneIngress hz service hs hw destination hd
  have hcount := List.count_eq_one_of_mem hnd hin
  rw [List.count, List.countP_map, List.countP_eq_length_filter] at hcount
  rw [← hcount]
  congr 1

/-- C19 at two zone ingresses that both advertise `external-service-2`: its
selector and the match-all selector derive the same server name, in both
advertisements, and the listener gets one filter chain. -/
theorem C19_sni_dedup_witness :
    (addFilterChains Example.egressApi "default" Example.destinationsPerService
        Example.egressEndpointMap Example.zoneIngresses).map (fun c => c.Sni)
      = ["external-service-2\x7bmesh=default\x7d"] ∧
    ((addFilterChains Example.egressApi "default" Example.destinationsPerService
        Example.egressEndpointMap Example.zoneIngresses).map (fun c => c.Sni)).Nodup :=
  ⟨by decide,
    (C19_sni_dedup Example.egressApi "default" Example.destinationsPerService
      Example.egressEndpointMap Example.zoneIngresses).1⟩

/-! ## `OutboundProxyGenerator.Generate`: what every interface leaves in the output -/

theorem addCluster_names (proxy : Proxy) (cs : List ClusterInfo)
    (st : List Resource × List String) :
    (∀ x ∈ st.2, x ∈ (cs.foldl (OutboundProxyGenerator.addCluster proxy) st).2) ∧
      ∀ c ∈ cs, c.Name ∈ (cs.foldl (OutboundProxyGenerator.addCluster proxy) st).2 := by
  have h := foldl_marks (OutboundProxyGenerator.addCluster proxy) (fun _ => True)
    (fun (c : ClusterInfo) used => c.Name ∈ used)
    (fun _ _ _ hsub hm => hsub _ hm)
    (fun st c _ => by
      unfold OutboundProxyGenerator.addCluster
      by_cases hc : c.Name ∈ st.2
      · rw [if_pos hc]
        exact ⟨trivial, fun _ hx => hx, hc⟩
      · rw [if_neg hc]
        exact ⟨trivial, fun _ hx => List.mem_cons_of_mem _ hx, List.mem_cons_self _ _⟩)
    cs st trivial
  exact ⟨h.2.1, h.2.2⟩

/-- Induction over the loop of `OutboundProxyGenerator.Generate` that also
records the names: a successful run ends in a state that satisfies the
invariant and whose `names` hold, for every interface of the run, the names of
the clusters of its route and the name of its listener. -/
theorem loop_final (api : GeneratorApi) (proxy : Proxy)
    (Q : List Resource × List String → Prop)
    (hcluster : ∀ st o route c, o ∈ proxy.Outbound → routeOf proxy o.Service = some route →
      c ∈ OutboundProxyGenerator.routeClusters route → Q st →
      Q (OutboundProxyGenerator.addCluster proxy st c))
    (hlistener : ∀ (st : List Resource × List String) endpoint listener,
      outboundListenerName endpoint ∉ st.2 → Q st →
      Q (st.1 ++ [{ Name := outboundListenerName endpoint, Payload := .listener listener }],
        outboundListenerName endpoint :: st.2))
    (ofaces : List DataplaneOutbound) (hsub : ∀ o ∈ ofaces, o ∈ proxy.Outbound)
    (i : Nat) (st : List Resource × List String) (hst : Q st) (rs : List Resource)
    (h : OutboundProxyGenerator.loop api proxy i ofaces st = .ok rs) :
    ∃ st', Q st' ∧ rs = st'.1 ∧ (∀ x ∈ st.2, x ∈ st'.2) ∧
      ∀ o ∈ ofaces, ∃ endpoint route,
        api.ParseOutboundInterface o.Interface = .ok endpoint ∧
        routeOf proxy o.Service = some route ∧
        (∀ c ∈ OutboundProxyGenerator.routeClusters route, c.Name ∈ st'.2) ∧
        outboundListenerName endpoint ∈ st'.2 := by
  induction ofaces generalizing i st with
  | nil =>
    rw [loop_nil] at h
    cases h
    exact ⟨st, hst, rfl, fun _ hx => hx, fun _ ho => by cases ho⟩
  | cons o rest ih =>
    have hrest : ∀ o' ∈ rest, o' ∈ proxy.Outbound := fun o' ho' => hsub o' (by simp [ho'])
    rw [OutboundProxyGenerator.loop] at h
    cases hparse : api.ParseOutboundInterface o.Interface with
    | error err => simp [hparse] at h
    | ok endpoint =>
      cases hroute : routeOf proxy o.Service with
      | none => simp [hparse, hroute] at h
      | some route =>
        simp only [hparse, hroute] at h
        have hfold : ∀ (cs : List ClusterInfo) (st0 : List Resource × List String),
            (∀ c ∈ cs, c ∈ OutboundProxyGenerator.routeClusters route) → Q st0 →
            Q (cs.foldl (OutboundProxyGenerator.addCluster proxy) st0) := by
          intro cs
          induction cs with
          | nil => intro st0 _ h0; exact h0
          | cons c cs ihc =>
            intro st0 hcs h0
            rw [List.foldl_cons]
            exact ihc _ (fun c' hc' => hcs c' (by simp [hc']))
              (hcluster st0 o route c (hsub o (by simp)) hroute (hcs c (by simp)) h0)
        have hst1 := hfold (OutboundProxyGenerator.routeClusters route) st (fun _ hc => hc) hst
        obtain ⟨hsub1, hnames1⟩ :=
          addCluster_names proxy (OutboundProxyGenerator.routeClusters route) st
        split at h
        · rename_i hname
          obtain ⟨st', hQ, hrs, hsub', hall⟩ := ih hrest _ _ hst1 h
          refine ⟨st', hQ, hrs, fun x hx => hsub' x (hsub1 x hx), fun o' ho' => ?_⟩
          rcases List.mem_cons.mp ho' with ho' | ho'
          · subst ho'
            exact ⟨endpoint, route, hparse, hroute,
              fun c hc => hsub' _ (hnames1 c hc), hsub' _ hname⟩
          · exact hall o' ho'
        · rename_i hname
          cases hl : OutboundProxyGenerator.createListener api proxy o endpoint
              (OutboundProxyGenerator.routeClusters route) with
          | error err => simp [hl] at h
          | ok listener =>
            simp only [hl] at h
            obtain ⟨st', hQ, hrs, hsub', hall⟩ :=
              ih hrest _ _ (hlistener _ endpoint listener hname hst1) h
            refine ⟨st', hQ, hrs,
              fun x hx => hsub' x (List.mem_cons_of_mem _ (hsub1 x hx)), fun o' ho' => ?_⟩
            rcases List.mem_cons.mp ho' with ho' | ho'
            · subst ho'
              exact ⟨endpoint, route, hparse, hroute,
                fun c hc => hsub' _ (List.mem_cons_of_mem _ (hnames1 c hc)),
                hsub' _ (List.mem_cons_self _ _)⟩
            · exact hall o' ho'

/-- In a successful run of `OutboundProxyGenerator.Generate`, every interface
parses and has a route, and each name it asks for, the names of the clusters of
its route and the name of its listener, is in the output: as the name of a
listener, or as the name of the two resources of a cluster of some route. -/
theorem outbound_names_present (api : GeneratorApi) (proxy : Proxy) (rs : List Resource)
    (h : OutboundProxyGenerator.Generate api proxy = .ok rs) :
    ∀ o ∈ proxy.Outbound, ∃ endpoint route,
      api.ParseOutboundInterface o.Interface = .ok endpoint ∧
      routeOf proxy o.Service = some route ∧
      ∀ n, (n = outboundListenerName endpoint ∨
          ∃ c ∈ OutboundProxyGenerator.routeClusters route, c.Name = n) →
        (∃ r ∈ rs, r.key = (Kind.listener, n)) ∨
        (∃ o' ∈ proxy.Outbound, ∃ route', routeOf proxy o'.Service = some route' ∧
          ∃ c' ∈ OutboundProxyGenerator.routeClusters route', c'.Name = n ∧
            ∀ r ∈ OutboundProxyGenerator.clusterResources proxy c', r ∈ rs) := by
  unfold OutboundProxyGenerator.Generate at h
  by_cases hlen : proxy.Outbound.length = 0
  · intro o ho
    rw [List.length_eq_zero.mp hlen] at ho
    cases ho
  · simp only [hlen, if_false] at h
    obtain ⟨st', hQ, rfl, _, hall⟩ := loop_final api proxy
      (fun st => ∀ n ∈ st.2,
        (∃ r ∈ st.1, r.key = (Kind.listener, n)) ∨
        (∃ o' ∈ proxy.Outbound, ∃ route', routeOf proxy o'.Service = some route' ∧
          ∃ c' ∈ OutboundProxyGenerator.routeClusters route', c'.Name = n ∧
            ∀ r ∈ OutboundProxyGenerator.clusterResources proxy c', r ∈ st.1))
      (by
        intro st o route c ho hroute hc hst n hn
        unfold OutboundProxyGenerator.addCluster at hn ⊢
        by_cases hused : c.Name ∈ st.2
        · rw [if_pos hused] at hn ⊢
          exact hst n hn
        · rw [if_neg hused] at hn ⊢
          rcases List.mem_cons.mp hn with hn | hn
          · right
            exact ⟨o, ho, route, hroute, c, hc, hn.symm,
              fun r hr => List.mem_append_right _ hr⟩
          · rcases hst n hn with ⟨r, hr, hk⟩ | ⟨o', ho', route', hr', c', hc', hn', hres⟩
            · exact Or.inl ⟨r, List.mem_append_left _ hr, hk⟩
            · exact Or.inr ⟨o', ho', route', hr', c', hc', hn',
                fun r hr => List.mem_append_left _ (hres r hr)⟩)
      (by
        intro st endpoint listener _ hst n hn
        rcases List.mem_cons.mp hn with hn | hn
        · left
          exact ⟨_, List.mem_append_right _ (List.mem_singleton_self _), by
            rw [hn]
            rfl⟩
        · rcases hst n hn with ⟨r, hr, hk⟩ | ⟨o', ho', route', hr', c', hc', hn', hres⟩
          · exact Or.inl ⟨r, List.mem_append_left _ hr, hk⟩
          · exact Or.inr ⟨o', ho', route', hr', c', hc', hn',
              fun r hr => List.mem_append_left _ (hres r hr)⟩)
      proxy.Outbound (fun _ ho => ho) 0 ([], []) (by intro n hn; cases hn) rs h
    intro o ho
    obtain ⟨endpoint, route, hparse, hroute, hclusters, hlistener⟩ := hall o ho
    refine ⟨endpoint, route, hparse, hroute, fun n hn => ?_⟩
    rcases hn with hn | ⟨c, hc, hn⟩
    · exact hQ n (hn ▸ hlistener)
    · exact hQ n (hn ▸ hclusters c hc)

/-- C11, as stated, fails in two ways. A destination whose cluster name is taken
by the listener of an earlier interface gets no cluster resource at all; and of
two destinations with different tags and the same cluster name, only the first
has the load assignment built from the endpoints that match its tags. -/
theorem C11_counterexample :
    (∃ rs, OutboundProxyGenerator.Generate Example.generatorApi
        Example.proxyListenerNamedLikeCluster = .ok rs ∧
      countNamed rs Kind.cluster (destinationClusterName "outbound:127.0.0.1:10001"
        [("kuma.io/service", "outbound:127.0.0.1:10001")]) = 0) ∧
    (∃ rs, OutboundProxyGenerator.Generate Example.generatorApi
        Example.proxySharedClusterName = .ok rs ∧
      destinationClusterName "backend"
          [("kuma.io/service", "backend"), ("version", "v1,zone=east")]
        = "backend\x7bversion=v1,zone=east\x7d" ∧
      destinationClusterName "backend"
          [("kuma.io/service", "backend"), ("version", "v1"), ("zone", "east")]
        = "backend\x7bversion=v1,zone=east\x7d" ∧
      rs.filter (fun r => decide (r.key
          = (Kind.loadAssignment, "backend\x7bversion=v1,zone=east\x7d")))
        = [{ Name := "backend\x7bversion=v1,zone=east\x7d"
             Payload := .clusterLoadAssignment "backend\x7bversion=v1,zone=east\x7d"
               [Example.endpointOddVersion] }] ∧
      filterEndpoints [Example.endpointOddVersion, Example.endpointEast]
          [("kuma.io/service", "backend"), ("version", "v1"), ("zone", "east")]
        = [Example.endpointEast]) :=
  ⟨⟨_, rfl, by decide⟩, ⟨_, rfl, by decide, by decide, by decide, by decide⟩⟩

/-- C11, amended. In every successful run of `OutboundProxyGenerator.Generate`,
for every destination of the route of an outbound interface that has a service
tag and non-zero weight and whose cluster name `destinationClusterName service
tags` is not the name of a listener of the output, the output contains exactly
one cluster resource and exactly one load-assignment resource of that name; the
load assignment is built from the endpoints of `proxy.OutboundTargets` of the
service whose tags match the tags of a destination of that cluster name, which
are the service and tags of the destination itself when no destination with
another service or other tags shares the name. -/
theorem C11_one_cluster_and_load_assignment (api : GeneratorApi) (proxy : Proxy)
    (rs : List Resource) (h : OutboundProxyGenerator.Generate api proxy = .ok rs)
    (o : DataplaneOutbound) (ho : o ∈ proxy.Outbound)
    (route : TrafficRouteResource) (hroute : routeOf proxy o.Service = some route)
    (d : WeightedDestination) (hd : d ∈ route.Conf)
    (service : String) (hs : mapGet? d.Destination ServiceTag = some service)
    (hw : d.Weight ≠ 0)
    (hlistener : ∀ r ∈ rs, r.Payload.kind = Kind.listener →
      r.Name ≠ destinationClusterName service d.Destination) :
    countNamed rs Kind.cluster (destinationClusterName service d.Destination) = 1 ∧
    countNamed rs Kind.loadAssignment (destinationClusterName service d.Destination) = 1 ∧
    (∃ o' ∈ proxy.Outbound, ∃ route', routeOf proxy o'.Service = some route' ∧
      ∃ d' ∈ route'.Conf, ∃ service', mapGet? d'.Destination ServiceTag = some service' ∧
        d'.Weight ≠ 0 ∧
        destinationClusterName service' d'.Destination
          = destinationClusterName service d.Destination ∧
        ({ Name := destinationClusterName service d.Destination
           Payload := .clusterLoadAssignment (destinationClusterName service d.Destination)
             (filterEndpoints ((mapGet? proxy.OutboundTargets service').getD [])
               d'.Destination) } : Resource) ∈ rs) ∧
    ((∀ o' ∈ proxy.Outbound, ∀ route', routeOf proxy o'.Service = some route' →
        ∀ d' ∈ route'.Conf, ∀ service', mapGet? d'.Destination ServiceTag = some service' →
          d'.Weight ≠ 0 →
          destinationClusterName service' d'.Destination
            = destinationClusterName service d.Destination →
          service' = service ∧ d'.Destination = d.Destination) →
      ({ Name := destinationClusterName service d.Destination
         Payload := .clusterLoadAssignment (destinationClusterName service d.Destination)
           (filterEndpoints ((mapGet? proxy.OutboundTargets service).getD [])
             d.Destination) } : Resource) ∈ rs) := by
  have hkeys := outbound_keys_nodup api proxy rs h
  obtain ⟨endpoint, route0, _, hroute0, hpresent⟩ := outbound_names_present api proxy rs h o ho
  have hr0 : route0 = route := Option.some.inj (hroute0.symm.trans hroute)
  subst hr0
  -- the cluster of the destination
  have hc : ({ Name := destinationClusterName service d.Destination
               Weight := d.Weight
               Tags := d.Destination } : ClusterInfo)
      ∈ OutboundProxyGenerator.routeClusters route0 := by
    unfold OutboundProxyGenerator.routeClusters
    rw [List.mem_filterMap]
    exact ⟨d, hd, by simp [hs, hw]⟩
  have hfound := hpresent (destinationClusterName service d.Destination)
    (Or.inr ⟨_, hc, rfl⟩)
  rcases hfound with ⟨r, hr, hk⟩ | ⟨o', ho', route', hroute', c', hc', hname', hres⟩
  · exact absurd (congrArg Prod.snd hk) (hlistener r hr (congrArg Prod.fst hk))
  · obtain ⟨d', hd', service', hs', hw', hn', _, htags'⟩ := mem_routeClusters route' c' hc'
    have hsv : mapGet d'.Destination ServiceTag = service' := by
      simp [mapGet, hs']
    have hcluster : ({ Name := destinationClusterName service d.Destination
                       Payload := .cluster (.edsCluster
                         (destinationClusterName service d.Destination) proxy.Metadata) }
        : Resource) ∈ rs := by
      apply hres
      simp [OutboundProxyGenerator.clusterResources, hname']
    have hcla : ({ Name := destinationClusterName service d.Destination
                   Payload := .clusterLoadAssignment
                     (destinationClusterName service d.Destination)
                     (filterEndpoints ((mapGet? proxy.OutboundTargets service').getD [])
                       d'.Destination) } : Resource) ∈ rs := by
      apply hres
      simp [OutboundProxyGenerator.clusterResources, hname', hsv, htags']
    refine ⟨countNamed_eq_one rs _ _ hkeys _ hcluster rfl,
      countNamed_eq_one rs _ _ hkeys _ hcla rfl,
      ⟨o', ho', route', hroute', d', hd', service', hs', hw', hn'.symm.trans hname', hcla⟩, ?_⟩
    intro hunique
    obtain ⟨hsame, htagsame⟩ := hunique o' ho' route' hroute' d' hd' service' hs' hw'
      (hn'.symm.trans hname')
    rw [hsame, htagsame] at hcla
    exact hcla

/-- C11, amended, at the dataplane of the example: one cluster and one load
assignment named `backend`, built from the endpoint of `backend`. -/
theorem C11_one_cluster_and_load_assignment_witness :
    ∃ rs, OutboundProxyGenerator.Generate Example.generatorApi Example.proxy = .ok rs ∧
      countNamed rs Kind.cluster "backend" = 1 ∧
      countNamed rs Kind.loadAssignment "backend" = 1 :=
  ⟨_, rfl,
    (C11_one_cluster_and_load_assignment Example.generatorApi Example.proxy _ rfl
      { Interface := "127.0.0.1:10001", Service := "backend" } (by decide)
      { Conf :=
        [{ Weight := 100, Destination := [("kuma.io/service", "backend")] },
         { Weight := 0,
           Destination := [("kuma.io/service", "backend"), ("version", "v2")] }] }
      rfl { Weight := 100, Destination := [("kuma.io/service", "backend")] } (by decide)
      "backend" rfl (by decide) (by decide)).1,
    (C11_one_cluster_and_load_assignment Example.generatorApi Example.proxy _ rfl
      { Interface := "127.0.0.1:10001", Service := "backend" } (by decide)
      { Conf :=
        [{ Weight := 100, Destination := [("kuma.io/service", "backend")] },
         { Weight := 0,
           Destination := [("kuma.io/service", "backend"), ("version", "v2")] }] }
      rfl { Weight := 100, Destination := [("kuma.io/service", "backend")] } (by decide)
      "backend" rfl (by decide) (by decide)).2.1⟩

/-- When every outbound interface parses, has a route and a listener that
builds, `OutboundProxyGenerator.Generate` succeeds. -/
theorem outbound_generate_ok (api : GeneratorApi) (proxy : Proxy)
    (hall : ∀ o ∈ proxy.Outbound, ∃ endpoint route listener,
      api.ParseOutboundInterface o.Interface = .ok endpoint ∧
      routeOf proxy o.Service = some route ∧
      OutboundProxyGenerator.createListener api proxy o endpoint
        (OutboundProxyGenerator.routeClusters route) = .ok listener) :
    ∃ rs, OutboundProxyGenerator.Generate api proxy = .ok rs := by
  unfold OutboundProxyGenerator.Generate
  by_cases hlen : proxy.Outbound.length = 0
  · exact ⟨[], by simp [hlen]⟩
  · simp only [hlen, if_false]
    obtain ⟨st', hst'⟩ := loop_through api proxy proxy.Outbound [] hall 0 ([], [])
    rw [List.append_nil] at hst'
    exact ⟨st'.1, by rw [hst', loop_nil]⟩

/-- C12, as stated, fails in two ways. When the route of an interface has a
destination whose cluster is named like the listener of the interface, the
cluster takes the name and no listener is emitted; and when the listener of an
interface does not build, there is no output at all. -/
theorem C12_counterexample :
    (∃ rs, OutboundProxyGenerator.Generate Example.generatorApi
        Example.proxyClusterNamedLikeListener = .ok rs ∧
      Example.generatorApi.ParseOutboundInterface "127.0.0.1:10001"
        = .ok { DataplaneIP := "127.0.0.1", DataplanePort := 10001 } ∧
      outboundListenerName { DataplaneIP := "127.0.0.1", DataplanePort := 10001 }
        = "outbound:127.0.0.1:10001" ∧
      rs.map Resource.key = [(Kind.cluster, "outbound:127.0.0.1:10001"),
        (Kind.loadAssignment, "outbound:127.0.0.1:10001")] ∧
      countNamed rs Kind.listener "outbound:127.0.0.1:10001" = 0) ∧
    OutboundProxyGenerator.Generate Example.failingListenerApi Example.proxy
      = .error "could not generate listener outbound:127.0.0.1:10001: invalid listener" :=
  ⟨⟨_, rfl, rfl, by decide, by decide, by decide⟩, rfl⟩

/-- C12, amended. For every proxy whose outbound interfaces all parse, all have
a TrafficRoute and all have a listener that builds, `Generate` succeeds, and
for every outbound interface whose listener name `outbound:<ip>:<port>` is not
the name of a cluster of the output, the output contains exactly one listener
resource of that name. -/
theorem C12_one_listener_per_interface (api : GeneratorApi) (proxy : Proxy)
    (hall : ∀ o ∈ proxy.Outbound, ∃ endpoint route listener,
      api.ParseOutboundInterface o.Interface = .ok endpoint ∧
      routeOf proxy o.Service = some route ∧
      OutboundProxyGenerator.createListener api proxy o endpoint
        (OutboundProxyGenerator.routeClusters route) = .ok listener) :
    ∃ rs, OutboundProxyGenerator.Generate api proxy = .ok rs ∧
      ∀ o ∈ proxy.Outbound, ∀ endpoint,
        api.ParseOutboundInterface o.Interface = .ok endpoint →
        (∀ r ∈ rs, r.Payload.kind = Kind.cluster → r.Name ≠ outboundListenerName endpoint) →
        countNamed rs Kind.listener (outboundListenerName endpoint) = 1 := by
  obtain ⟨rs, hrs⟩ := outbound_generate_ok api proxy hall
  refine ⟨rs, hrs, fun o ho endpoint hparse hnocluster => ?_⟩
  have hkeys := outbound_keys_nodup api proxy rs hrs
  obtain ⟨endpoint0, route, hparse0, _, hpresent⟩ :=
    outbound_names_present api proxy rs hrs o ho
  have he : endpoint0 = endpoint := Except.ok.inj (hparse0.symm.trans hparse)
  subst he
  rcases hpresent (outboundListenerName endpoint0) (Or.inl rfl) with
    ⟨r, hr, hk⟩ | ⟨_, _, _, _, c', _, hname', hres⟩
  · exact countNamed_eq_one rs _ _ hkeys r hr hk
  · have hcluster : ({ Name := c'.Name
                       Payload := .cluster (.edsCluster c'.Name proxy.Metadata) } : Resource)
        ∈ rs := by
      apply hres
      simp [OutboundProxyGenerator.clusterResources]
    exact absurd hname' (hnocluster _ hcluster rfl)

/-- C12, amended, at the dataplane of the example: one listener named
`outbound:127.0.0.1:10001`. -/
theorem C12_one_listener_per_interface_witness :
    ∃ rs, OutboundProxyGenerator.Generate Example.generatorApi Example.proxy = .ok rs ∧
      ∀ o ∈ Example.proxy.Outbound, ∀ endpoint,
        Example.generatorApi.ParseOutboundInterface o.Interface = .ok endpoint →
        (∀ r ∈ rs, r.Payload.kind = Kind.cluster → r.Name ≠ outboundListenerName endpoint) →
        countNamed rs Kind.listener (outboundListenerName endpoint) = 1 :=
  C12_one_listener_per_interface Example.generatorApi Example.proxy (fun o ho => by
    simp only [Example.proxy, List.mem_singleton] at ho
    subst ho
    exact ⟨_, _, _, rfl, rfl, rfl⟩)

/-! ## `destinationClusterName`: independence of the iteration order -/

/-- C21. For every service and every two enumerations of the key/value pairs of
the same selector, `destinationClusterName` returns the same name. -/
theorem C21_destinationClusterName_order_independent (service : String)
    (selector other : Tags) (hperm : other.Perm selector) :
    destinationClusterName service other = destinationClusterName service selector := by
  have hpairs : ((other.filter (fun kv => kv.1 != ServiceTag)).map
        (fun kv => kv.1 ++ "=" ++ kv.2)).Perm
      ((selector.filter (fun kv => kv.1 != ServiceTag)).map
        (fun kv => kv.1 ++ "=" ++ kv.2)) :=
    (hperm.filter _).map _
  unfold destinationClusterName
  simp only [hpairs.length_eq, sortStrings_eq_of_perm _ _ hpairs]

/-- C21 at a selector with two tags besides the service, in two orders. -/
theorem C21_destinationClusterName_order_independent_witness :
    destinationClusterName "backend"
        [("zone", "east"), ("kuma.io/service", "backend"), ("version", "v1")]
      = destinationClusterName "backend"
        [("kuma.io/service", "backend"), ("version", "v1"), ("zone", "east")] :=
  C21_destinationClusterName_order_independent "backend"
    [("kuma.io/service", "backend"), ("version", "v1"), ("zone", "east")]
    [("zone", "east"), ("kuma.io/service", "backend"), ("version", "v1")]
    (by decide)

/-! ## `BuildEndpointMap` on empty destinations, `localityFromTags` -/

/-- C26. When the destinations map is empty, `BuildEndpointMap` returns the nil
map, for every zone egress, absent or not, every list of dataplanes and every
list of external services. -/
theorem C26_empty_destinations_give_nil (api : MeshApi) (destinations : DestinationMap)
    (zoneEgress : Option ZoneEgressResource) (dataplanes : List DataplaneResource)
    (externalServices : List ExternalServiceResource) (hempty : destinations.length = 0) :
    BuildEndpointMap api destinations zoneEgress dataplanes externalServices = .ok none := by
  simp [BuildEndpointMap, hempty]

/-- C26 at an empty destinations map, no zone egress and an external service. -/
theorem C26_empty_destinations_give_nil_witness :
    BuildEndpointMap Example.meshApi [] none [Example.dataplane] [Example.externalService1]
      = .ok none :=
  C26_empty_destinations_give_nil Example.meshApi [] none [Example.dataplane]
    [Example.externalService1] rfl

/-- C27. For every tag set with a zone tag and every two priority arguments,
`localityFromTags` returns the same locality, that of the tagged zone with
priority 0: the priority argument has no influence. -/
theorem C27_priority_argument_is_ignored (tags : Tags) (zone : String)
    (hzone : mapGet? tags ZoneTag = some zone) (p1 p2 : Nat) :
    localityFromTags p1 tags = localityFromTags p2 tags ∧
    localityFromTags p1 tags = some { Zone := zone, Priority := 0 } ∧
    priorityLocal = 0 := by
  simp [localityFromTags, hzone, priorityLocal]

/-- C27 at the tags of an external service of zone `kuma-2-zone`, with the local
and the remote priority. -/
theorem C27_priority_argument_is_ignored_witness :
    localityFromTags priorityLocal Example.externalService2.Tags
      = localityFromTags priorityRemote Example.externalService2.Tags ∧
    localityFromTags priorityLocal Example.externalService2.Tags
      = some { Zone := "kuma-2-zone", Priority := 0 } ∧
    priorityLocal = 0 :=
  C27_priority_argument_is_ignored Example.externalService2.Tags "kuma-2-zone" rfl
    priorityLocal priorityRemote

/-! ## `IngressProxyBuilder.build`: the external services handed to `BuildEndpointMap` -/

theorem sortSlice_perm {α : Type} (less : α → α → Bool) (l : List α) :
    (sortSlice less l).Perm l :=
  List.perm_insertionSort _ l

theorem sortSlice_lessByName_sorted (l : List ExternalServiceResource) :
    (sortSlice lessByName l).Pairwise (fun a b => a.Name ≤ b.Name) := by
  have hrel : ∀ a b : ExternalServiceResource,
      lessByName b a = false ↔ a.Name.toList ≤ b.Name.toList := by
    intro a b
    simp [lessByName]
  haveI htotal : IsTotal ExternalServiceResource (fun a b => lessByName b a = false) :=
    ⟨fun a b => by
      rw [hrel a b, hrel b a]
      exact le_total _ _⟩
  haveI htrans : IsTrans ExternalServiceResource (fun a b => lessByName b a = false) :=
    ⟨fun a b c hab hbc => by
      rw [hrel] at hab hbc ⊢
      exact le_trans hab hbc⟩
  have h : (sortSlice lessByName l).Sorted (fun a b => lessByName b a = false) :=
    List.sorted_insertionSort _ l
  exact List.Pairwise.imp (fun {a b} hab => (toList_le_iff _ _).mp ((hrel a b).mp hab)) h

/-- C22. In a run of `IngressProxyBuilder.build` that gets as far as the external
services, with `items` the list the store returns, the build continues with the
result of `BuildEndpointMap` on the local zone egress, the resolved dataplanes
and the list `routedExternalServices items`; that list is a permutation of
`items` and is in non-decreasing order of resource name. -/
theorem C22_external_services_sorted_by_name (p : IngressProxyBuilder)
    (zoneIngress0 zoneIngress : ZoneIngressResource) (zoneEgresses : List ZoneEgressResource)
    (dataplanes : List DataplaneResource) (items : List ExternalServiceResource)
    (hget : p.getZoneIngress = .ok zoneIngress0)
    (hresolve : p.ResolveZoneIngressPublicAddress zoneIngress0 = .ok zoneIngress)
    (hegress : p.listZoneEgresses = .ok zoneEgresses)
    (hdataplanes : p.listDataplanes = .ok dataplanes)
    (hitems : p.listExternalServices = .ok items) :
    p.build =
      (BuildEndpointMap p.meshApi (p.BuildDestinationMap zoneIngress)
          (p.localZoneEgress zoneEgresses) (p.ResolveAddresses dataplanes)
          (IngressProxyBuilder.routedExternalServices items)).bind
        (fun outboundTargets => p.buildZoneIngressProxy.bind (fun zoneIngressProxy =>
          .ok { Id := p.proxyId
                ZoneIngress := zoneIngress
                Metadata := p.metadata
                OutboundTargets := outboundTargets
                ZoneIngressProxy := zoneIngressProxy })) ∧
    (IngressProxyBuilder.routedExternalServices items).Perm items ∧
    (IngressProxyBuilder.routedExternalServices items).Pairwise
      (fun a b => a.Name ≤ b.Name) := by
  refine ⟨?_, sortSlice_perm _ _, sortSlice_lessByName_sorted _⟩
  unfold IngressProxyBuilder.build
  simp only [hget, hresolve, hegress, hdataplanes, hitems, IngressProxyBuilder.resolveRouting]
  cases BuildEndpointMap p.meshApi (p.BuildDestinationMap zoneIngress)
      (p.localZoneEgress zoneEgresses) (p.ResolveAddresses dataplanes)
      (IngressProxyBuilder.routedExternalServices items) with
  | error err => rfl
  | ok targets =>
    cases p.buildZoneIngressProxy with
    | error err => rfl
    | ok zoneIngressProxy => rfl

/-- C22 at a store that lists `external-service-2` before `external-service-1`:
`BuildEndpointMap` gets `external-service-1` first. -/
theorem C22_external_services_sorted_by_name_witness :
    IngressProxyBuilder.routedExternalServices
        [Example.externalService2, Example.externalService1]
      = [Example.externalService1, Example.externalService2] ∧
    (IngressProxyBuilder.routedExternalServices
        [Example.externalService2, Example.externalService1]).Perm
      [Example.externalService2, Example.externalService1] ∧
    (IngressProxyBuilder.routedExternalServices
        [Example.externalService2, Example.externalService1]).Pairwise
      (fun a b => a.Name ≤ b.Name) :=
  ⟨by decide,
    (C22_external_services_sorted_by_name Example.ingressProxyBuilder Example.zoneIngress
      Example.zoneIngress [Example.zoneEgress] [Example.dataplane]
      [Example.externalService2, Example.externalService1] rfl rfl rfl rfl rfl).2⟩

/-! ## `snapshotter.Snapshot` -/

/-- A successful run of the loop of `getDataplanes` lists the dataplanes of
every mesh and returns them concatenated, in mesh order. -/
theorem getDataplanesLoop_ok {ρ : Type} (s : snapshotter ρ) (meshes : List MeshResource)
    (acc dataplanes : List DataplaneResource)
    (h : snapshotter.getDataplanesLoop s meshes acc = .ok dataplanes) :
    ∃ lists, List.Forall₂ (fun mesh items => s.listDataplanes mesh.Name = .ok items)
        meshes lists ∧
      dataplanes = acc ++ lists.flatten := by
  induction meshes generalizing acc with
  | nil =>
    simp only [snapshotter.getDataplanesLoop, Except.ok.injEq] at h
    exact ⟨[], List.Forall₂.nil, by simp [h]⟩
  | cons mesh rest ih =>
    rw [snapshotter.getDataplanesLoop] at h
    cases hl : s.listDataplanes mesh.Name with
    | error err => simp [hl] at h
    | ok items =>
      simp only [hl] at h
      obtain ⟨lists, hall, hd⟩ := ih _ h
      exact ⟨items :: lists, List.Forall₂.cons hl hall, by simp [hd]⟩

/-- A failing run of the loop of `getDataplanes` returns the error of the first
mesh whose dataplanes cannot be listed. -/
theorem getDataplanesLoop_error {ρ : Type} (s : snapshotter ρ) (meshes : List MeshResource)
    (acc : List DataplaneResource) (e : String) :
    snapshotter.getDataplanesLoop s meshes acc = .error e ↔
      ∃ pre mesh post, meshes = pre ++ mesh :: post ∧
        (∀ m ∈ pre, ∃ items, s.listDataplanes m.Name = .ok items) ∧
        s.listDataplanes mesh.Name = .error e := by
  induction meshes generalizing acc with
  | nil => simp [snapshotter.getDataplanesLoop]
  | cons mesh rest ih =>
    rw [snapshotter.getDataplanesLoop]
    cases hl : s.listDataplanes mesh.Name with
    | error err =>
      constructor
      · intro h
        simp only [Except.error.injEq] at h
        subst h
        exact ⟨[], mesh, rest, rfl, by simp, hl⟩
      · rintro ⟨pre, m, post, hsplit, hpre, hm⟩
        cases pre with
        | nil =>
          simp only [List.nil_append, List.cons.injEq] at hsplit
          rw [← hsplit.1, hl] at hm
          exact hm
        | cons m' pre' =>
          simp only [List.cons_append, List.cons.injEq] at hsplit
          obtain ⟨items, hitems⟩ := hpre m' (by simp)
          rw [← hsplit.1, hl] at hitems
          cases hitems
    | ok items =>
      simp only []
      rw [ih]
      constructor
      · rintro ⟨pre, m, post, hsplit, hpre, hm⟩
        refine ⟨mesh :: pre, m, post, by simp [hsplit], ?_, hm⟩
        intro m' hm'
        rcases List.mem_cons.mp hm' with hm' | hm'
        · exact ⟨items, hm' ▸ hl⟩
        · exact hpre m' hm'
      · rintro ⟨pre, m, post, hsplit, hpre, hm⟩
        cases pre with
        | nil =>
          simp only [List.nil_append, List.cons.injEq] at hsplit
          rw [← hsplit.1, hl] at hm
          cases hm
        | cons m' pre' =>
          simp only [List.cons_append, List.cons.injEq] at hsplit
          exact ⟨pre', m, post, hsplit.2, fun x hx => hpre x (by simp [hx]), hm⟩

/-- When the dataplanes of some mesh cannot be listed, the loop of
`getDataplanes` fails. -/
theorem getDataplanesLoop_fails {ρ : Type} (s : snapshotter ρ) (meshes : List MeshResource)
    (acc : List DataplaneResource)
    (h : ∃ mesh ∈ meshes, ∃ e, s.listDataplanes mesh.Name = .error e) :
    ∃ e, snapshotter.getDataplanesLoop s meshes acc = .error e := by
  induction meshes generalizing acc with
  | nil =>
    obtain ⟨_, hm, _⟩ := h
    cases hm
  | cons mesh rest ih =>
    rw [snapshotter.getDataplanesLoop]
    cases hl : s.listDataplanes mesh.Name with
    | error err => exact ⟨err, rfl⟩
    | ok items =>
      obtain ⟨m, hm, e, he⟩ := h
      rcases List.mem_cons.mp hm with hm | hm
      · rw [hm, hl] at he
        cases he
      · exact ih _ ⟨m, hm, e, he⟩

theorem getMeshes_error {ρ : Type} (s : snapshotter ρ) (e : String) :
    s.getMeshes = .error e ↔ s.listMeshes = .error e := by
  unfold snapshotter.getMeshes
  cases s.listMeshes <;> simp

theorem getMeshes_ok {ρ : Type} (s : snapshotter ρ) (meshes : List MeshResource) :
    s.getMeshes = .ok meshes ↔
      ∃ items, s.listMeshes = .ok items ∧
        meshes = items.filter (fun mesh => mesh.PrometheusMetricsEnabled) := by
  unfold snapshotter.getMeshes
  cases s.listMeshes with
  | error err => simp
  | ok items =>
    simp only [Except.ok.injEq, exists_eq_left']
    exact eq_comm

theorem snapshot_of_meshes_error {ρ : Type} (s : snapshotter ρ) (e : String)
    (h : s.getMeshes = .error e) : s.Snapshot = (.error e, []) := by
  unfold snapshotter.Snapshot
  simp only [h]

theorem snapshot_of_dataplanes_error {ρ : Type} (s : snapshotter ρ)
    (meshes : List MeshResource) (e : String) (hm : s.getMeshes = .ok meshes)
    (hd : s.getDataplanes meshes = .error e) : s.Snapshot = (.error e, []) := by
  unfold snapshotter.Snapshot
  simp only [hm, hd]

theorem snapshot_of_generate_error {ρ : Type} (s : snapshotter ρ)
    (meshes : List MeshResource) (dataplanes : List DataplaneResource) (e : String)
    (hm : s.getMeshes = .ok meshes) (hd : s.getDataplanes meshes = .ok dataplanes)
    (hg : s.generate { Meshes := meshes, Dataplanes := dataplanes } = .error e) :
    s.Snapshot = (.error e, [{ Meshes := meshes, Dataplanes := dataplanes }]) := by
  unfold snapshotter.Snapshot
  simp only [hm, hd, hg]

theorem snapshot_of_generate_ok {ρ : Type} (s : snapshotter ρ)
    (meshes : List MeshResource) (dataplanes : List DataplaneResource) (resources : List ρ)
    (hm : s.getMeshes = .ok meshes) (hd : s.getDataplanes meshes = .ok dataplanes)
    (hg : s.generate { Meshes := meshes, Dataplanes := dataplanes } = .ok resources) :
    s.Snapshot = (.ok { version := "", resources := resources },
      [{ Meshes := meshes, Dataplanes := dataplanes }]) := by
  unfold snapshotter.Snapshot
  simp only [hm, hd, hg]

/-- C23. When `Snapshot` succeeds, the generator was invoked once, with `Meshes`
the mesh list of the store filtered to the meshes with metrics enabled, in
store order, and `Dataplanes` the concatenation, in that mesh order, of the
dataplane lists of the filtered meshes; the snapshot holds the resources the
generator returned for these arguments. -/
theorem C23_generator_arguments {ρ : Type} (s : snapshotter ρ) (snapshot : Snapshot ρ)
    (h : s.Snapshot.1 = .ok snapshot) :
    ∃ items lists resources,
      s.listMeshes = .ok items ∧
      List.Forall₂ (fun mesh dataplanes => s.listDataplanes mesh.Name = .ok dataplanes)
        (items.filter (fun mesh => mesh.PrometheusMetricsEnabled)) lists ∧
      s.Snapshot.2 = [{ Meshes := items.filter (fun mesh => mesh.PrometheusMetricsEnabled)
                        Dataplanes := lists.flatten }] ∧
      s.generate { Meshes := items.filter (fun mesh => mesh.PrometheusMetricsEnabled)
                   Dataplanes := lists.flatten } = .ok resources ∧
      snapshot = { version := "", resources := resources } := by
  cases hm : s.getMeshes with
  | error err =>
    rw [snapshot_of_meshes_error s err hm] at h
    cases h
  | ok meshes =>
    cases hd : s.getDataplanes meshes with
    | error err =>
      rw [snapshot_of_dataplanes_error s meshes err hm hd] at h
      cases h
    | ok dataplanes =>
      cases hg : s.generate { Meshes := meshes, Dataplanes := dataplanes } with
      | error err =>
        rw [snapshot_of_generate_error s meshes dataplanes err hm hd hg] at h
        cases h
      | ok resources =>
        rw [snapshot_of_generate_ok s meshes dataplanes resources hm hd hg] at h ⊢
        obtain ⟨items, hitems, hfilter⟩ := (getMeshes_ok s meshes).mp hm
        obtain ⟨lists, hall, hdp⟩ := getDataplanesLoop_ok s meshes [] dataplanes hd
        rw [List.nil_append] at hdp
        subst hdp
        subst hfilter
        simp only [Except.ok.injEq] at h
        exact ⟨items, lists, resources, hitems, hall, rfl, hg, h.symm⟩

/-- C23 at a store with an enabled mesh and a disabled mesh whose dataplanes
cannot be listed: the generator gets the enabled mesh and its dataplane. -/
theorem C23_generator_arguments_witness :
    ∃ items lists resources,
      Example.madsSnapshotter.listMeshes = .ok items ∧
      List.Forall₂ (fun mesh dataplanes =>
          Example.madsSnapshotter.listDataplanes mesh.Name = .ok dataplanes)
        (items.filter (fun mesh => mesh.PrometheusMetricsEnabled)) lists ∧
      Example.madsSnapshotter.Snapshot.2 =
        [{ Meshes := items.filter (fun mesh => mesh.PrometheusMetricsEnabled)
           Dataplanes := lists.flatten }] ∧
      Example.madsSnapshotter.generate
        { Meshes := items.filter (fun mesh => mesh.PrometheusMetricsEnabled)
          Dataplanes := lists.flatten } = .ok resources ∧
      ({ version := "", resources := ["m1"] } : Snapshot String)
        = { version := "", resources := resources } :=
  C23_generator_arguments Example.madsSnapshotter { version := "", resources := ["m1"] } rfl

/-- C24. `Snapshot` returns the error `e`, and no snapshot, if and only if
listing the meshes fails with `e`, or listing the dataplanes fails with `e` for
a metrics-enabled mesh before which all metrics-enabled meshes were listed, or
both listings succeed and the generator fails with `e`; it fails whenever the
dataplanes of some metrics-enabled mesh cannot be listed; and after a failed
listing the generator is not invoked. -/
theorem C24_snapshot_errors {ρ : Type} (s : snapshotter ρ) :
    (∀ e, s.Snapshot.1 = .error e ↔
      s.listMeshes = .error e ∨
      (∃ items pre mesh post, s.listMeshes = .ok items ∧
        items.filter (fun mesh => mesh.PrometheusMetricsEnabled) = pre ++ mesh :: post ∧
        (∀ m ∈ pre, ∃ dataplanes, s.listDataplanes m.Name = .ok dataplanes) ∧
        s.listDataplanes mesh.Name = .error e) ∨
      (∃ meshes dataplanes, s.getMeshes = .ok meshes ∧
        s.getDataplanes meshes = .ok dataplanes ∧
        s.generate { Meshes := meshes, Dataplanes := dataplanes } = .error e)) ∧
    (∀ items, s.listMeshes = .ok items →
      (∃ mesh ∈ items.filter (fun mesh => mesh.PrometheusMetricsEnabled),
        ∃ e, s.listDataplanes mesh.Name = .error e) →
      ∃ e, s.Snapshot.1 = .error e) ∧
    ((∃ e, s.getMeshes = .error e) ∨
      (∃ meshes e, s.getMeshes = .ok meshes ∧ s.getDataplanes meshes = .error e) →
      s.Snapshot.2 = []) := by
  refine ⟨fun e => ⟨fun h => ?_, fun h => ?_⟩, fun items hm hfail => ?_, ?_⟩
  · cases hm : s.getMeshes with
    | error err =>
      rw [snapshot_of_meshes_error s err hm] at h
      simp only [Except.error.injEq] at h
      subst h
      exact Or.inl ((getMeshes_error s err).mp hm)
    | ok meshes =>
      cases hd : s.getDataplanes meshes with
      | error err =>
        rw [snapshot_of_dataplanes_error s meshes err hm hd] at h
        simp only [Except.error.injEq] at h
        subst h
        obtain ⟨items, hitems, hfilter⟩ := (getMeshes_ok s meshes).mp hm
        obtain ⟨pre, mesh, post, hsplit, hpre, hmesh⟩ :=
          (getDataplanesLoop_error s meshes [] err).mp hd
        exact Or.inr (Or.inl ⟨items, pre, mesh, post, hitems, hfilter ▸ hsplit, hpre, hmesh⟩)
      | ok dataplanes =>
        cases hg : s.generate { Meshes := meshes, Dataplanes := dataplanes } with
        | error err =>
          rw [snapshot_of_generate_error s meshes dataplanes err hm hd hg] at h
          simp only [Except.error.injEq] at h
          subst h
          exact Or.inr (Or.inr ⟨meshes, dataplanes, rfl, hd, hg⟩)
        | ok resources =>
          rw [snapshot_of_generate_ok s meshes dataplanes resources hm hd hg] at h
          cases h
  · rcases h with h | ⟨items, pre, mesh, post, hitems, hsplit, hpre, hmesh⟩ |
      ⟨meshes, dataplanes, hm, hd, hg⟩
    · rw [snapshot_of_meshes_error s e ((getMeshes_error s e).mpr h)]
    · have hm : s.getMeshes = .ok (items.filter (fun mesh => mesh.PrometheusMetricsEnabled)) :=
        (getMeshes_ok s _).mpr ⟨items, hitems, rfl⟩
      have hd : s.getDataplanes (items.filter (fun mesh => mesh.PrometheusMetricsEnabled))
          = .error e :=
        (getDataplanesLoop_error s _ [] e).mpr ⟨pre, mesh, post, hsplit, hpre, hmesh⟩
      rw [snapshot_of_dataplanes_error s _ e hm hd]
    · rw [snapshot_of_generate_error s meshes dataplanes e hm hd hg]
  · have hmeshes : s.getMeshes
        = .ok (items.filter (fun mesh => mesh.PrometheusMetricsEnabled)) :=
      (getMeshes_ok s _).mpr ⟨items, hm, rfl⟩
    obtain ⟨e, he⟩ := getDataplanesLoop_fails s _ [] hfail
    exact ⟨e, by rw [snapshot_of_dataplanes_error s _ e hmeshes he]⟩
  · rintro (⟨e, he⟩ | ⟨meshes, e, hmeshes, he⟩)
    · rw [snapshot_of_meshes_error s e he]
    · rw [snapshot_of_dataplanes_error s meshes e hmeshes he]

/-- C24 at a store in which the dataplanes of the second metrics-enabled mesh
cannot be listed: `Snapshot` returns that error and the generator is not
invoked. -/
theorem C24_snapshot_errors_witness :
    Example.failingSnapshotter.Snapshot.1 = .error "store unavailable" ∧
    Example.failingSnapshotter.Snapshot.2 = [] :=
  ⟨((C24_snapshot_errors Example.failingSnapshotter).1 "store unavailable").mpr
      (Or.inr (Or.inl ⟨_, [{ Name := "default", PrometheusMetricsEnabled := true }],
        { Name := "other", PrometheusMetricsEnabled := true }, [], rfl, rfl,
        fun m hm => by
          rw [List.mem_singleton] at hm
          subst hm
          exact ⟨_, rfl⟩,
        rfl⟩)),
    (C24_snapshot_errors Example.failingSnapshotter).2.2
      (Or.inr ⟨_, "store unavailable", rfl, rfl⟩)⟩

/-! ## `TemplateProxyGenerator.Generate` on success -/

theorem templateLoop_ok (api : GeneratorApi) (tapi : TemplateApi) (proxy : Proxy)
    (profiles : List String) (i : Nat) (acc rs : List Resource)
    (h : TemplateProxyGenerator.loop api tapi proxy i profiles acc = .ok rs) :
    ∃ perImport, List.Forall₂
        (fun name generated =>
          ProxyTemplateProfileSource.Generate api tapi name proxy = .ok generated)
        profiles perImport ∧
      rs = acc ++ perImport.flatten := by
  induction profiles generalizing i acc with
  | nil =>
    simp only [TemplateProxyGenerator.loop, Except.ok.injEq] at h
    exact ⟨[], List.Forall₂.nil, by simp [h]⟩
  | cons name rest ih =>
    rw [TemplateProxyGenerator.loop] at h
    cases hg : ProxyTemplateProfileSource.Generate api tapi name proxy with
    | error err => simp [hg] at h
    | ok generated =>
      simp only [hg] at h
      obtain ⟨perImport, hall, hrs⟩ := ih _ _ h
      exact ⟨generated :: perImport, List.Forall₂.cons hg hall, by simp [hrs]⟩

theorem rawLoop_ok (api : GeneratorApi) (tapi : TemplateApi)
    (raws : List ProxyTemplateRawResource) (i : Nat) (acc rs : List Resource)
    (h : ProxyTemplateRawSource.loop api tapi i raws acc = .ok rs) :
    ∃ added : List Resource, rs = acc ++ added ∧
      added.map (fun r => (r.Name, r.Version)) = raws.map (fun r => (r.Name, r.Version)) := by
  induction raws generalizing i acc with
  | nil =>
    simp only [ProxyTemplateRawSource.loop, Except.ok.injEq] at h
    exact ⟨[], by simp [h], rfl⟩
  | cons r rest ih =>
    rw [ProxyTemplateRawSource.loop] at h
    cases h1 : tapi.Unmarshal r.Resource with
    | error err => simp [h1] at h
    | ok anything =>
      cases h2 : tapi.UnmarshalAny anything with
      | error err => simp [h1, h2] at h
      | ok dyn =>
        cases h3 : tapi.asResourcePayload dyn with
        | none => simp [h1, h2, h3] at h
        | some payload =>
          cases h4 : tapi.Validate payload with
          | some err => simp [h1, h2, h3, h4] at h
          | none =>
            simp only [h1, h2, h3, h4] at h
            obtain ⟨added, hrs, hnames⟩ := ih _ _ h
            exact ⟨{ Name := r.Name, Version := r.Version, Payload := payload } :: added,
              by simp [hrs], by simp [hnames]⟩

/-- C25. When `TemplateProxyGenerator.Generate` succeeds, every import generates,
the raw source generates, and the output is the resources of the imports, in the
order of the imports, followed by those of the raw source; a successful raw source
yields one resource per raw entry, in order, with the name and the version of
the entry. -/
theorem C25_template_output (api : GeneratorApi) (tapi : TemplateApi)
    (template : ProxyTemplate) (proxy : Proxy) (rs : List Resource)
    (h : TemplateProxyGenerator.Generate api tapi template proxy = .ok rs) :
    ∃ perImport raw,
      List.Forall₂
        (fun name generated =>
          ProxyTemplateProfileSource.Generate api tapi name proxy = .ok generated)
        template.Imports perImport ∧
      ProxyTemplateRawSource.Generate api tapi template.Resources proxy = .ok raw ∧
      rs = perImport.flatten ++ raw ∧
      raw.map (fun r => (r.Name, r.Version))
        = template.Resources.map (fun r => (r.Name, r.Version)) := by
  unfold TemplateProxyGenerator.Generate at h
  cases hl : TemplateProxyGenerator.loop api tapi proxy 0 template.Imports [] with
  | error err => simp [hl] at h
  | ok resources =>
    cases hr : ProxyTemplateRawSource.Generate api tapi template.Resources proxy with
    | error err => simp [hl, hr] at h
    | ok raw =>
      simp only [hl, hr, Except.ok.injEq] at h
      obtain ⟨perImport, hall, hres⟩ := templateLoop_ok api tapi proxy _ 0 [] resources hl
      obtain ⟨added, hraw, hnames⟩ := rawLoop_ok api tapi template.Resources 0 [] raw hr
      rw [List.nil_append] at hres hraw
      rw [hres, hraw] at h
      rw [hraw]
      exact ⟨perImport, added, hall, rfl, h.symm, hnames⟩

/-- C25 at a template that imports the default profile and adds a raw resource:
the five resources of the profile, then the raw cluster. -/
theorem C25_template_output_witness :
    ∃ rs, TemplateProxyGenerator.Generate Example.generatorApi Example.decodingTemplateApi
        Example.templateWithRawResource Example.proxy = .ok rs ∧
      rs.map (fun r => (r.Name, r.Version)) =
        [("localhost:8080", ""), ("inbound:10.0.0.5:8080", ""), ("backend", ""),
         ("backend", ""), ("outbound:127.0.0.1:10001", ""), ("raw-cluster", "v7")] ∧
      ∃ (perImport : List (List Resource)) (raw : List Resource),
        rs = perImport.flatten ++ raw ∧
        raw.map (fun r => (r.Name, r.Version)) = [("raw-cluster", "v7")] :=
  ⟨_, rfl, by decide,
    match C25_template_output Example.generatorApi Example.decodingTemplateApi
      Example.templateWithRawResource Example.proxy _ rfl with
    | ⟨perImport, raw, _, _, hrs, hraw⟩ => ⟨perImport, raw, hrs, hraw⟩⟩

/-! ## The egress generator: destinations, CDS and EDS -/

theorem generateCDS_resources (api : EgressApi) (meshName : String) (services : List String)
    (destinationsPerService : GoMap (List Tags)) (acc rs : List EgressResource)
    (h : generateCDS api meshName services destinationsPerService acc = .ok rs) :
    rs = acc ++ services.map (fun s =>
      { Name := GetMeshClusterName meshName s
        Origin := api.OriginEgress
        Payload := .edsCluster (GetMeshClusterName meshName s)
          (mapGetList destinationsPerService s ++
            mapGetList destinationsPerService MatchAllTag) }) := by
  induction services generalizing acc with
  | nil =>
    simp only [generateCDS, Except.ok.injEq] at h
    simp [h]
  | cons s rest ih =>
    rw [generateCDS] at h
    cases herr : api.BuildClusterError (GetMeshClusterName meshName s)
        (mapGetList destinationsPerService s ++ mapGetList destinationsPerService MatchAllTag) with
    | some err => simp [herr] at h
    | none =>
      simp only [herr] at h
      rw [ih _ h]
      simp

theorem generateEDS_resources (api : EgressApi) (meshName : String) (services : List String)
    (endpointMap : EndpointMap) (acc rs : List EgressResource)
    (h : generateEDS api meshName services endpointMap acc = .ok rs) :
    rs = acc ++ services.map (fun s =>
      { Name := GetMeshClusterName meshName s
        Origin := api.OriginEgress
        Payload := .clusterLoadAssignment (GetMeshClusterName meshName s)
          (mapGetList endpointMap s) }) := by
  induction services generalizing acc with
  | nil =>
    simp only [generateEDS, Except.ok.injEq] at h
    simp [h]
  | cons s rest ih =>
    rw [generateEDS] at h
    cases herr : api.CreateClusterLoadAssignmentError (GetMeshClusterName meshName s)
        (mapGetList endpointMap s) with
    | some err => simp [herr] at h
    | none =>
      simp only [herr] at h
      rw [ih _ h]
      simp

/-- The loop over the destinations of a service only appends chains, each built
for one of the destinations. -/
theorem addDestinationChain_foldl (api : EgressApi) (meshName serviceName : String)
    (destinations : List Tags) (st : List FilterChain × List String) :
    ∃ added, (destinations.foldl (addDestinationChain api meshName serviceName) st).1
        = st.1 ++ added ∧
      ∀ c ∈ added, ∃ d ∈ destinations, c = chainOf api meshName serviceName d := by
  induction destinations generalizing st with
  | nil => exact ⟨[], by simp, by simp⟩
  | cons d rest ih =>
    rw [List.foldl_cons]
    obtain ⟨added, heq, hfrom⟩ := ih (addDestinationChain api meshName serviceName st d)
    by_cases hused : api.SNIFromTags
        (WithTags (WithTags d ServiceTag serviceName) "mesh" meshName) ∈ st.2
    · have hstep : addDestinationChain api meshName serviceName st d = st := by
        unfold addDestinationChain
        rw [if_pos hused]
      rw [hstep] at heq ⊢
      exact ⟨added, heq, fun c hc => by
        obtain ⟨d', hd', hcd⟩ := hfrom c hc
        exact ⟨d', List.mem_cons_of_mem _ hd', hcd⟩⟩
    · have hstep : (addDestinationChain api meshName serviceName st d).1
          = st.1 ++ [chainOf api meshName serviceName d] := by
        unfold addDestinationChain
        rw [if_neg hused]
        rfl
      rw [hstep] at heq
      refine ⟨chainOf api meshName serviceName d :: added, by rw [heq]; simp, fun c hc => ?_⟩
      rcases List.mem_cons.mp hc with hc | hc
      · exact ⟨d, List.mem_cons_self _ _, hc⟩
      · obtain ⟨d', hd', hcd⟩ := hfrom c hc
        exact ⟨d', List.mem_cons_of_mem _ hd', hcd⟩

/-- C28. For every service, `generateCDS` and `addFilterChains` use the selectors
of the service, in their order, followed by the selectors of the match-all key,
in their order: a cluster of `generateCDS` is built from that list, and for an
advertised service whose chains are wanted `addFilterChains` first walks the
selectors of the service, then the match-all selectors, so that the chains it
adds for the advertised service are chains of selectors of the service followed
by chains of match-all selectors. -/
theorem C28_specific_before_wildcard (api : EgressApi) (meshName : String)
    (destinationsPerService : GoMap (List Tags)) :
    (∀ services rs, generateCDS api meshName services destinationsPerService [] = .ok rs →
      rs.map (fun r => r.Payload) = services.map (fun s =>
        EgressPayload.edsCluster (GetMeshClusterName meshName s)
          (mapGetList destinationsPerService s ++
            mapGetList destinationsPerService MatchAllTag))) ∧
    (∀ serviceName, serviceDestinations destinationsPerService serviceName
      = mapGetList destinationsPerService serviceName ++
        mapGetList destinationsPerService MatchAllTag) ∧
    (∀ endpointMap zone st service,
      chainsWanted meshName endpointMap zone service = true →
      addServiceChains api meshName destinationsPerService endpointMap zone st service
        = (mapGetList destinationsPerService MatchAllTag).foldl
            (addDestinationChain api meshName (mapGet service.Tags ServiceTag))
            ((mapGetList destinationsPerService (mapGet service.Tags ServiceTag)).foldl
              (addDestinationChain api meshName (mapGet service.Tags ServiceTag)) st) ∧
      ∃ fromSpecific fromWildcard,
        (addServiceChains api meshName destinationsPerService endpointMap zone st service).1
          = st.1 ++ fromSpecific ++ fromWildcard ∧
        (∀ c ∈ fromSpecific,
          ∃ d ∈ mapGetList destinationsPerService (mapGet service.Tags ServiceTag),
            c = chainOf api meshName (mapGet service.Tags ServiceTag) d) ∧
        (∀ c ∈ fromWildcard, ∃ d ∈ mapGetList destinationsPerService MatchAllTag,
            c = chainOf api meshName (mapGet service.Tags ServiceTag) d)) := by
  refine ⟨fun services rs h => ?_, fun _ => rfl, fun endpointMap zone st service hw => ?_⟩
  · rw [generateCDS_resources api meshName services destinationsPerService [] rs h]
    simp
  · have hsteps : addServiceChains api meshName destinationsPerService endpointMap zone st
        service
        = (mapGetList destinationsPerService MatchAllTag).foldl
            (addDestinationChain api meshName (mapGet service.Tags ServiceTag))
            ((mapGetList destinationsPerService (mapGet service.Tags ServiceTag)).foldl
              (addDestinationChain api meshName (mapGet service.Tags ServiceTag)) st) := by
      unfold addServiceChains
      rw [if_pos hw]
      unfold serviceDestinations
      rw [List.foldl_append]
    refine ⟨hsteps, ?_⟩
    obtain ⟨fromSpecific, hs, hsfrom⟩ := addDestinationChain_foldl api meshName
      (mapGet service.Tags ServiceTag)
      (mapGetList destinationsPerService (mapGet service.Tags ServiceTag)) st
    obtain ⟨fromWildcard, hwc, hwfrom⟩ := addDestinationChain_foldl api meshName
      (mapGet service.Tags ServiceTag) (mapGetList destinationsPerService MatchAllTag)
      ((mapGetList destinationsPerService (mapGet service.Tags ServiceTag)).foldl
        (addDestinationChain api meshName (mapGet service.Tags ServiceTag)) st)
    refine ⟨fromSpecific, fromWildcard, ?_, hsfrom, hwfrom⟩
    rw [hsteps, hwc, hs]

/-- C28 at an advertisement of `external-service-2` with a selector for version
`v1` and a match-all selector: the chain of the selector comes first. -/
theorem C28_specific_before_wildcard_witness :
    (addFilterChains Example.egressApi "default" Example.versionedDestinations
        Example.egressEndpointMap Example.zoneIngresses).map (fun c => c.Sni)
      = ["external-service-2\x7bmesh=default,version=v1\x7d",
         "external-service-2\x7bmesh=default\x7d"] ∧
    serviceDestinations Example.versionedDestinations "external-service-2"
      = [[("kuma.io/service", "external-service-2"), ("version", "v1")],
         [("kuma.io/service", "*")]] :=
  ⟨by decide,
    ((C28_specific_before_wildcard Example.egressApi "default"
      Example.versionedDestinations).2.1 "external-service-2").trans (by decide)⟩

/-- C30. When `ZoneExternalServicesGenerator.Generate` succeeds, its resources are
the CDS resources followed by the EDS resources; both sequences have one
resource for each service of `buildServices`, in that order, named
`GetMeshClusterName meshName service`, a cluster in the first sequence and the
load assignment of the endpoints of the service in the second, and every
resource has the origin `OriginEgress`. -/
theorem C30_egress_resources (api : EgressApi) (zone : String)
    (zoneIngresses : List ZoneIngressResource) (meshResources : MeshResources)
    (rs : List EgressResource)
    (h : (ZoneExternalServicesGenerator.Generate api zone zoneIngresses meshResources).2
      = .ok rs) :
    rs =
      (buildServices meshResources.EndpointMap zone).map (fun s =>
        { Name := GetMeshClusterName meshResources.MeshName s
          Origin := api.OriginEgress
          Payload := .edsCluster (GetMeshClusterName meshResources.MeshName s)
            (mapGetList meshResources.Destinations s ++
              mapGetList meshResources.Destinations MatchAllTag) }) ++
      (buildServices meshResources.EndpointMap zone).map (fun s =>
        { Name := GetMeshClusterName meshResources.MeshName s
          Origin := api.OriginEgress
          Payload := .clusterLoadAssignment (GetMeshClusterName meshResources.MeshName s)
            (mapGetList meshResources.EndpointMap s) }) ∧
    (∀ r ∈ rs, r.Origin = api.OriginEgress) ∧
    rs.map (fun r => r.Name) =
      (buildServices meshResources.EndpointMap zone).map
        (GetMeshClusterName meshResources.MeshName) ++
      (buildServices meshResources.EndpointMap zone).map
        (GetMeshClusterName meshResources.MeshName) := by
  unfold ZoneExternalServicesGenerator.Generate at h
  cases hc : generateCDS api meshResources.MeshName
      (buildServices meshResources.EndpointMap zone) meshResources.Destinations [] with
  | error err => simp [hc] at h
  | ok cds =>
    cases he : generateEDS api meshResources.MeshName
        (buildServices meshResources.EndpointMap zone) meshResources.EndpointMap [] with
    | error err => simp [hc, he] at h
    | ok eds =>
      simp only [hc, he, Except.ok.injEq] at h
      have hcds := generateCDS_resources api _ _ _ [] cds hc
      have heds := generateEDS_resources api _ _ _ [] eds he
      rw [List.nil_append] at hcds heds
      subst hcds
      subst heds
      subst h
      refine ⟨rfl, ?_, ?_⟩
      · intro r hr
        rw [List.mem_append] at hr
        rcases hr with hr | hr
        · obtain ⟨s, _, rfl⟩ := List.mem_map.mp hr
          rfl
        · obtain ⟨s, _, rfl⟩ := List.mem_map.mp hr
          rfl
      · simp [Function.comp_def]

/-- C30 at the mesh `default` on the egress of zone `kuma-1-zone`: clusters for
the two external services, then their load assignments. -/
theorem C30_egress_resources_witness :
    ∃ rs, (ZoneExternalServicesGenerator.Generate Example.egressApi "kuma-1-zone"
        Example.zoneIngresses Example.meshResources).2 = .ok rs ∧
      rs.map (fun r => r.Name) =
        ["default_external-service-1", "default_external-service-2",
         "default_external-service-1", "default_external-service-2"] ∧
      ∀ r ∈ rs, r.Origin = Example.egressApi.OriginEgress :=
  ⟨_, rfl, by decide,
    (C30_egress_resources Example.egressApi "kuma-1-zone" Example.zoneIngresses
      Example.meshResources _ rfl).2.1⟩

/-! ## `OutboundProxyGenerator.Generate`: the clusters handed to the listener builder -/

/-- The clusters of a route are its destinations with a service tag and non-zero
weight, in route order, one entry per destination. -/
theorem routeClusters_eq (route : TrafficRouteResource) :
    OutboundProxyGenerator.routeClusters route =
      (route.Conf.filter (fun d =>
        (mapGet? d.Destination ServiceTag).isSome && d.Weight != 0)).map (fun d =>
        { Name := destinationClusterName (mapGet d.Destination ServiceTag) d.Destination
          Weight := d.Weight
          Tags := d.Destination }) := by
  unfold OutboundProxyGenerator.routeClusters
  induction route.Conf with
  | nil => rfl
  | cons d rest ih =>
    rw [List.filterMap_cons, List.filter_cons]
    cases hs : mapGet? d.Destination ServiceTag with
    | none => simpa [hs] using ih
    | some service =>
      by_cases hw : d.Weight = 0
      · simpa [hs, hw] using ih
      · simp [hs, hw, mapGet, ih]

/-- Induction over the loop of `OutboundProxyGenerator.Generate` that knows where
a listener comes from: the call of the listener builder for an interface of the
proxy, with the clusters of its route. -/
theorem loop_invariant_listener (api : GeneratorApi) (proxy : Proxy)
    (Q : List Resource × List String → Prop)
    (hcluster : ∀ st c, Q st → Q (OutboundProxyGenerator.addCluster proxy st c))
    (hlistener : ∀ (st : List Resource × List String) o endpoint route listener,
      o ∈ proxy.Outbound → api.ParseOutboundInterface o.Interface = .ok endpoint →
      routeOf proxy o.Service = some route →
      OutboundProxyGenerator.createListener api proxy o endpoint
        (OutboundProxyGenerator.routeClusters route) = .ok listener →
      Q st →
      Q (st.1 ++ [{ Name := outboundListenerName endpoint, Payload := .listener listener }],
        outboundListenerName endpoint :: st.2))
    (ofaces : List DataplaneOutbound) (hsub : ∀ o ∈ ofaces, o ∈ proxy.Outbound)
    (i : Nat) (st : List Resource × List String) (hst : Q st) (rs : List Resource)
    (h : OutboundProxyGenerator.loop api proxy i ofaces st = .ok rs) :
    ∃ st', Q st' ∧ rs = st'.1 := by
  induction ofaces generalizing i st with
  | nil =>
    rw [loop_nil] at h
    cases h
    exact ⟨st, hst, rfl⟩
  | cons o rest ih =>
    have hrest : ∀ o' ∈ rest, o' ∈ proxy.Outbound := fun o' ho' => hsub o' (by simp [ho'])
    rw [OutboundProxyGenerator.loop] at h
    cases hparse : api.ParseOutboundInterface o.Interface with
    | error err => simp [hparse] at h
    | ok endpoint =>
      cases hroute : routeOf proxy o.Service with
      | none => simp [hparse, hroute] at h
      | some route =>
        simp only [hparse, hroute] at h
        have hfold : ∀ (cs : List ClusterInfo) (st0 : List Resource × List String),
            Q st0 → Q (cs.foldl (OutboundProxyGenerator.addCluster proxy) st0) := by
          intro cs
          induction cs with
          | nil => intro st0 h0; exact h0
          | cons c cs ihc =>
            intro st0 h0
            rw [List.foldl_cons]
            exact ihc _ (hcluster st0 c h0)
        have hst1 := hfold (OutboundProxyGenerator.routeClusters route) st hst
        split at h
        · exact ih hrest _ _ hst1 h
        · cases hl : OutboundProxyGenerator.createListener api proxy o endpoint
              (OutboundProxyGenerator.routeClusters route) with
          | error err => simp [hl] at h
          | ok listener =>
            simp only [hl] at h
            exact ih hrest _ _
              (hlistener _ o endpoint route listener (hsub o (by simp)) hparse hroute hl hst1) h

/-- The call of the listener builder is the builder applied to the recorded
arguments. -/
theorem createListener_eq_run (api : GeneratorApi) (proxy : Proxy) (oface : DataplaneOutbound)
    (endpoint : OutboundInterface) (clusters : List ClusterInfo) :
    OutboundProxyGenerator.createListener api proxy oface endpoint clusters
      = (OutboundProxyGenerator.listenerCall proxy oface endpoint clusters).run api := rfl

/-- The loop that records the calls returns what the loop returns. -/
theorem loopTraced_fst (api : GeneratorApi) (proxy : Proxy) (ofaces : List DataplaneOutbound)
    (i : Nat) (st : List Resource × List String) :
    (OutboundProxyGenerator.loopTraced api proxy i ofaces st).1
      = OutboundProxyGenerator.loop api proxy i ofaces st := by
  induction ofaces generalizing i st with
  | nil => simp [OutboundProxyGenerator.loopTraced, OutboundProxyGenerator.loop]
  | cons o rest ih =>
    rw [OutboundProxyGenerator.loopTraced, OutboundProxyGenerator.loop]
    cases hparse : api.ParseOutboundInterface o.Interface with
    | error err => rfl
    | ok endpoint =>
      cases hroute : routeOf proxy o.Service with
      | none => rfl
      | some route =>
        simp only []
        split
        · exact ih _ _
        · cases hl : OutboundProxyGenerator.createListener api proxy o endpoint
              (OutboundProxyGenerator.routeClusters route) with
          | error err => rfl
          | ok listener => exact ih _ _

/-- A name recorded by the loop over `clusters` was recorded before or is the
name of one of the clusters. -/
theorem addCluster_names_origin (proxy : Proxy) (cs : List ClusterInfo)
    (st : List Resource × List String) (x : String)
    (hx : x ∈ (cs.foldl (OutboundProxyGenerator.addCluster proxy) st).2) :
    x ∈ st.2 ∨ ∃ c ∈ cs, c.Name = x := by
  induction cs generalizing st with
  | nil => exact Or.inl hx
  | cons c cs ih =>
    rw [List.foldl_cons] at hx
    rcases ih _ hx with h | ⟨c', hc', hn⟩
    · unfold OutboundProxyGenerator.addCluster at h
      by_cases hc : c.Name ∈ st.2
      · rw [if_pos hc] at h
        exact Or.inl h
      · rw [if_neg hc] at h
        rcases List.mem_cons.mp h with h | h
        · exact Or.inr ⟨c, List.mem_cons_self _ _, h.symm⟩
        · exact Or.inl h
    · exact Or.inr ⟨c', List.mem_cons_of_mem _ hc', hn⟩

/-- The loop over `clusters` keeps the resources it starts with. -/
theorem addCluster_keeps (proxy : Proxy) (cs : List ClusterInfo)
    (st : List Resource × List String) (r : Resource) (hr : r ∈ st.1) :
    r ∈ (cs.foldl (OutboundProxyGenerator.addCluster proxy) st).1 := by
  induction cs generalizing st with
  | nil => exact hr
  | cons c cs ih =>
    rw [List.foldl_cons]
    apply ih
    unfold OutboundProxyGenerator.addCluster
    by_cases hc : c.Name ∈ st.2
    · rw [if_pos hc]
      exact hr
    · rw [if_neg hc]
      exact List.mem_append_left _ hr

/-- A successful run of the loop returns the resources it starts with. -/
theorem loop_keeps (api : GeneratorApi) (proxy : Proxy) (ofaces : List DataplaneOutbound)
    (i : Nat) (st : List Resource × List String) (rs : List Resource)
    (h : OutboundProxyGenerator.loop api proxy i ofaces st = .ok rs)
    (r : Resource) (hr : r ∈ st.1) : r ∈ rs := by
  induction ofaces generalizing i st with
  | nil =>
    rw [loop_nil] at h
    cases h
    exact hr
  | cons o rest ih =>
    rw [OutboundProxyGenerator.loop] at h
    cases hparse : api.ParseOutboundInterface o.Interface with
    | error err => simp [hparse] at h
    | ok endpoint =>
      cases hroute : routeOf proxy o.Service with
      | none => simp [hparse, hroute] at h
      | some route =>
        simp only [hparse, hroute] at h
        have hr1 := addCluster_keeps proxy (OutboundProxyGenerator.routeClusters route) st r hr
        split at h
        · exact ih _ _ h hr1
        · cases hl : OutboundProxyGenerator.createListener api proxy o endpoint
              (OutboundProxyGenerator.routeClusters route) with
          | error err => simp [hl] at h
          | ok listener =>
            simp only [hl] at h
            exact ih _ _ h (List.mem_append_left _ hr1)

/-- Every recorded call is made in the iteration of an interface that parses
and has a route, with the arguments built from that interface and the clusters
of its route; the recorded index is the position of the interface. -/
theorem loopTraced_calls (api : GeneratorApi) (proxy : Proxy) (ofaces : List DataplaneOutbound)
    (i : Nat) (st : List Resource × List String) :
    ∀ ic ∈ (OutboundProxyGenerator.loopTraced api proxy i ofaces st).2,
      ∃ pre o post endpoint route, ofaces = pre ++ o :: post ∧ ic.1 = i + pre.length ∧
        api.ParseOutboundInterface o.Interface = .ok endpoint ∧
        routeOf proxy o.Service = some route ∧
        ic.2 = OutboundProxyGenerator.listenerCall proxy o endpoint
          (OutboundProxyGenerator.routeClusters route) := by
  induction ofaces generalizing i st with
  | nil =>
    intro ic hic
    simp [OutboundProxyGenerator.loopTraced] at hic
  | cons o rest ih =>
    intro ic hic
    have hshift : ∀ st', ic ∈ (OutboundProxyGenerator.loopTraced api proxy (i + 1) rest st').2 →
        ∃ pre o' post endpoint route, o :: rest = pre ++ o' :: post ∧ ic.1 = i + pre.length ∧
          api.ParseOutboundInterface o'.Interface = .ok endpoint ∧
          routeOf proxy o'.Service = some route ∧
          ic.2 = OutboundProxyGenerator.listenerCall proxy o' endpoint
            (OutboundProxyGenerator.routeClusters route) := by
      intro st' hst'
      obtain ⟨pre, o', post, endpoint, route, hsplit, hidx, hp, hr, hc⟩ := ih _ _ ic hst'
      refine ⟨o :: pre, o', post, endpoint, route, by rw [hsplit]; rfl, ?_, hp, hr, hc⟩
      rw [hidx, List.length_cons]
      omega
    rw [OutboundProxyGenerator.loopTraced] at hic
    cases hparse : api.ParseOutboundInterface o.Interface with
    | error err => simp [hparse] at hic
    | ok endpoint =>
      cases hroute : routeOf proxy o.Service with
      | none => simp [hparse, hroute] at hic
      | some route =>
        simp only [hparse, hroute] at hic
        have hhere : ic = (i, OutboundProxyGenerator.listenerCall proxy o endpoint
            (OutboundProxyGenerator.routeClusters route)) →
            ∃ pre o' post endpoint route, o :: rest = pre ++ o' :: post ∧
              ic.1 = i + pre.length ∧
              api.ParseOutboundInterface o'.Interface = .ok endpoint ∧
              routeOf proxy o'.Service = some route ∧
              ic.2 = OutboundProxyGenerator.listenerCall proxy o' endpoint
                (OutboundProxyGenerator.routeClusters route) := by
          intro he
          exact ⟨[], o, rest, endpoint, route, rfl, by rw [he]; rfl, hparse, hroute, by rw [he]⟩
        split at hic
        · exact hshift _ hic
        · cases hl : OutboundProxyGenerator.createListener api proxy o endpoint
              (OutboundProxyGenerator.routeClusters route) with
          | error err =>
            simp only [hl, List.mem_singleton] at hic
            exact hhere hic
          | ok listener =>
            simp only [hl, List.mem_cons] at hic
            rcases hic with hic | hic
            · exact hhere hic
            · exact hshift _ hic

/-- The recorded indices are at least the start index and strictly increase:
no interface has two calls. -/
theorem loopTraced_indices (api : GeneratorApi) (proxy : Proxy) (ofaces : List DataplaneOutbound)
    (i : Nat) (st : List Resource × List String) :
    (∀ ic ∈ (OutboundProxyGenerator.loopTraced api proxy i ofaces st).2, i ≤ ic.1) ∧
    (((OutboundProxyGenerator.loopTraced api proxy i ofaces st).2.map Prod.fst).Sorted
      (· < ·)) := by
  induction ofaces generalizing i st with
  | nil => simp [OutboundProxyGenerator.loopTraced]
  | cons o rest ih =>
    have hnext : ∀ st', (∀ ic ∈ (OutboundProxyGenerator.loopTraced api proxy (i + 1) rest st').2,
        i ≤ ic.1) := fun st' ic hic => Nat.le_of_succ_le ((ih (i + 1) st').1 ic hic)
    rw [OutboundProxyGenerator.loopTraced]
    cases hparse : api.ParseOutboundInterface o.Interface with
    | error err => simp
    | ok endpoint =>
      cases hroute : routeOf proxy o.Service with
      | none => simp
      | some route =>
        simp only []
        split
        · exact ⟨hnext _, (ih _ _).2⟩
        · cases hl : OutboundProxyGenerator.createListener api proxy o endpoint
              (OutboundProxyGenerator.routeClusters route) with
          | error err => simp
          | ok listener =>
            simp only []
            refine ⟨?_, ?_⟩
            · intro ic hic
              rcases List.mem_cons.mp hic with hic | hic
              · rw [hic]
              · exact hnext _ ic hic
            · rw [List.map_cons, List.sorted_cons]
              refine ⟨?_, (ih _ _).2⟩
              intro j hj
              obtain ⟨ic, hic, rfl⟩ := List.mem_map.mp hj
              exact (ih _ _).1 ic hic

/-- In a successful run, an interface whose listener name is not recorded yet
when the run starts, is not the listener name of an interface before it and is
not the name of a cluster of a route up to it, has a call of the listener
builder recorded at its position, and the listener that call returns is in the
output. -/
theorem loopTraced_call_made (api : GeneratorApi) (proxy : Proxy)
    (pre : List DataplaneOutbound) (o : DataplaneOutbound) (post : List DataplaneOutbound)
    (endpoint : OutboundInterface)
    (hparse : api.ParseOutboundInterface o.Interface = .ok endpoint)
    (hearlier : ∀ o' ∈ pre, ∀ endpoint',
      api.ParseOutboundInterface o'.Interface = .ok endpoint' →
      outboundListenerName endpoint' ≠ outboundListenerName endpoint)
    (hclusters : ∀ o' ∈ pre ++ [o], ∀ route', routeOf proxy o'.Service = some route' →
      ∀ c ∈ OutboundProxyGenerator.routeClusters route',
        c.Name ≠ outboundListenerName endpoint)
    (i : Nat) (st : List Resource × List String) (rs : List Resource)
    (hst : outboundListenerName endpoint ∉ st.2)
    (h : OutboundProxyGenerator.loop api proxy i (pre ++ o :: post) st = .ok rs) :
    ∃ route listener, routeOf proxy o.Service = some route ∧
      (i + pre.length, OutboundProxyGenerator.listenerCall proxy o endpoint
        (OutboundProxyGenerator.routeClusters route))
        ∈ (OutboundProxyGenerator.loopTraced api proxy i (pre ++ o :: post) st).2 ∧
      (OutboundProxyGenerator.listenerCall proxy o endpoint
        (OutboundProxyGenerator.routeClusters route)).run api = .ok listener ∧
      { Name := outboundListenerName endpoint, Payload := .listener listener } ∈ rs := by
  induction pre generalizing i st with
  | nil =>
    rw [List.nil_append] at h ⊢
    rw [OutboundProxyGenerator.loop] at h
    rw [OutboundProxyGenerator.loopTraced]
    cases hroute : routeOf proxy o.Service with
    | none => simp [hparse, hroute] at h
    | some route =>
      simp only [hparse, hroute] at h ⊢
      have hfree : outboundListenerName endpoint ∉
          ((OutboundProxyGenerator.routeClusters route).foldl
            (OutboundProxyGenerator.addCluster proxy) st).2 := by
        intro hin
        rcases addCluster_names_origin proxy _ st _ hin with h1 | ⟨c, hc, hn⟩
        · exact hst h1
        · exact hclusters o (by simp) route hroute c hc hn
      rw [if_neg hfree] at h ⊢
      cases hl : OutboundProxyGenerator.createListener api proxy o endpoint
          (OutboundProxyGenerator.routeClusters route) with
      | error err => simp [hl] at h
      | ok listener =>
        simp only [hl] at h
        refine ⟨route, listener, rfl, ?_, ?_, ?_⟩
        · simp
        · rw [← createListener_eq_run]
          exact hl
        · exact loop_keeps api proxy post _ _ rs h _ (by simp)
  | cons p pre ih =>
    rw [List.cons_append] at h ⊢
    rw [OutboundProxyGenerator.loop] at h
    rw [OutboundProxyGenerator.loopTraced]
    have hearlier' : ∀ o' ∈ pre, ∀ endpoint',
        api.ParseOutboundInterface o'.Interface = .ok endpoint' →
        outboundListenerName endpoint' ≠ outboundListenerName endpoint :=
      fun o' ho' => hearlier o' (List.mem_cons_of_mem _ ho')
    have hclusters' : ∀ o' ∈ pre ++ [o], ∀ route', routeOf proxy o'.Service = some route' →
        ∀ c ∈ OutboundProxyGenerator.routeClusters route',
          c.Name ≠ outboundListenerName endpoint :=
      fun o' ho' => hclusters o' (by
        rw [List.cons_append]
        exact List.mem_cons_of_mem _ ho')
    cases hp : api.ParseOutboundInterface p.Interface with
    | error err => simp [hp] at h
    | ok endpointP =>
      cases hrouteP : routeOf proxy p.Service with
      | none => simp [hp, hrouteP] at h
      | some routeP =>
        simp only [hp, hrouteP] at h ⊢
        have hfree : outboundListenerName endpoint ∉
            ((OutboundProxyGenerator.routeClusters routeP).foldl
              (OutboundProxyGenerator.addCluster proxy) st).2 := by
          intro hin
          rcases addCluster_names_origin proxy _ st _ hin with h1 | ⟨c, hc, hn⟩
          · exact hst h1
          · exact hclusters p (by simp) routeP hrouteP c hc hn
        have hidx : i + (p :: pre).length = i + 1 + pre.length := by
          rw [List.length_cons]
          omega
        rw [hidx]
        split at h
        · rename_i hused
          rw [if_pos hused]
          exact ih hearlier' hclusters' _ _ hfree h
        · rename_i hused
          rw [if_neg hused]
          cases hl : OutboundProxyGenerator.createListener api proxy p endpointP
              (OutboundProxyGenerator.routeClusters routeP) with
          | error err => simp [hl] at h
          | ok listenerP =>
            simp only [hl] at h ⊢
            have hfree2 : outboundListenerName endpoint ∉
                outboundListenerName endpointP ::
                  ((OutboundProxyGenerator.routeClusters routeP).foldl
                    (OutboundProxyGenerator.addCluster proxy) st).2 := by
              intro hin
              rcases List.mem_cons.mp hin with he | hin
              · exact hearlier p (List.mem_cons_self _ _) endpointP hp he.symm
              · exact hfree hin
            obtain ⟨route, listener, hroute, hmem, hrun, hres⟩ :=
              ih hearlier' hclusters' _ _ hfree2 h
            exact ⟨route, listener, hroute, List.mem_cons_of_mem _ hmem, hrun, hres⟩

/-- In every successful run of `OutboundProxyGenerator.Generate`, every listener
of the output was built for an outbound interface by a call of the listener
builder with the filtered destinations of the route of the interface. -/
theorem listeners_from_builder (api : GeneratorApi) (proxy : Proxy) (rs : List Resource)
    (h : OutboundProxyGenerator.Generate api proxy = .ok rs) :
    ∀ r ∈ rs, r.Payload.kind = Kind.listener →
      ∃ o ∈ proxy.Outbound, ∃ endpoint route listener,
        api.ParseOutboundInterface o.Interface = .ok endpoint ∧
        routeOf proxy o.Service = some route ∧
        api.CreateOutboundListener (outboundListenerName endpoint) endpoint.DataplaneIP
          endpoint.DataplanePort o.Service
          ((route.Conf.filter (fun d =>
            (mapGet? d.Destination ServiceTag).isSome && d.Weight != 0)).map (fun d =>
            { Name := destinationClusterName (mapGet d.Destination ServiceTag) d.Destination
              Weight := d.Weight
              Tags := d.Destination }))
          (proxy.RedirectPort != 0) proxy.IdentifyingService o.Service
          (mapGet? proxy.LogsOutbounds o.Interface) proxy = .ok listener ∧
        r = { Name := outboundListenerName endpoint, Payload := .listener listener } := by
  unfold OutboundProxyGenerator.Generate at h
  by_cases hlen : proxy.Outbound.length = 0
  · simp only [hlen, if_true, Except.ok.injEq] at h
    subst h
    intro r hr
    cases hr
  · simp only [hlen, if_false] at h
    obtain ⟨st', hQ, rfl⟩ := loop_invariant_listener api proxy
      (fun st => ∀ r ∈ st.1, r.Payload.kind = Kind.listener →
        ∃ o ∈ proxy.Outbound, ∃ endpoint route listener,
          api.ParseOutboundInterface o.Interface = .ok endpoint ∧
          routeOf proxy o.Service = some route ∧
          OutboundProxyGenerator.createListener api proxy o endpoint
            (OutboundProxyGenerator.routeClusters route) = .ok listener ∧
          r = { Name := outboundListenerName endpoint, Payload := .listener listener })
      (by
        intro st c hst r hr hk
        unfold OutboundProxyGenerator.addCluster at hr
        split at hr
        · exact hst r hr hk
        · rw [List.mem_append] at hr
          rcases hr with hr | hr
          · exact hst r hr hk
          · simp only [OutboundProxyGenerator.clusterResources, List.mem_cons,
              List.mem_singleton, List.not_mem_nil, or_false] at hr
            rcases hr with rfl | rfl <;> cases hk)
      (by
        intro st o endpoint route listener ho hparse hroute hl hst r hr hk
        rw [List.mem_append] at hr
        rcases hr with hr | hr
        · exact hst r hr hk
        · rw [List.mem_singleton] at hr
          exact ⟨o, ho, endpoint, route, listener, hparse, hroute, hl, hr⟩)
      proxy.Outbound (fun _ ho => ho) 0 ([], []) (by intro r hr; cases hr) rs h
    intro r hr hk
    obtain ⟨o, ho, endpoint, route, listener, hparse, hroute, hl, hreq⟩ := hQ r hr hk
    refine ⟨o, ho, endpoint, route, listener, hparse, hroute, ?_, hreq⟩
    rw [← routeClusters_eq]
    exact hl

/-- C29. `OutboundProxyGenerator.GenerateTraced` is `Generate` with the calls of
the listener builder recorded: it returns what `Generate` returns. In every
run, each recorded call is made for an outbound interface, at the position of
the interface, that parses and has a route, and the cluster list it passes is
exactly the destinations of that route, in route order, that have a service
tag and non-zero weight, one entry per destination (no de-duplication), each
with the weight and tags of the destination and the name
`destinationClusterName service tags`; no entry has weight 0; no interface has
two calls. In a successful run, every outbound interface whose listener name
is neither the listener name of an earlier interface nor the name of a cluster
of a route up to it has such a call recorded, and the listener the call returns
is in the output; and every listener of the output comes from such a call. -/
theorem C29_listener_clusters (api : GeneratorApi) (proxy : Proxy) :
    (OutboundProxyGenerator.GenerateTraced api proxy).1
      = OutboundProxyGenerator.Generate api proxy ∧
    (∀ ic ∈ (OutboundProxyGenerator.GenerateTraced api proxy).2,
      ∃ pre o post endpoint route, proxy.Outbound = pre ++ o :: post ∧ ic.1 = pre.length ∧
        api.ParseOutboundInterface o.Interface = .ok endpoint ∧
        routeOf proxy o.Service = some route ∧
        ic.2 = OutboundProxyGenerator.listenerCall proxy o endpoint
          ((route.Conf.filter (fun d =>
            (mapGet? d.Destination ServiceTag).isSome && d.Weight != 0)).map (fun d =>
            { Name := destinationClusterName (mapGet d.Destination ServiceTag) d.Destination
              Weight := d.Weight
              Tags := d.Destination })) ∧
        ∀ c ∈ ic.2.Clusters, c.Weight ≠ 0) ∧
    (((OutboundProxyGenerator.GenerateTraced api proxy).2.map Prod.fst).Sorted (· < ·)) ∧
    (∀ rs, OutboundProxyGenerator.Generate api proxy = .ok rs →
      ∀ pre o post endpoint, proxy.Outbound = pre ++ o :: post →
        api.ParseOutboundInterface o.Interface = .ok endpoint →
        (∀ o' ∈ pre, ∀ endpoint', api.ParseOutboundInterface o'.Interface = .ok endpoint' →
          outboundListenerName endpoint' ≠ outboundListenerName endpoint) →
        (∀ o' ∈ pre ++ [o], ∀ route', routeOf proxy o'.Service = some route' →
          ∀ c ∈ OutboundProxyGenerator.routeClusters route',
            c.Name ≠ outboundListenerName endpoint) →
        ∃ route listener, routeOf proxy o.Service = some route ∧
          (pre.length, OutboundProxyGenerator.listenerCall proxy o endpoint
            ((route.Conf.filter (fun d =>
              (mapGet? d.Destination ServiceTag).isSome && d.Weight != 0)).map (fun d =>
              { Name := destinationClusterName (mapGet d.Destination ServiceTag) d.Destination
                Weight := d.Weight
                Tags := d.Destination })))
            ∈ (OutboundProxyGenerator.GenerateTraced api proxy).2 ∧
          api.CreateOutboundListener (outboundListenerName endpoint) endpoint.DataplaneIP
            endpoint.DataplanePort o.Service
            ((route.Conf.filter (fun d =>
              (mapGet? d.Destination ServiceTag).isSome && d.Weight != 0)).map (fun d =>
              { Name := destinationClusterName (mapGet d.Destination ServiceTag) d.Destination
                Weight := d.Weight
                Tags := d.Destination }))
            (proxy.RedirectPort != 0) proxy.IdentifyingService o.Service
            (mapGet? proxy.LogsOutbounds o.Interface) proxy = .ok listener ∧
          { Name := outboundListenerName endpoint, Payload := .listener listener } ∈ rs) ∧
    (∀ rs, OutboundProxyGenerator.Generate api proxy = .ok rs →
      ∀ r ∈ rs, r.Payload.kind = Kind.listener →
        ∃ o ∈ proxy.Outbound, ∃ endpoint route listener,
          api.ParseOutboundInterface o.Interface = .ok endpoint ∧
          routeOf proxy o.Service = some route ∧
          api.CreateOutboundListener (outboundListenerName endpoint) endpoint.DataplaneIP
            endpoint.DataplanePort o.Service
            ((route.Conf.filter (fun d =>
              (mapGet? d.Destination ServiceTag).isSome && d.Weight != 0)).map (fun d =>
              { Name := destinationClusterName (mapGet d.Destination ServiceTag) d.Destination
                Weight := d.Weight
                Tags := d.Destination }))
            (proxy.RedirectPort != 0) proxy.IdentifyingService o.Service
            (mapGet? proxy.LogsOutbounds o.Interface) proxy = .ok listener ∧
          r = { Name := outboundListenerName endpoint, Payload := .listener listener }) := by
  by_cases hlen : proxy.Outbound.length = 0
  · have hnil : proxy.Outbound = [] := List.length_eq_zero.mp hlen
    refine ⟨?_, ?_, ?_, ?_, fun rs h => listeners_from_builder api proxy rs h⟩
    · simp [OutboundProxyGenerator.GenerateTraced, OutboundProxyGenerator.Generate, hlen]
    · intro ic hic
      simp [OutboundProxyGenerator.GenerateTraced, hlen] at hic
    · simp [OutboundProxyGenerator.GenerateTraced, hlen]
    · intro rs _ pre o post endpoint hsplit
      rw [hnil] at hsplit
      exact absurd hsplit (by simp)
  · have htr : OutboundProxyGenerator.GenerateTraced api proxy
        = OutboundProxyGenerator.loopTraced api proxy 0 proxy.Outbound ([], []) := by
      simp [OutboundProxyGenerator.GenerateTraced, hlen]
    have hgen : OutboundProxyGenerator.Generate api proxy
        = OutboundProxyGenerator.loop api proxy 0 proxy.Outbound ([], []) := by
      simp [OutboundProxyGenerator.Generate, hlen]
    refine ⟨?_, ?_, ?_, ?_, fun rs h => listeners_from_builder api proxy rs h⟩
    · rw [htr, hgen, loopTraced_fst]
    · intro ic hic
      rw [htr] at hic
      obtain ⟨pre, o, post, endpoint, route, hsplit, hidx, hparse, hroute, hcall⟩ :=
        loopTraced_calls api proxy _ _ _ ic hic
      refine ⟨pre, o, post, endpoint, route, hsplit, by rw [hidx, Nat.zero_add], hparse,
        hroute, by rw [← routeClusters_eq]; exact hcall, ?_⟩
      intro c hc
      rw [hcall] at hc
      obtain ⟨d, _, _, _, hw, _, hcw, _⟩ := mem_routeClusters route c hc
      rw [hcw]
      exact hw
    · rw [htr]
      exact (loopTraced_indices api proxy _ _ _).2
    · intro rs h pre o post endpoint hsplit hparse hearlier hclusters
      rw [hgen, hsplit] at h
      obtain ⟨route, listener, hroute, hmem, hrun, hres⟩ :=
        loopTraced_call_made api proxy pre o post endpoint hparse hearlier hclusters 0
          ([], []) rs (by simp) h
      refine ⟨route, listener, hroute, ?_, ?_, hres⟩
      · rw [htr, hsplit, ← routeClusters_eq]
        simpa using hmem
      · rw [← routeClusters_eq]
        exact hrun

/-- C29 at a dataplane with two outbounds to `backend`, whose route lists the
same destination twice with weight 100, a destination of weight 0 and one
without a service tag: the builder is called once per interface, each time
with the two entries of weight 100, and the second interface meets the
conditions under which its call is recorded and its listener is in the
output. -/
theorem C29_listener_clusters_witness :
    (OutboundProxyGenerator.GenerateTraced Example.generatorApi
        Example.proxyRepeatedDestination).2
      = [(0, { Name := "outbound:127.0.0.1:10001", Address := "127.0.0.1", Port := 10001,
               Service := "backend",
               Clusters :=
                 [{ Name := "backend", Weight := 100, Tags := [("kuma.io/service", "backend")] },
                  { Name := "backend", Weight := 100, Tags := [("kuma.io/service", "backend")] }],
               Virtual := false, SourceService := "web", DestinationService := "backend",
               Logs := none, ProxyArg := Example.proxyRepeatedDestination }),
         (1, { Name := "outbound:127.0.0.1:10002", Address := "127.0.0.1", Port := 10002,
               Service := "backend",
               Clusters :=
                 [{ Name := "backend", Weight := 100, Tags := [("kuma.io/service", "backend")] },
                  { Name := "backend", Weight := 100, Tags := [("kuma.io/service", "backend")] }],
               Virtual := false, SourceService := "web", DestinationService := "backend",
               Logs := none, ProxyArg := Example.proxyRepeatedDestination })] ∧
    ∃ rs, OutboundProxyGenerator.Generate Example.generatorApi
        Example.proxyRepeatedDestination = .ok rs ∧
      ∃ route listener, routeOf Example.proxyRepeatedDestination "backend" = some route ∧
        (1, OutboundProxyGenerator.listenerCall Example.proxyRepeatedDestination
            { Interface := "127.0.0.1:10002", Service := "backend" }
            { DataplaneIP := "127.0.0.1", DataplanePort := 10002 }
            ((route.Conf.filter (fun d =>
              (mapGet? d.Destination ServiceTag).isSome && d.Weight != 0)).map (fun d =>
              { Name := destinationClusterName (mapGet d.Destination ServiceTag) d.Destination
                Weight := d.Weight
                Tags := d.Destination })))
          ∈ (OutboundProxyGenerator.GenerateTraced Example.generatorApi
              Example.proxyRepeatedDestination).2 ∧
        Example.generatorApi.CreateOutboundListener "outbound:127.0.0.1:10002" "127.0.0.1"
          10002 "backend"
          ((route.Conf.filter (fun d =>
            (mapGet? d.Destination ServiceTag).isSome && d.Weight != 0)).map (fun d =>
            { Name := destinationClusterName (mapGet d.Destination ServiceTag) d.Destination
              Weight := d.Weight
              Tags := d.Destination }))
          false "web" "backend" none Example.proxyRepeatedDestination = .ok listener ∧
        { Name := "outbound:127.0.0.1:10002", Payload := .listener listener } ∈ rs :=
  ⟨by decide, _, rfl,
    (C29_listener_clusters Example.generatorApi Example.proxyRepeatedDestination).2.2.2.1 _ rfl
      [{ Interface := "127.0.0.1:10001", Service := "backend" }]
      { Interface := "127.0.0.1:10002", Service := "backend" } []
      { DataplaneIP := "127.0.0.1", DataplanePort := 10002 } rfl rfl
      (by
        intro o' ho' endpoint' hparse'
        rw [List.mem_singleton] at ho'
        subst ho'
        have he : endpoint' = { DataplaneIP := "127.0.0.1", DataplanePort := 10001 } :=
          (Except.ok.inj hparse').symm
        subst he
        decide)
      (by
        intro o' ho' route' hroute' c hc
        have hs : o'.Service = "backend" := by
          simp only [List.singleton_append, List.mem_cons, List.mem_singleton,
            List.not_mem_nil, or_false] at ho'
          rcases ho' with rfl | rfl <;> rfl
        rw [hs] at hroute'
        have hr : route' = { Conf :=
            [{ Weight := 100, Destination := [("kuma.io/service", "backend")] },
             { Weight := 0,
               Destination := [("kuma.io/service", "backend"), ("version", "v2")] },
             { Weight := 100, Destination := [("kuma.io/service", "backend")] },
             { Weight := 50, Destination := [("version", "v3")] }] } :=
          (Option.some.inj hroute').symm
        subst hr
        revert c
        decide)⟩


/-! ## `BuildEndpointMap`: external services outside the destinations -/

/-- C31. With non-empty destinations and a zone egress, `BuildEndpointMap`
returns a map in which the endpoint of every external service stands under the
service tag of that external service, which is therefore a key of the map,
whatever the destinations hold for that service and whatever their selectors
match; when the destinations have no entry for it, the keys of the result are
not a subset of the keys of the destinations. -/
theorem C31_external_service_key_without_destination (api : MeshApi)
    (destinations : DestinationMap) (ze : ZoneEgressResource)
    (dataplanes : List DataplaneResource) (externalServices : List ExternalServiceResource)
    (es : ExternalServiceResource) (hne : destinations ≠ []) (hes : es ∈ externalServices) :
    ∃ m, BuildEndpointMap api destinations (some ze) dataplanes externalServices
        = .ok (some m) ∧
      externalServiceEndpoint ze es ∈ endpointsAt m (mapGet es.Tags ServiceTag) ∧
      mapGet es.Tags ServiceTag ∈ mapKeys m ∧
      (mapGet? destinations (mapGet es.Tags ServiceTag) = none →
        ¬ ∀ k ∈ mapKeys m, k ∈ mapKeys destinations) := by
  obtain ⟨m, hm, hat⟩ := BuildEndpointMap_some api destinations ze dataplanes
    externalServices hne
  have hmem : externalServiceEndpoint ze es ∈ endpointsAt m (mapGet es.Tags ServiceTag) := by
    rw [hat]
    apply List.mem_append_right
    unfold externalServiceEndpoints
    exact List.mem_map.mpr ⟨es, List.mem_filter.mpr ⟨hes, by simp⟩, rfl⟩
  have hkey : mapGet es.Tags ServiceTag ∈ mapKeys m := by
    rw [mem_mapKeys_iff]
    cases hv : mapGet? m (mapGet es.Tags ServiceTag) with
    | none => simp [endpointsAt, hv] at hmem
    | some v => exact ⟨v, rfl⟩
  refine ⟨m, hm, hmem, hkey, fun hnone hsub => ?_⟩
  obtain ⟨v, hv⟩ := (mem_mapKeys_iff destinations _).mp (hsub _ hkey)
  rw [hnone] at hv
  cases hv

/-- C31 at the scenario of the spec: the destinations hold the one key
`backend`, yet the result has the key `external-service-1`, so its keys are
not among the keys of the destinations. -/
theorem C31_external_service_key_without_destination_witness :
    Example.destinations ≠ [] ∧
    mapKeys Example.destinations = ["backend"] ∧
    mapGet Example.externalService1.Tags ServiceTag = "external-service-1" ∧
    ∃ m, BuildEndpointMap Example.meshApi Example.destinations (some Example.zoneEgress)
        [Example.dataplane] [Example.externalService1, Example.externalService2]
        = .ok (some m) ∧
      externalServiceEndpoint Example.zoneEgress Example.externalService1
        ∈ endpointsAt m (mapGet Example.externalService1.Tags ServiceTag) ∧
      mapGet Example.externalService1.Tags ServiceTag ∈ mapKeys m ∧
      (mapGet? Example.destinations (mapGet Example.externalService1.Tags ServiceTag) = none →
        ¬ ∀ k ∈ mapKeys m, k ∈ mapKeys Example.destinations) :=
  ⟨by decide, by decide, by decide,
    C31_external_service_key_without_destination Example.meshApi Example.destinations
      Example.zoneEgress [Example.dataplane]
      [Example.externalService1, Example.externalService2] Example.externalService1
      (by decide) (List.mem_cons_self _ _)⟩

/-! ## `destinationClusterName`: when the name determines its input -/

/-- Two lists that agree after a separator their heads do not contain have the
same head and the same rest. -/
theorem split_at_first (c : Char) (a b x y : List Char) (ha : c ∉ a) (hb : c ∉ b)
    (h : a ++ c :: x = b ++ c :: y) : a = b ∧ x = y := by
  induction a generalizing b with
  | nil =>
    cases b with
    | nil => simpa using h
    | cons d b =>
      simp only [List.nil_append, List.cons_append, List.cons.injEq] at h
      exact absurd h.1 (by
        intro hc
        exact hb (hc ▸ List.mem_cons_self _ _))
  | cons d a ih =>
    cases b with
    | nil =>
      simp only [List.nil_append, List.cons_append, List.cons.injEq] at h
      exact absurd h.1 (by
        intro hc
        exact ha (hc ▸ List.mem_cons_self _ _))
    | cons e b =>
      simp only [List.cons_append, List.cons.injEq] at h
      obtain ⟨hde, ht⟩ := h
      have := ih b (fun hm => ha (List.mem_cons_of_mem _ hm))
        (fun hm => hb (List.mem_cons_of_mem _ hm)) ht
      exact ⟨by rw [hde, this.1], this.2⟩

/-- The characters of `strings.Join`: the first string, then every further one
behind a separator. -/
theorem intercalate_go_data (acc s : String) (l : List String) :
    (String.intercalate.go acc s l).data
      = acc.data ++ (l.map (fun a => s.data ++ a.data)).flatten := by
  induction l generalizing acc with
  | nil => simp [String.intercalate.go]
  | cons a as ih =>
    simp [String.intercalate.go, ih, String.data_append, List.append_assoc]

/-- Joining renderings `key=value` with commas loses nothing when no key holds
an `=` and no value a comma: the first `=` ends the first key, the next comma
the first value. -/
theorem join_chars_injective (r1 r2 : List (List Char)) (p q : List Char)
    (h1 : ∀ x ∈ p :: r1, ∃ k v, x = k ++ '=' :: v ∧ '=' ∉ k ∧ ',' ∉ v)
    (h2 : ∀ x ∈ q :: r2, ∃ k v, x = k ++ '=' :: v ∧ '=' ∉ k ∧ ',' ∉ v)
    (h : p ++ (r1.map (fun x => ',' :: x)).flatten
      = q ++ (r2.map (fun x => ',' :: x)).flatten) : p = q ∧ r1 = r2 := by
  induction r1 generalizing p q r2 with
  | nil =>
    obtain ⟨k1, v1, rfl, hk1, hv1⟩ := h1 p (List.mem_cons_self _ _)
    obtain ⟨k2, v2, rfl, hk2, hv2⟩ := h2 q (List.mem_cons_self _ _)
    simp only [List.map_nil, List.flatten_nil, List.append_nil, List.append_assoc,
      List.cons_append] at h
    obtain ⟨hk, hv⟩ := split_at_first '=' _ _ _ _ hk1 hk2 h
    cases r2 with
    | nil =>
      simp only [List.map_nil, List.flatten_nil, List.append_nil] at hv
      exact ⟨by rw [hk, hv], rfl⟩
    | cons y r2 =>
      exfalso
      apply hv1
      rw [hv]
      simp
  | cons x r1 ih =>
    obtain ⟨k1, v1, rfl, hk1, hv1⟩ := h1 p (List.mem_cons_self _ _)
    obtain ⟨k2, v2, rfl, hk2, hv2⟩ := h2 q (List.mem_cons_self _ _)
    simp only [List.append_assoc, List.cons_append] at h
    obtain ⟨hk, hv⟩ := split_at_first '=' _ _ _ _ hk1 hk2 h
    cases r2 with
    | nil =>
      exfalso
      apply hv2
      simp only [List.map_nil, List.flatten_nil, List.append_nil] at hv
      rw [← hv]
      simp
    | cons y r2 =>
      simp only [List.map_cons, List.flatten_cons, List.cons_append] at hv
      obtain ⟨hv', hrest⟩ := split_at_first ',' _ _ _ _ hv1 hv2 hv
      obtain ⟨hxy, hr⟩ := ih r2 x y
        (fun z hz => h1 z (List.mem_cons_of_mem _ hz))
        (fun z hz => h2 z (List.mem_cons_of_mem _ hz)) hrest
      exact ⟨by rw [hk, hv'], by rw [hxy, hr]⟩

/-- On non-empty lists of renderings `key=value` whose keys hold no `=` and
whose values hold no comma, `strings.Join(_, ",")` is injective. -/
theorem intercalate_comma_injective (l1 l2 : List String) (hl1 : l1 ≠ []) (hl2 : l2 ≠ [])
    (h1 : ∀ x ∈ l1, ∃ k v, x.data = k ++ '=' :: v ∧ '=' ∉ k ∧ ',' ∉ v)
    (h2 : ∀ x ∈ l2, ∃ k v, x.data = k ++ '=' :: v ∧ '=' ∉ k ∧ ',' ∉ v)
    (h : ",".intercalate l1 = ",".intercalate l2) : l1 = l2 := by
  cases l1 with
  | nil => exact absurd rfl hl1
  | cons a l1 =>
    cases l2 with
    | nil => exact absurd rfl hl2
    | cons b l2 =>
      have hd := congrArg String.data h
      simp only [String.intercalate, intercalate_go_data] at hd
      have hc : ",".data = [','] := rfl
      simp only [hc, List.singleton_append] at hd
      have e1 : List.map (fun a => ',' :: a.data) l1
          = (l1.map String.data).map (fun x => ',' :: x) := by
        simp [List.map_map, Function.comp]
      have e2 : List.map (fun a => ',' :: a.data) l2
          = (l2.map String.data).map (fun x => ',' :: x) := by
        simp [List.map_map, Function.comp]
      rw [e1, e2] at hd
      obtain ⟨hab, hr⟩ := join_chars_injective _ _ a.data b.data
        (by
          intro x hx
          rw [← List.map_cons String.data a l1] at hx
          obtain ⟨s, hs, rfl⟩ := List.mem_map.mp hx
          exact h1 s hs)
        (by
          intro x hx
          rw [← List.map_cons String.data b l2] at hx
          obtain ⟨s, hs, rfl⟩ := List.mem_map.mp hx
          exact h2 s hs) hd
      have hinj : Function.Injective String.data := fun s t hst => String.ext hst
      rw [hinj hab, (List.map_injective_iff.mpr hinj) hr]

/-- The rendering `key=value` of a tag determines the tag when the key holds
no `=`. -/
theorem rendered_pair_injective (kv1 kv2 : String × String)
    (h1 : '=' ∉ kv1.1.data) (h2 : '=' ∉ kv2.1.data)
    (h : kv1.1 ++ "=" ++ kv1.2 = kv2.1 ++ "=" ++ kv2.2) : kv1 = kv2 := by
  have hd := congrArg String.data h
  simp only [String.data_append, List.append_assoc] at hd
  have hc : "=".data = ['='] := rfl
  simp only [hc, List.singleton_append] at hd
  obtain ⟨hk, hv⟩ := split_at_first '=' _ _ _ _ h1 h2 hd
  exact Prod.ext (String.ext hk) (String.ext hv)


/-- Sorting a non-empty list gives a non-empty list. -/
theorem sortStrings_ne_nil (l : List String) (h : l.length ≠ 0) : sortStrings l ≠ [] := by
  intro hnil
  have := (sortStrings_perm l).length_eq
  rw [hnil] at this
  exact h this.symm

/-- The sorted renderings of the non-service tags of a selector are renderings
`key=value` with an `=`-free key and a comma-free value, when the tags are. -/
theorem sorted_pairs_rendered (selector : Tags)
    (ht : ∀ kv ∈ selector, kv.1 ≠ ServiceTag → '=' ∉ kv.1.data ∧ ',' ∉ kv.2.data) :
    ∀ x ∈ sortStrings ((selector.filter (fun kv => kv.1 != ServiceTag)).map
        (fun kv => kv.1 ++ "=" ++ kv.2)),
      ∃ k v, x.data = k ++ '=' :: v ∧ '=' ∉ k ∧ ',' ∉ v := by
  intro x hx
  rw [(sortStrings_perm _).mem_iff, List.mem_map] at hx
  obtain ⟨kv, hkv, rfl⟩ := hx
  rw [List.mem_filter] at hkv
  have hne : kv.1 ≠ ServiceTag := by simpa using hkv.2
  obtain ⟨h1, h2⟩ := ht kv hkv.1 hne
  exact ⟨kv.1.data, kv.2.data, by simp [String.data_append], h1, h2⟩

/-- One half of the set equality of the non-service tags: a tag of the first selector
is one of the second, when the sorted renderings agree. -/
theorem pairs_subset_of_sorted_eq (selector1 selector2 : Tags)
    (ht1 : ∀ kv ∈ selector1, kv.1 ≠ ServiceTag → '=' ∉ kv.1.data ∧ ',' ∉ kv.2.data)
    (ht2 : ∀ kv ∈ selector2, kv.1 ≠ ServiceTag → '=' ∉ kv.1.data ∧ ',' ∉ kv.2.data)
    (h : sortStrings ((selector1.filter (fun kv => kv.1 != ServiceTag)).map
        (fun kv => kv.1 ++ "=" ++ kv.2))
      = sortStrings ((selector2.filter (fun kv => kv.1 != ServiceTag)).map
        (fun kv => kv.1 ++ "=" ++ kv.2)))
    (kv : String × String) (hkv : kv ∈ selector1.filter (fun kv => kv.1 != ServiceTag)) :
    kv ∈ selector2.filter (fun kv => kv.1 != ServiceTag) := by
  have hm : kv.1 ++ "=" ++ kv.2 ∈ sortStrings
      ((selector2.filter (fun kv => kv.1 != ServiceTag)).map
        (fun kv => kv.1 ++ "=" ++ kv.2)) := by
    rw [← h, (sortStrings_perm _).mem_iff]
    exact List.mem_map.mpr ⟨kv, hkv, rfl⟩
  rw [(sortStrings_perm _).mem_iff, List.mem_map] at hm
  obtain ⟨kv', hkv', he⟩ := hm
  have hf1 := List.mem_filter.mp hkv
  have hf2 := List.mem_filter.mp hkv'
  have hk1 := (ht1 kv hf1.1 (by simpa using hf1.2)).1
  have hk2 := (ht2 kv' hf2.1 (by simpa using hf2.2)).1
  rw [← rendered_pair_injective kv' kv hk2 hk1 he]
  exact hkv'

/-- C32, amended. For two inputs whose services hold no opening brace, whose
non-service tag keys hold no `=` and whose non-service tag values hold no
comma, equal names from `destinationClusterName` imply equal services and
equal sets of non-service tag pairs. -/
theorem C32_collision_free_without_separators (service1 service2 : String)
    (selector1 selector2 : Tags)
    (hs1 : '\x7b' ∉ service1.data) (hs2 : '\x7b' ∉ service2.data)
    (ht1 : ∀ kv ∈ selector1, kv.1 ≠ ServiceTag → '=' ∉ kv.1.data ∧ ',' ∉ kv.2.data)
    (ht2 : ∀ kv ∈ selector2, kv.1 ≠ ServiceTag → '=' ∉ kv.1.data ∧ ',' ∉ kv.2.data)
    (h : destinationClusterName service1 selector1
      = destinationClusterName service2 selector2) :
    service1 = service2 ∧
    ∀ kv, kv ∈ selector1.filter (fun kv => kv.1 != ServiceTag) ↔
      kv ∈ selector2.filter (fun kv => kv.1 != ServiceTag) := by
  have hbrace : ∀ (s t u : String), '\x7b' ∉ s.data → s ≠ t ++ "\x7b" ++ u ++ "\x7d" := by
    intro s t u hs he
    apply hs
    rw [he]
    simp [String.data_append]
  unfold destinationClusterName at h
  simp only [List.length_map] at h
  by_cases e1 : (selector1.filter (fun kv => kv.1 != ServiceTag)).length = 0
  · by_cases e2 : (selector2.filter (fun kv => kv.1 != ServiceTag)).length = 0
    · rw [if_pos e1, if_pos e2] at h
      rw [List.length_eq_zero] at e1 e2
      exact ⟨h, fun kv => by rw [e1, e2]⟩
    · rw [if_pos e1, if_neg e2] at h
      exact absurd h (hbrace _ _ _ hs1)
  · by_cases e2 : (selector2.filter (fun kv => kv.1 != ServiceTag)).length = 0
    · rw [if_neg e1, if_pos e2] at h
      exact absurd h.symm (hbrace _ _ _ hs2)
    · rw [if_neg e1, if_neg e2] at h
      have hd := congrArg String.data h
      simp only [String.data_append, List.append_assoc] at hd
      have hc : "\x7b".data = ['\x7b'] := rfl
      simp only [hc, List.singleton_append] at hd
      obtain ⟨hsd, hbody⟩ := split_at_first '\x7b' _ _ _ _ hs1 hs2 hd
      have hjoin := List.append_cancel_right hbody
      have hsorted := intercalate_comma_injective _ _
        (sortStrings_ne_nil _ (by simpa using e1))
        (sortStrings_ne_nil _ (by simpa using e2))
        (sorted_pairs_rendered selector1 ht1) (sorted_pairs_rendered selector2 ht2)
        (String.ext hjoin)
      exact ⟨String.ext hsd, fun kv =>
        ⟨pairs_subset_of_sorted_eq selector1 selector2 ht1 ht2 hsorted kv,
         pairs_subset_of_sorted_eq selector2 selector1 ht2 ht1 hsorted.symm kv⟩⟩

/-- C32, as stated, fails: the name is the plain concatenation of the service
and the sorted renderings `key=value`, without escaping. A value holding a
comma collides with two tags, a key holding an `=` with a shorter key, and a
service holding a brace with a service that has tags. -/
theorem C32_counterexample :
    (destinationClusterName "backend"
        [("kuma.io/service", "backend"), ("version", "v1,zone=east")]
      = destinationClusterName "backend"
        [("kuma.io/service", "backend"), ("version", "v1"), ("zone", "east")] ∧
      ¬ ∀ kv, kv ∈ [("kuma.io/service", "backend"), ("version", "v1,zone=east")].filter
            (fun kv => kv.1 != ServiceTag) ↔
          kv ∈ [("kuma.io/service", "backend"), ("version", "v1"), ("zone", "east")].filter
            (fun kv => kv.1 != ServiceTag)) ∧
    (destinationClusterName "backend" [("kuma.io/service", "backend"), ("a=b", "c")]
      = destinationClusterName "backend" [("kuma.io/service", "backend"), ("a", "b=c")] ∧
      ¬ ∀ kv, kv ∈ [("kuma.io/service", "backend"), ("a=b", "c")].filter
            (fun kv => kv.1 != ServiceTag) ↔
          kv ∈ [("kuma.io/service", "backend"), ("a", "b=c")].filter
            (fun kv => kv.1 != ServiceTag)) ∧
    (destinationClusterName "backend\x7bversion=v1\x7d"
        [("kuma.io/service", "backend\x7bversion=v1\x7d")]
      = destinationClusterName "backend"
        [("kuma.io/service", "backend"), ("version", "v1")] ∧
      "backend\x7bversion=v1\x7d" ≠ "backend") := by
  refine ⟨⟨by decide, fun h => ?_⟩, ⟨by decide, fun h => ?_⟩, by decide, by decide⟩
  · exact absurd ((h ("zone", "east")).mpr (by decide)) (by decide)
  · exact absurd ((h ("a", "b=c")).mpr (by decide)) (by decide)

/-- C32, amended, at two selectors that list the same tags in different order:
the names agree, and so do the services and the non-service tags. -/
theorem C32_collision_free_without_separators_witness :
    destinationClusterName "backend"
        [("kuma.io/service", "backend"), ("version", "v1"), ("zone", "east")]
      = destinationClusterName "backend"
        [("zone", "east"), ("version", "v1"), ("kuma.io/service", "backend")] ∧
    ("backend" = "backend" ∧
      ∀ kv, kv ∈ [("kuma.io/service", "backend"), ("version", "v1"), ("zone", "east")].filter
            (fun kv => kv.1 != ServiceTag) ↔
          kv ∈ [("zone", "east"), ("version", "v1"), ("kuma.io/service", "backend")].filter
            (fun kv => kv.1 != ServiceTag)) :=
  ⟨by decide,
    C32_collision_free_without_separators "backend" "backend"
      [("kuma.io/service", "backend"), ("version", "v1"), ("zone", "east")]
      [("zone", "east"), ("version", "v1"), ("kuma.io/service", "backend")]
      (by decide) (by decide) (by decide) (by decide) (by decide)⟩

end Kuma
